import Mathlib

/-!
Shallow embedding of the element-resolution and action-dispatch engine of the
MCP-demo repository (src/Tools/ElementLocation/location.py,
src/Tools/Debug/debug.py, src/Tools/BrowserControl/navigation.py,
src/Tools/ElementInteraction/interaction.py).

The page driver (Playwright) is external to the repository; it is modelled as a
record of abstract response functions (`Driver`).  Python strings are Lean
`String`s; Python `None` for an optional string is `Option.none`; Python
truthiness of a string is "non-empty".  A Playwright call that can raise is
modelled as `Except String _` (the `String` is `str(e)`); `wait_for_selector`
additionally has a null result (`WaitRes.nullRes`) because the source checks
`if element:` after it.  Result dictionaries are modelled as a record with
`Option` fields: `none` stands for "key absent".
-/

namespace MCP

/-- Python truthiness of an optional string: `None` and `""` are falsy. -/
def optTruthy : Option String → Bool
  | none => false
  | some s => s ≠ ""

/-- Python f-string interpolation of a possibly-`None` string: `str(None) = "None"`. -/
def pyStr : Option String → String
  | none => "None"
  | some s => s

/-- `x or y` on Python optional strings (first truthy operand). -/
def pyOr (x y : Option String) : Option String :=
  if optTruthy x then x else y

/-- `needle` is a prefix of `hay` (plain list match). -/
def listIsPref [DecidableEq α] : List α → List α → Bool
  | [], _ => true
  | _ :: _, [] => false
  | a :: as, b :: bs => a = b && listIsPref as bs

/-- `needle` occurs as a contiguous sublist of `hay`; the empty needle always occurs
(Python `"" in s` and JS `s.includes("")` are true). -/
def listHasSub [DecidableEq α] (needle : List α) : List α → Bool
  | [] => needle.isEmpty
  | a :: as => listIsPref needle (a :: as) || listHasSub needle as

/-- Lower-casing, character by character (Python `str.lower()`,
JS `String.prototype.toLowerCase()`). -/
def pyLower (s : String) : String := ⟨s.data.map Char.toLower⟩

/-- Case-insensitive substring test: Python `needle.lower() in hay.lower()`,
JS `hay.toLowerCase().includes(needle.toLowerCase())`. -/
def containsCI (hay needle : String) : Bool :=
  listHasSub (pyLower needle).data (pyLower hay).data

/-- First 100 characters, Python `text[:100]` / JS `text.substring(0, 100)`. -/
def take100 (s : String) : String := ⟨s.data.take 100⟩

/-- Stable insertion into a list sorted descending by `key`: the new element goes
before the first element whose key is not larger.  Processing the original list
front-to-back with this insert reproduces Python's stable `list.sort(key=...,
reverse=True)` and JS's stable `Array.prototype.sort((a,b)=>b.k-a.k)`. -/
def insDesc (key : α → Nat) (x : α) : List α → List α
  | [] => [x]
  | y :: ys => if key y ≤ key x then x :: y :: ys else y :: insDesc key x ys

/-- Stable descending sort by `key` (see `insDesc`). -/
def sortDesc (key : α → Nat) : List α → List α
  | [] => []
  | x :: xs => insDesc key x (sortDesc key xs)

/-- Abstract element handle returned by the driver. -/
structure Elem where
  eid : Nat
deriving DecidableEq, Repr

/-- Result of `page.wait_for_selector`: an element, a null return, or a raised
exception (Playwright raises `TimeoutError` on expiry) carrying `str(e)`. -/
inductive WaitRes where
  | found (e : Elem)
  | nullRes
  | raised (msg : String)
deriving DecidableEq, Repr

/-- An action performed on a located element handle. -/
inductive EAct where
  | clickA
  | fillA (text : String)
  | hoverA
  | selectA (value : String)
deriving DecidableEq, Repr

/-- `element.bounding_box()` result. -/
structure BBox where
  x : Int
  y : Int
  w : Int
  h : Int
deriving DecidableEq, Repr

/-- A node of `page.accessibility.snapshot()`: `{name, role, children}`. -/
inductive AXNode where
  | node (nm : Option String) (role : Option String) (children : List AXNode)

/-- An element of the page DOM as seen by the scan scripts
(`playwright_js_locate`'s evaluate and the last-resort click script). -/
structure DomEl where
  tag : String
  idAttr : String
  classes : List String
  innerText : String
  textContent : String
  attrs : List (String × String)
  /-- The structural path `getXPath` computes when the element has no id
  (`/html[1]/body[1]/...`); carried as data since the scan claims do not
  depend on how it is derived from the tree shape. -/
  structPath : String
deriving DecidableEq, Repr

/-- One entry of the list returned by `playwright_js_locate`'s page script. -/
structure JsCand where
  tag : String
  idAttr : String
  classes : List String
  textS : String
  score : Nat
  xpath : String
deriving DecidableEq, Repr

/-- A scored accessibility node collected by `search_nodes`. -/
structure SNode where
  nm : Option String
  role : Option String
  rel : Nat
deriving DecidableEq, Repr

/-- One `element_info` entry of `playwright_find_element`. -/
structure FoundEl where
  tag : String
  textS : String
  attrs : List (String × String)
  relevance : Nat
deriving DecidableEq, Repr

/-- One attempt record (Python dict appended to the `attempts` list).  `none`
means the key is absent; a key that is present with value `None` is also
modelled as `none` (no claim distinguishes the two). -/
structure Attempt where
  strategy : String
  selector : Option String := none
  descr : Option String := none
  textKey : Option String := none
  target : Option String := none
  result : String := ""
  errMsg : Option String := none
deriving DecidableEq, Repr

/-- The `page_info` diagnostic block of `playwright_multi_strategy_locate`. -/
structure PageInfo where
  url : String
  title : String
  contentSnippet : String
deriving DecidableEq, Repr

/-- `elementInfo` returned by the last-resort click script. -/
structure JsClickInfo where
  tagName : String
  idAttr : String
  className : String
deriving DecidableEq, Repr

/-- The result dictionary of one tool call.  Each field is one key that some
tool writes; `none` = key absent. -/
structure Outcome where
  status : String := ""
  message : String := ""
  selectorUsed : Option String := none
  elementFound : Option Bool := none
  screenshot : Option String := none
  triedSelectors : Option (List String) := none
  fallbacksTried : Option (List String) := none
  errInfo : Option String := none
  debugScreenshot : Option String := none
  strategyUsed : Option String := none
  actionPerformed : Option String := none
  attemptedStrategies : Option (List String) := none
  detailedAttempts : Option (List Attempt) := none
  pageInfo : Option PageInfo := none
  suggestion : Option String := none
  elementDetailsAx : Option (Option String × Option String) := none
  accessibilityDetails : Option (Option String × Option String) := none
  elementDetailsJs : Option JsCand := none
  nodesAx : Option (List (Option String × Option String)) := none
  elementsJs : Option (List JsCand) := none
  elementsFound : Option (List FoundEl) := none
  position : Option (Option BBox) := none
  pagesCount : Option Nat := none
  pageTitle : Option String := none
  pageUrl : Option String := none
deriving DecidableEq, Repr

/-- One driver (page) operation, for the call log: which page primitives a run
touched, in order. -/
inductive DCall where
  | waitC (selector : String) (timeoutMs : Nat)
  | clickSelC (selector : String)
  | fillSelC (selector : String) (text : String)
  | hoverSelC (selector : String)
  | selectSelC (selector : String) (value : String)
  | actC (e : Elem) (a : EAct)
  | axSnapC
  | queryAllC (selector : String)
  | evalLocateC (descr : Option String)
  | jsDirectClickC (target : String)
  | gotoC (url : String)
  | titleC
  | bodyC
  | shotC (path : String)
deriving DecidableEq, Repr

/-- The abstract page driver: one page's answers to the primitive operations the
tools use.  All answers are fixed functions of the query, so one `Driver` value
is one unchanged page state.  The screenshot result is deliberately independent
of the file name (a real screenshot failure does not depend on the
timestamp-derived name). -/
structure Driver where
  wait : String → Nat → WaitRes
  clickSel : String → Except String Unit
  fillSel : String → String → Except String Unit
  hoverSel : String → Except String Unit
  selectSel : String → String → Except String Unit
  elemAct : Elem → EAct → Except String Unit
  bbox : Elem → Option BBox
  axSnap : Except String (Option AXNode)
  dom : List DomEl
  querySel : String → Option DomEl
  queryAll : String → List Elem
  tagOf : Elem → String
  textOf : Elem → String
  attrsOf : Elem → List (String × String)
  goto : String → Except String Unit
  titleE : Except String String
  bodyE : Except String String
  urlStr : String
  shot : Except String Unit
  closeRes : Except String Unit

/-- Error detail of one strategy attempt of `playwright_accessibility_locator`
when `description` is `None`: `description.lower()` raises. -/
def noneLowerMsg : String := "'NoneType' object has no attribute 'lower'"

/-- Error raised by `playwright_js_locate`'s page script when `description` is
`None` (`description.toLowerCase()` on `null`). -/
def jsNullDescMsg : String :=
  "TypeError: Cannot read properties of null (reading 'toLowerCase')"

/-- Score contribution of one accessibility-node field: the source first tests
the field's truthiness, then evaluates `description.lower()` (which raises when
the description is `None`), then the containment. -/
def axFieldScore (field : Option String) (descr : Option String) (pts : Nat) :
    Except String Nat :=
  if optTruthy field then
    match descr with
    | none => .error noneLowerMsg
    | some d => .ok (if containsCI (field.getD "") d then pts else 0)
  else
    .ok 0

mutual

/-- `search_nodes` of `playwright_accessibility_locator`: pre-order traversal
collecting each node whose name/role score is positive (name match 10, role
match 5), in discovery order. -/
def axCollect (descr : Option String) : AXNode → Except String (List SNode)
  | .node nm role children => do
    let r1 ← axFieldScore nm descr 10
    let r2 ← axFieldScore role descr 5
    let rest ← axCollectList descr children
    pure ((if r1 + r2 > 0 then [⟨nm, role, r1 + r2⟩] else []) ++ rest)

/-- `search_nodes` over a child list, left to right. -/
def axCollectList (descr : Option String) : List AXNode → Except String (List SNode)
  | [] => pure []
  | n :: ns => do
    let a ← axCollect descr n
    let b ← axCollectList descr ns
    pure (a ++ b)

end

/-- The element action chain of `playwright_accessibility_locator`
(`click`/`fill`/`select_option`; any other action does nothing). -/
def actA11y (drv : Driver) (e : Elem) (action : String) (input : String) :
    Except String Unit × List DCall :=
  if action = "click" then (drv.elemAct e .clickA, [.actC e .clickA])
  else if action = "fill" then (drv.elemAct e (.fillA input), [.actC e (.fillA input)])
  else if action = "select" then (drv.elemAct e (.selectA input), [.actC e (.selectA input)])
  else (.ok (), [])

/-- The element action chain of `playwright_vision_locator` and
`playwright_js_locate` (`click`/`fill` only; any other action does nothing). -/
def actClickFill (drv : Driver) (e : Elem) (action : String) (input : String) :
    Except String Unit × List DCall :=
  if action = "click" then (drv.elemAct e .clickA, [.actC e .clickA])
  else if action = "fill" then (drv.elemAct e (.fillA input), [.actC e (.fillA input)])
  else (.ok (), [])

/-- Modelled from the spec: `PlaywrightBase._get_page` is not among the staged
source files (only its call sites are).  Per the spec's §3/§7, an index is
valid iff it addresses a page of the session's ordered page collection;
otherwise the tools report the `InvalidRequest` error "Invalid page index". -/
def getPage (pages : List Driver) (pageIndex : Int) : Option Driver :=
  if h : 0 ≤ pageIndex ∧ pageIndex.toNat < pages.length then
    some (pages.get ⟨pageIndex.toNat, h.2⟩)
  else
    none

/-- `playwright_accessibility_locator` (src/Tools/ElementLocation/location.py
lines 277-382).  Returns the result dictionary and the ordered driver calls. -/
def playwright_accessibility_locator (pages : List Driver) (description : Option String)
    (action : String := "find") (textInput : String := "") (pageIndex : Int := 0) :
    Outcome × List DCall :=
  match getPage pages pageIndex with
  | none => ({ status := "error", message := "Invalid page index" }, [])
  | some drv =>
    match drv.axSnap with
    | .error m => ({ status := "error", message := m }, [.axSnapC])
    | .ok snap =>
      let collected : Except String (List SNode) :=
        match snap with
        | none => .ok []
        | some root => axCollect description root
      match collected with
      | .error m => ({ status := "error", message := m }, [.axSnapC])
      | .ok nodes =>
        let sorted := sortDesc SNode.rel nodes
        if action = "find" then
          ({ status := "success",
             message := "Found " ++ toString sorted.length ++
               " accessibility nodes matching: " ++ pyStr description,
             nodesAx := some ((sorted.take 5).map fun n => (n.nm, n.role)) },
           [.axSnapC])
        else
          match sorted with
          | top :: _ =>
            if action = "click" || action = "fill" || action = "select" then
              -- map the node back to a DOM element (buttons and links only)
              let resolve : Option Elem × List DCall :=
                if top.role = some "button" || top.role = some "link" then
                  let sel1 := "[role='" ++ pyStr top.role ++ "'][name='" ++
                    pyStr top.nm ++ "']"
                  match drv.wait sel1 1000 with
                  | .found e => (some e, [.waitC sel1 1000])
                  | .nullRes => (none, [.waitC sel1 1000])
                  | .raised _ =>
                    let sel2 := "text='" ++ pyStr top.nm ++ "'"
                    match drv.wait sel2 1000 with
                    | .found e => (some e, [.waitC sel1 1000, .waitC sel2 1000])
                    | _ => (none, [.waitC sel1 1000, .waitC sel2 1000])
                else (none, [])
              match resolve with
              | (some e, cs) =>
                let (r, cs2) := actA11y drv e action textInput
                match r with
                | .ok _ =>
                  ({ status := "success",
                     message := "Successfully performed " ++ action ++
                       " on element via accessibility tree",
                     elementFound := some true,
                     elementDetailsAx := some (top.nm, top.role) },
                   .axSnapC :: cs ++ cs2)
                | .error m => ({ status := "error", message := m }, .axSnapC :: cs ++ cs2)
              | (none, cs) =>
                ({ status := "error",
                   message := "Found accessibility node but couldn't locate corresponding DOM element",
                   accessibilityDetails := some (top.nm, top.role) },
                 .axSnapC :: cs)
            else
              ({ status := "error",
                 message := "No matching accessibility nodes found for " ++
                   pyStr description ++ " or unsupported action: " ++ action },
               [.axSnapC])
          | [] =>
            ({ status := "error",
               message := "No matching accessibility nodes found for " ++
                 pyStr description ++ " or unsupported action: " ++ action },
             [.axSnapC])

/-- `playwright_vision_locator` (location.py lines 384-430). -/
def playwright_vision_locator (pages : List Driver) (textArg : Option String)
    (exact : Bool := false) (action : String := "find") (textInput : String := "")
    (pageIndex : Int := 0) : Outcome × List DCall :=
  match getPage pages pageIndex with
  | none => ({ status := "error", message := "Invalid page index" }, [])
  | some drv =>
    let sel :=
      if exact then "text='" ++ pyStr textArg ++ "'"
      else "text='" ++ pyStr textArg ++ "' >> visible=true"
    match drv.wait sel 2000 with
    | .found e =>
      if action = "find" then
        ({ status := "success",
           message := "Found text '" ++ pyStr textArg ++ "' on page",
           elementFound := some true, position := some (drv.bbox e) },
         [.waitC sel 2000])
      else
        let (r, cs) := actClickFill drv e action textInput
        match r with
        | .ok _ =>
          ({ status := "success",
             message := "Successfully performed " ++ action ++
               " on element with text: " ++ pyStr textArg,
             elementFound := some true },
           .waitC sel 2000 :: cs)
        | .error m => ({ status := "error", message := m }, .waitC sel 2000 :: cs)
    | .nullRes =>
      ({ status := "error",
         message := "Could not find text '" ++ pyStr textArg ++ "' on page" },
       [.waitC sel 2000])
    | .raised m => ({ status := "error", message := m }, [.waitC sel 2000])

/-- Visible text of a DOM element in the scan scripts:
`el.innerText || el.textContent || ''`. -/
def jsTextOf (el : DomEl) : String :=
  if el.innerText ≠ "" then el.innerText else el.textContent

/-- The fixed attribute set of `playwright_js_locate`'s page script. -/
def jsFixedAttrs : List String := ["placeholder", "title", "aria-label", "alt", "name"]

/-- `el.hasAttribute(a) && el.getAttribute(a).toLowerCase().includes(descLower)`. -/
def jsAttrMatch (el : DomEl) (a : String) (descr : String) : Bool :=
  match el.attrs.lookup a with
  | some v => containsCI v descr
  | none => false

/-- The per-element relevance score of `playwright_js_locate`'s page script:
10 for a text match plus 5 for each matching attribute of the fixed set. -/
def jsScore (el : DomEl) (descr : String) : Nat :=
  let s1 := if containsCI (jsTextOf el) descr then 10 else 0
  jsFixedAttrs.foldl (fun acc a => if jsAttrMatch el a descr then acc + 5 else acc) s1

/-- `getXPath` of the page script: an id shortcut, else the structural path. -/
def getXPathOf (el : DomEl) : String :=
  if el.idAttr ≠ "" then "//*[@id=\"" ++ el.idAttr ++ "\"]" else el.structPath

/-- The positive-score candidates of `playwright_js_locate`'s page script, in
DOM (discovery) order. -/
def jsScored (dom : List DomEl) (descr : String) : List JsCand :=
  dom.filterMap fun el =>
    let s := jsScore el descr
    if s > 0 then
      some ⟨pyLower el.tag, el.idAttr, el.classes, take100 (jsTextOf el), s, getXPathOf el⟩
    else none

/-- The match list computed by `playwright_js_locate`'s page script: positive-score
elements in DOM order, stably sorted descending by score, first 5. -/
def jsMatches (dom : List DomEl) (descr : String) : List JsCand :=
  (sortDesc JsCand.score (jsScored dom descr)).take 5

/-- `playwright_js_locate` (location.py lines 432-543). -/
def playwright_js_locate (pages : List Driver) (description : Option String)
    (action : String := "find") (textInput : String := "") (pageIndex : Int := 0) :
    Outcome × List DCall :=
  match getPage pages pageIndex with
  | none => ({ status := "error", message := "Invalid page index" }, [])
  | some drv =>
    match description with
    | none =>
      -- the page script evaluates `description.toLowerCase()` on null and raises
      ({ status := "error", message := jsNullDescMsg }, [.evalLocateC none])
    | some d =>
      let elements := jsMatches drv.dom d
      match elements with
      | [] =>
        ({ status := "error",
           message := "No elements found matching description: " ++ d },
         [.evalLocateC (some d)])
      | top :: _ =>
        if action = "find" then
          ({ status := "success",
             message := "Found " ++ toString elements.length ++
               " elements matching: " ++ d,
             elementsJs := some elements },
           [.evalLocateC (some d)])
        else
          let xp := "xpath=" ++ top.xpath
          match drv.wait xp 2000 with
          | .found e =>
            let (r, cs) := actClickFill drv e action textInput
            match r with
            | .ok _ =>
              ({ status := "success",
                 message := "Successfully performed " ++ action ++
                   " on element via JS locator",
                 elementFound := some true, elementDetailsJs := some top },
               .evalLocateC (some d) :: .waitC xp 2000 :: cs)
            | .error m =>
              ({ status := "error", message := m },
               .evalLocateC (some d) :: .waitC xp 2000 :: cs)
          | .nullRes =>
            ({ status := "error",
               message := "Found element with JS but couldn't interact with it",
               elementDetailsJs := some top },
             [.evalLocateC (some d), .waitC xp 2000])
          | .raised m =>
            ({ status := "error", message := m },
             [.evalLocateC (some d), .waitC xp 2000])

/-- Selector list `playwright_find_element` derives from the description's
keywords (location.py lines 185-219). -/
def buildFindSelectors (keywords : List String) : List String :=
  let anyKw := fun (ws : List String) => ws.any fun w => keywords.contains w
  let s1 := if anyKw ["button", "click", "submit"] then
    ["button", "input[type='button']", "input[type='submit']", "[role='button']"] else []
  let s2 := if anyKw ["link", "anchor", "href"] then ["a"] else []
  let s3 := if anyKw ["input", "field", "text", "enter"] then
    ["input[type='text']", "input:not([type='button']):not([type='submit'])", "textarea"]
    else []
  let s4 := if anyKw ["checkbox", "check"] then ["input[type='checkbox']"] else []
  let s5 := if anyKw ["radio"] then ["input[type='radio']"] else []
  let s6 := if anyKw ["select", "dropdown", "option"] then ["select"] else []
  let sels := s1 ++ s2 ++ s3 ++ s4 ++ s5 ++ s6
  if sels = [] then ["button", "a", "input", "select", "textarea", "[role='button']"]
  else sels

/-- The relevance score of `playwright_find_element` (location.py lines 241-250):
10 if the truthy visible text contains any keyword, plus 5 for EACH attribute
(of any name) whose truthy value contains any keyword. -/
def findScore (textS : String) (attrs : List (String × String)) (keywords : List String) : Nat :=
  let s1 := if textS ≠ "" && keywords.any (fun kw => containsCI textS kw) then 10 else 0
  attrs.foldl
    (fun acc p => if p.2 ≠ "" && keywords.any (fun kw => containsCI p.2 kw) then acc + 5 else acc)
    s1

/-- Splitting a character list at whitespace (accumulator holds the current
word reversed). -/
def splitWsAux : List Char → List Char → List (List Char)
  | [], acc => [acc.reverse]
  | c :: cs, acc =>
    if c.isWhitespace then acc.reverse :: splitWsAux cs []
    else splitWsAux cs (c :: acc)

/-- Python `description.lower().split()`: split on whitespace runs, dropping
empty pieces. -/
def pySplitWords (s : String) : List String :=
  ((splitWsAux (pyLower s).data []).map fun l => (⟨l⟩ : String)).filter (· ≠ "")

/-- The positive-score candidates of `playwright_find_element`, in discovery
order (selector list order, then DOM order per selector; an element matched by
several selectors appears once per match). -/
def findScored (drv : Driver) (description : String) : List FoundEl :=
  let keywords := pySplitWords description
  let selectors := buildFindSelectors keywords
  let cands := selectors.flatMap fun sel => drv.queryAll sel
  cands.filterMap fun e =>
    let textS := drv.textOf e
    let attrs := drv.attrsOf e
    let sc := findScore textS attrs keywords
    if sc > 0 then some (⟨drv.tagOf e, take100 textS, attrs, sc⟩ : FoundEl) else none

/-- `playwright_find_element` (location.py lines 177-275). -/
def playwright_find_element (pages : List Driver) (description : String)
    (pageIndex : Int := 0) (maxResults : Nat := 5) : Outcome × List DCall :=
  match getPage pages pageIndex with
  | none => ({ status := "error", message := "Invalid page index" }, [])
  | some drv =>
    let out := (sortDesc FoundEl.relevance (findScored drv description)).take maxResults
    ({ status := "success",
       message := "Found " ++ toString out.length ++
         " elements matching description: " ++ description,
       elementsFound := some out },
     (buildFindSelectors (pySplitWords description)).map .queryAllC)

/-- Resolution of the outer `try/except` of `playwright_smart_click` and
`playwright_multi_strategy_locate`: an uncaught exception becomes a success
outcome when the request is optional, an error outcome otherwise. -/
def excResolve (optional : Bool) (m : String) : Outcome :=
  if optional then
    { status := "success",
      message := "Optional action: Exception occurred but continuing. Error: " ++ m,
      elementFound := some false, errInfo := some m }
  else { status := "error", message := m }

/-- The fuzzy selector list of `playwright_smart_click` (location.py lines 72-99). -/
def smartSelList (text : String) (elementType : String) : List String :=
  let b := if elementType = "any" || elementType = "button" then
    ["button:has-text('" ++ text ++ "')",
     "button:has-text('" ++ text ++ "', 'i')",
     "input[type='button'][value*='" ++ text ++ "']",
     "input[type='submit'][value*='" ++ text ++ "']",
     "[role='button']:has-text('" ++ text ++ "')"] else []
  let l := if elementType = "any" || elementType = "link" then
    ["a:has-text('" ++ text ++ "')",
     "a:has-text('" ++ text ++ "', 'i')",
     "a[href]:has-text('" ++ text ++ "')"] else []
  b ++ l ++
    ["text='" ++ text ++ "'",
     "text='" ++ text ++ "' >> visible=true",
     "[aria-label*='" ++ text ++ "']",
     "[title*='" ++ text ++ "']",
     "[placeholder*='" ++ text ++ "']",
     "[name*='" ++ text ++ "']",
     "[data-test*='" ++ text ++ "']"]

/-- The per-selector loop of `playwright_smart_click` (location.py lines 102-123):
wait 500ms, click, optional screenshot; any exception in the iteration (wait,
click or screenshot) moves on to the next selector; a null wait result falls
through the `if element:` guard, also moving on. -/
def smartLoop (drv : Driver) (text : String) (cap : Bool) (now : Nat) :
    List String → Option Outcome × List DCall
  | [] => (none, [])
  | sel :: rest =>
    let step : Option Outcome × List DCall :=
      match drv.wait sel 500 with
      | .found e =>
        match drv.elemAct e .clickA with
        | .ok _ =>
          let o : Outcome :=
            { status := "success", message := "Smart click successful: " ++ text,
              selectorUsed := some sel, elementFound := some true }
          if cap then
            let path := "smart_click_success_" ++ toString now ++ ".png"
            match drv.shot with
            | .ok _ => (some { o with screenshot := some path },
                        [.waitC sel 500, .actC e .clickA, .shotC path])
            | .error _ => (none, [.waitC sel 500, .actC e .clickA, .shotC path])
          else (some o, [.waitC sel 500, .actC e .clickA])
        | .error _ => (none, [.waitC sel 500, .actC e .clickA])
      | .nullRes => (none, [.waitC sel 500])
      | .raised _ => (none, [.waitC sel 500])
    match step with
    | (some o, cs) => (some o, cs)
    | (none, cs) =>
      let (o, cs2) := smartLoop drv text cap now rest
      (o, cs ++ cs2)

/-- The text-driven cascade of `playwright_smart_click`, entered once a truthy
search text is fixed (location.py lines 63-160).  The `Except.error` case is an
exception escaping to the outer handler (a failing debug screenshot). -/
def smartClickWithText (drv : Driver) (text elementType : String)
    (cap optional : Bool) (now : Nat) : Except String Outcome × List DCall :=
  let selectors := smartSelList text elementType
  match smartLoop drv text cap now selectors with
  | (some o, cs) => (.ok o, cs)
  | (none, cs) =>
    let a11ySel := "[role=button][name='" ++ text ++ "']"
    match drv.clickSel a11ySel with
    | .ok _ =>
      (.ok { status := "success",
             message := "Smart click successful via accessibility API: " ++ text,
             elementFound := some true },
       cs ++ [.clickSelC a11ySel])
    | .error _ =>
      let shotPath := "smart_click_failed_" ++ toString now ++ ".png"
      let dbg : Option String × Option String × List DCall :=
        if cap then
          match drv.shot with
          | .ok _ => (some shotPath, none, [.shotC shotPath])
          | .error m => (some shotPath, some m, [.shotC shotPath])
        else (none, none, [])
      match dbg with
      | (_, some m, cs2) => (.error m, cs ++ [.clickSelC a11ySel] ++ cs2)
      | (dpath, none, cs2) =>
        if optional then
          (.ok { status := "success",
                 message := "Optional click: Element matching '" ++ text ++
                   "' not found but continuing",
                 triedSelectors := some (selectors.take 5),
                 fallbacksTried := some ["accessibility_locator", "vision_locator", "js_locate"],
                 elementFound := some false, debugScreenshot := dpath },
           cs ++ [.clickSelC a11ySel] ++ cs2)
        else
          (.ok { status := "error",
                 message := "Smart click failed: Could not find clickable element matching '" ++
                   text ++ "'",
                 triedSelectors := some (selectors.take 5),
                 fallbacksTried := some ["accessibility_locator", "vision_locator", "js_locate"],
                 debugScreenshot := dpath },
           cs ++ [.clickSelC a11ySel] ++ cs2)

/-- `playwright_smart_click` (location.py lines 13-175).  `now` is the event-loop
time used only in screenshot file names. -/
def playwright_smart_click (pages : List Driver) (text selector : Option String)
    (elementType : String := "any") (pageIndex : Int := 0)
    (captureScreenshot : Bool := false) (optional : Bool := false)
    (description : Option String := none) (now : Nat := 0) : Outcome × List DCall :=
  match getPage pages pageIndex with
  | none => ({ status := "error", message := "Invalid page index" }, [])
  | some drv =>
    let inner : Except String Outcome × List DCall :=
      if optTruthy selector && !optTruthy text then
        let sel := selector.getD ""
        match drv.clickSel sel with
        | .ok _ =>
          let o : Outcome :=
            { status := "success", message := "Clicked element with selector: " ++ sel,
              selectorUsed := some sel }
          if captureScreenshot then
            let path := "smart_click_" ++ toString now ++ ".png"
            match drv.shot with
            | .ok _ => (.ok { o with screenshot := some path },
                        [.clickSelC sel, .shotC path])
            | .error m => (.error m, [.clickSelC sel, .shotC path])
          else (.ok o, [.clickSelC sel])
        | .error _ =>
          -- `text = text or description or "Click Target"`
          let t := if optTruthy description then description.getD "" else "Click Target"
          let (r, cs) := smartClickWithText drv t elementType captureScreenshot optional now
          (r, .clickSelC sel :: cs)
      else if !optTruthy text then
        (.ok { status := "error",
               message := "Either text or a valid selector must be provided" }, [])
      else
        smartClickWithText drv (text.getD "") elementType captureScreenshot optional now
    match inner with
    | (.ok o, cs) => (o, cs)
    | (.error m, cs) => (excResolve optional m, cs)

/-- The selector templates `playwright_multi_strategy_locate` generates from a
description (location.py lines 579-594). -/
def mslTemplates (d : String) : List String :=
  ["text=" ++ d,
   "text='" ++ d ++ "'",
   "button:has-text('" ++ d ++ "')",
   "a:has-text('" ++ d ++ "')",
   "input[placeholder*='" ++ d ++ "']",
   "[aria-label*='" ++ d ++ "']",
   "label:has-text('" ++ d ++ "')"]

/-- The element action chain of `playwright_multi_strategy_locate`'s standard
selector loop (`click`/`fill`/`hover`/`select`; anything else — e.g. `find` —
performs nothing). -/
def actMsl (drv : Driver) (e : Elem) (action : String) (input : String) :
    Except String Unit × List DCall :=
  if action = "click" then (drv.elemAct e .clickA, [.actC e .clickA])
  else if action = "fill" then (drv.elemAct e (.fillA input), [.actC e (.fillA input)])
  else if action = "hover" then (drv.elemAct e .hoverA, [.actC e .hoverA])
  else if action = "select" then (drv.elemAct e (.selectA input), [.actC e (.selectA input)])
  else (.ok (), [])

/-- Control flow leaving the strategy chain: a `return` with an outcome, or an
exception escaping to the outer handler. -/
inductive Flow where
  | ret (o : Outcome)
  | exc (m : String)
deriving DecidableEq, Repr

/-- Accumulated state of one `playwright_multi_strategy_locate` run: the
`attempts` list and the driver call log. -/
structure St where
  attempts : List Attempt := []
  calls : List DCall := []
deriving DecidableEq, Repr

/-- A stage of the strategy chain: `.error` stops the run (return or raise),
`.ok` falls through to the next stage. -/
abbrev StageR := Except (Flow × St) St

/-- The standard-selector loop of `playwright_multi_strategy_locate` (location.py
lines 599-636).  One failed attempt record per selector whose wait or action
raises; none for a null wait result; on success the record is appended and the
run returns — unless a requested screenshot then raises, in which case the
appended record is mutated to `failed` and appended a second time (the source
appends the same dict object twice) and the loop continues. -/
def mslStd (drv : Driver) (action input : String) (cap : Bool) (now : Nat) :
    List String → St → StageR
  | [], st => .ok st
  | sel :: rest, st =>
    match drv.wait sel 1000 with
    | .raised m =>
      mslStd drv action input cap now rest
        ⟨st.attempts ++ [{ strategy := "standard_selector", selector := some sel,
                           result := "failed", errMsg := some m }],
         st.calls ++ [.waitC sel 1000]⟩
    | .nullRes =>
      mslStd drv action input cap now rest ⟨st.attempts, st.calls ++ [.waitC sel 1000]⟩
    | .found e =>
      let (r, acs) := actMsl drv e action input
      match r with
      | .error m =>
        mslStd drv action input cap now rest
          ⟨st.attempts ++ [{ strategy := "standard_selector", selector := some sel,
                             result := "failed", errMsg := some m }],
           st.calls ++ [.waitC sel 1000] ++ acs⟩
      | .ok _ =>
        let succRec : Attempt :=
          { strategy := "standard_selector", selector := some sel, result := "success" }
        let o : Outcome :=
          { status := "success",
            message := "Located element using standard selector: " ++ sel,
            strategyUsed := some "standard_selector", selectorUsed := some sel,
            actionPerformed := some action }
        if cap then
          let path := "multi_strategy_" ++ toString now ++ ".png"
          match drv.shot with
          | .ok _ =>
            .error (.ret { o with screenshot := some path },
              ⟨st.attempts ++ [succRec],
               st.calls ++ [.waitC sel 1000] ++ acs ++ [.shotC path]⟩)
          | .error m =>
            let failRec : Attempt :=
              { strategy := "standard_selector", selector := some sel,
                result := "failed", errMsg := some m }
            mslStd drv action input cap now rest
              ⟨st.attempts ++ [failRec, failRec],
               st.calls ++ [.waitC sel 1000] ++ acs ++ [.shotC path]⟩
        else
          .error (.ret { o with screenshot := none },
            ⟨st.attempts ++ [succRec], st.calls ++ [.waitC sel 1000] ++ acs⟩)

/-- One sub-tool stage of the strategy chain (the accessibility, vision and
javascript blocks, location.py lines 638-752, share this shape): run the
sub-tool, return on `status == "success" and element_found`, else append a
failed attempt with the stage's fixed error message and continue.  A failing
success-path screenshot mutates the appended record to `failed` and appends it
a second time, then continues. -/
def mslSubStage (drv : Driver) (cap : Bool) (now : Nat) (rec0 : Attempt)
    (subRes : Outcome) (subCalls : List DCall) (successOutcome : Outcome)
    (failMsg : String) (st : St) : StageR :=
  if subRes.status = "success" && subRes.elementFound = some true then
    let succRec := { rec0 with result := "success" }
    if cap then
      let path := "multi_strategy_" ++ toString now ++ ".png"
      match drv.shot with
      | .ok _ =>
        .error (.ret { successOutcome with screenshot := some path },
          ⟨st.attempts ++ [succRec], st.calls ++ subCalls ++ [.shotC path]⟩)
      | .error m =>
        let failRec := { rec0 with result := "failed", errMsg := some m }
        .ok ⟨st.attempts ++ [failRec, failRec], st.calls ++ subCalls ++ [.shotC path]⟩
    else
      .error (.ret { successOutcome with screenshot := none },
        ⟨st.attempts ++ [succRec], st.calls ++ subCalls⟩)
  else
    .ok ⟨st.attempts ++ [{ rec0 with result := "failed", errMsg := some failMsg }],
         st.calls ++ subCalls⟩

/-- The exhaustion block of `playwright_multi_strategy_locate` (location.py lines
754-791): optional debug screenshot, `page_info` collection (its title/text
evaluation can raise, escaping to the outer handler), then the optional/error
outcome carrying the full attempt trail. -/
def mslExhaust (drv : Driver) (description : Option String) (cap optional : Bool)
    (now : Nat) (st : St) : Flow × St :=
  let path := "multi_strategy_failed_" ++ toString now ++ ".png"
  let dbg : Option String × Option String × List DCall :=
    if cap then
      match drv.shot with
      | .ok _ => (some path, none, [.shotC path])
      | .error m => (some path, some m, [.shotC path])
    else (none, none, [])
  match dbg with
  | (_, some m, cs1) => (.exc m, ⟨st.attempts, st.calls ++ cs1⟩)
  | (dpath, none, cs1) =>
    match drv.titleE with
    | .error m => (.exc m, ⟨st.attempts, st.calls ++ cs1 ++ [.titleC]⟩)
    | .ok ttl =>
      match drv.bodyE with
      | .error m => (.exc m, ⟨st.attempts, st.calls ++ cs1 ++ [.titleC, .bodyC]⟩)
      | .ok body =>
        let pinfo : PageInfo := ⟨drv.urlStr, ttl, body⟩
        let elementDesc :=
          if optTruthy description then description.getD ""
          else "using provided selectors"
        let st' : St := ⟨st.attempts, st.calls ++ cs1 ++ [.titleC, .bodyC]⟩
        if optional then
          (.ret { status := "success",
                  message := "Optional action: Element matching '" ++ elementDesc ++
                    "' not found but continuing",
                  elementFound := some false,
                  attemptedStrategies := some (st.attempts.map (·.strategy)),
                  detailedAttempts := some st.attempts,
                  pageInfo := some pinfo }, st')
        else
          (.ret { status := "error",
                  message := "Failed to locate element matching '" ++ elementDesc ++
                    "' with any strategy",
                  attemptedStrategies := some (st.attempts.map (·.strategy)),
                  detailedAttempts := some st.attempts,
                  pageInfo := some pinfo,
                  debugScreenshot := dpath,
                  suggestion := some "Try using more specific description or inspect the page manually" },
           st')

/-- The standard-selector source of `playwright_multi_strategy_locate` (location.py
lines 572-597): a provided non-empty selector list wins; else templates from a
truthy description; else the request is invalid (`none`). -/
def mslStdSelectors (description : Option String) (selectors : Option (List String)) :
    Option (List String) :=
  if (match selectors with | some l => !l.isEmpty | none => false) then selectors
  else if optTruthy description then some (mslTemplates (description.getD ""))
  else none

/-- The result of one `playwright_multi_strategy_locate` run: the returned
dictionary, the internal `attempts` list at exit, and the driver call log. -/
structure RunOut where
  out : Outcome
  attempts : List Attempt
  calls : List DCall
deriving DecidableEq, Repr

/-- Resolution of a finished strategy-chain run: a returned outcome passes
through unchanged; an exception escaping to the outer handler is downgraded per
`optional` (location.py lines 793-807). -/
def finishFlow (optional : Bool) : Flow × St → RunOut
  | (.ret o, st) => ⟨o, st.attempts, st.calls⟩
  | (.exc m, st) => ⟨excResolve optional m, st.attempts, st.calls⟩

/-- `playwright_multi_strategy_locate` (location.py lines 545-807): validation,
then standard selectors (explicit list or templates from the description), then
the accessibility, vision and javascript sub-tools, then exhaustion; the outer
handler downgrades an escaped exception per `optional`. -/
def playwright_multi_strategy_locate (pages : List Driver) (description : Option String)
    (selectors : Option (List String)) (action : String := "click")
    (textInput : String := "") (pageIndex : Int := 0)
    (captureScreenshot : Bool := false) (optional : Bool := false)
    (now : Nat := 0) : RunOut :=
  match getPage pages pageIndex with
  | none => ⟨{ status := "error", message := "Invalid page index" }, [], []⟩
  | some drv =>
    match mslStdSelectors description selectors with
    | none =>
      ⟨{ status := "error",
         message := "Either description or selectors must be provided" }, [], []⟩
    | some sl =>
      let chain : StageR := do
        let st1 ← mslStd drv action textInput captureScreenshot now sl ⟨[], []⟩
        let (a11yRes, a11yCalls) :=
          playwright_accessibility_locator pages description action textInput pageIndex
        let st2 ← mslSubStage drv captureScreenshot now
          { strategy := "accessibility_tree", descr := description }
          a11yRes a11yCalls
          { status := "success", message := "Located element using accessibility tree",
            strategyUsed := some "accessibility_tree",
            elementDetailsAx := a11yRes.elementDetailsAx,
            actionPerformed := some action }
          "No matching elements found via accessibility tree" st1
        let (visRes, visCalls) :=
          playwright_vision_locator pages description false action textInput pageIndex
        let st3 ← mslSubStage drv captureScreenshot now
          { strategy := "vision_location", textKey := description }
          visRes visCalls
          { status := "success", message := "Located element using vision-based locator",
            strategyUsed := some "vision_locator",
            actionPerformed := some action }
          "No matching elements found via vision-based locator" st2
        let (jsRes, jsCalls) :=
          playwright_js_locate pages description action textInput pageIndex
        let st4 ← mslSubStage drv captureScreenshot now
          { strategy := "javascript", descr := description }
          jsRes jsCalls
          { status := "success", message := "Located element using JavaScript",
            strategyUsed := some "javascript",
            elementDetailsJs := jsRes.elementDetailsJs,
            actionPerformed := some action }
          "No matching elements found via JavaScript" st3
        pure st4
      match chain with
      | .error fs => finishFlow optional fs
      | .ok st =>
        finishFlow optional (mslExhaust drv description captureScreenshot optional now st)

/-- `playwright_fill` (interaction.py lines 176-191). -/
def playwright_fill (pages : List Driver) (selector text : String)
    (pageIndex : Int := 0) : Outcome × List DCall :=
  match getPage pages pageIndex with
  | none => ({ status := "error", message := "Invalid page index" }, [])
  | some drv =>
    match drv.fillSel selector text with
    | .ok _ =>
      ({ status := "success",
         message := "Filled element " ++ selector ++ " with text: " ++ text },
       [.fillSelC selector text])
    | .error m => ({ status := "error", message := m }, [.fillSelC selector text])

/-- `playwright_select` (interaction.py lines 193-208). -/
def playwright_select (pages : List Driver) (selector value : String)
    (pageIndex : Int := 0) : Outcome × List DCall :=
  match getPage pages pageIndex with
  | none => ({ status := "error", message := "Invalid page index" }, [])
  | some drv =>
    match drv.selectSel selector value with
    | .ok _ =>
      ({ status := "success",
         message := "Selected option with value '" ++ value ++ "' from dropdown " ++ selector },
       [.selectSelC selector value])
    | .error m => ({ status := "error", message := m }, [.selectSelC selector value])

/-- `playwright_hover` (interaction.py lines 151-174); its try block covers the
optional screenshot, so a screenshot failure becomes an error outcome. -/
def playwright_hover (pages : List Driver) (selector : String) (pageIndex : Int := 0)
    (captureScreenshot : Bool := false) (now : Nat := 0) : Outcome × List DCall :=
  match getPage pages pageIndex with
  | none => ({ status := "error", message := "Invalid page index" }, [])
  | some drv =>
    match drv.hoverSel selector with
    | .error m => ({ status := "error", message := m }, [.hoverSelC selector])
    | .ok _ =>
      let o : Outcome :=
        { status := "success", message := "Hovered over element: " ++ selector }
      if captureScreenshot then
        let path := "hover_" ++ toString now ++ ".png"
        match drv.shot with
        | .ok _ => ({ o with screenshot := some path }, [.hoverSelC selector, .shotC path])
        | .error m => ({ status := "error", message := m },
                       [.hoverSelC selector, .shotC path])
      else (o, [.hoverSelC selector])

/-- `playwright_navigate` (navigation.py lines 11-46).  navigation.py does
not import `asyncio`, so the screenshot branch raises `NameError` (caught by
the function's own handler) whenever `capture_screenshot` is true. -/
def playwright_navigate (pages : List Driver) (url : String)
    (_waitForLoad : Bool := true) (captureScreenshot : Bool := false)
    (pageIndex : Int := 0) : Outcome × List DCall :=
  match getPage pages pageIndex with
  | none => ({ status := "error", message := "Invalid page index" }, [])
  | some drv =>
    match drv.goto url with
    | .error m => ({ status := "error", message := m }, [.gotoC url])
    | .ok _ =>
      match drv.titleE with
      | .error m => ({ status := "error", message := m }, [.gotoC url, .titleC])
      | .ok ttl =>
        if captureScreenshot then
          ({ status := "error", message := "name 'asyncio' is not defined" },
           [.gotoC url, .titleC])
        else
          ({ status := "success", message := "Navigated to " ++ url,
             pageTitle := some ttl, pageUrl := some drv.urlStr },
           [.gotoC url, .titleC])

/-- `playwright_close` (navigation.py lines 84-99): explicit bounds check, then
close the page and pop it from the collection; if closing raises, the page is
not removed.  Returns the outcome and the new page collection. -/
def playwright_close (pages : List Driver) (pageIndex : Int := 0) :
    Outcome × List Driver :=
  if pageIndex < 0 ∨ (pages.length : Int) ≤ pageIndex then
    ({ status := "error", message := "Invalid page index" }, pages)
  else
    match (pages.get? pageIndex.toNat).map Driver.closeRes with
    | some (.ok _) =>
      ({ status := "success",
         message := "Closed page at index " ++ toString pageIndex,
         pagesCount := some (pages.length - 1) },
       pages.eraseIdx pageIndex.toNat)
    | some (.error m) => ({ status := "error", message := m }, pages)
    | none => ({ status := "error", message := "Invalid page index" }, pages)

/-- Case-sensitive substring test, JS `hay.includes(needle)`. -/
def containsSub (hay needle : String) : Bool :=
  listHasSub needle.data hay.data

/-- The page script of the last-resort click in `playwright_auto_execute`
(debug.py lines 591-631): find an element by id, then by treating the target as
a raw selector, then by text containment, and click the first match. -/
def jsDirectClickScript (dom : List DomEl) (querySel : String → Option DomEl)
    (target : String) : Option JsClickInfo :=
  let byId := if target ≠ "" then dom.find? (fun el => el.idAttr = target) else none
  let byQ := match byId with
    | some e => some e
    | none => querySel target
  let byText := match byQ with
    | some e => some e
    | none => dom.find? fun el =>
        (el.innerText ≠ "" && containsSub el.innerText target) ||
        (el.textContent ≠ "" && containsSub el.textContent target)
  byText.map fun el => ⟨el.tag, el.idAttr, String.intercalate " " el.classes⟩

/-- Whether a tool name resolves on the tools object: `hasattr` fails, the
attribute is not callable, or it is an invocable method.  The repository's
combined tools class defines every name of `action_tool_map`, so on the real
object every name is `.callable`; the other cases model the dispatcher's own
guard paths. -/
inductive ToolAttr where
  | absent
  | notCallable
  | callable
deriving DecidableEq, Repr

/-- One actual tool invocation performed by `playwright_auto_execute`. -/
inductive ToolCall where
  | primaryC (name : String)
  | fallbackC (i : Nat) (name : String)
  | lastResortC (target : String)
deriving DecidableEq, Repr

/-- The result dictionary of `playwright_auto_execute`. -/
structure AutoRet where
  status : String := ""
  message : String := ""
  toolUsed : Option String := none
  details : Option Outcome := none
  fallbackAttempt : Option Nat := none
  elementInfo : Option JsClickInfo := none
  screenshot : Option String := none
  attemptsKey : Option (List Attempt) := none
  debugScreenshot : Option String := none
  suggestion : Option String := none
deriving DecidableEq, Repr

/-- The result of one `playwright_auto_execute` run: the returned dictionary,
the internal `attempts` list at exit, the tools actually invoked, and the
driver call log. -/
structure AutoOut where
  ret : AutoRet
  attempts : List Attempt
  toolCalls : List ToolCall
  calls : List DCall
deriving DecidableEq, Repr

/-- The verb-to-tool-chain map of `playwright_auto_execute` (debug.py lines
436-445), applied to `action.lower()`. -/
def actionToolMap (action : String) : List String :=
  let a := pyLower action
  if a = "click" then
    ["playwright_smart_click", "playwright_multi_strategy_locate", "playwright_js_locate"]
  else if a = "fill" then
    ["playwright_fill", "playwright_multi_strategy_locate", "playwright_js_locate"]
  else if a = "navigate" then ["playwright_navigate"]
  else if a = "select" then ["playwright_select", "playwright_multi_strategy_locate"]
  else if a = "hover" then ["playwright_hover", "playwright_multi_strategy_locate"]
  else ["playwright_multi_strategy_locate"]

/-- Invocation of one named tool with the keyword arguments
`playwright_auto_execute` prepares (debug.py lines 470-492 and 539-555).
`Except.error` is the call itself raising: `playwright_fill`,
`playwright_select` and `playwright_js_locate` accept neither a
`capture_screenshot` keyword nor `**kwargs`, while the dispatcher always passes
`capture_screenshot`, so calling them raises `TypeError` before the tool body
runs. -/
def invokeByName (pages : List Driver) (name action target value : String)
    (pageIndex : Int) (cap : Bool) (now : Nat) :
    Except String (Outcome × List DCall) :=
  if name = "playwright_navigate" then
    .ok (playwright_navigate pages target true cap pageIndex)
  else if name = "playwright_smart_click" then
    .ok (playwright_smart_click pages (some target) none "any" pageIndex cap false none now)
  else if name = "playwright_hover" then
    .ok (playwright_hover pages target pageIndex cap now)
  else if name = "playwright_multi_strategy_locate" then
    let r := playwright_multi_strategy_locate pages (some target) none action value
      pageIndex cap false now
    .ok (r.out, r.calls)
  else if name = "playwright_fill" then
    .error "playwright_fill() got an unexpected keyword argument 'capture_screenshot'"
  else if name = "playwright_select" then
    .error "playwright_select() got an unexpected keyword argument 'capture_screenshot'"
  else if name = "playwright_js_locate" then
    .error "playwright_js_locate() got an unexpected keyword argument 'capture_screenshot'"
  else
    .error ("Tool " ++ name ++ " is unknown")

/-- Accumulated state of one `playwright_auto_execute` run. -/
structure ASt where
  attempts : List Attempt := []
  toolCalls : List ToolCall := []
  calls : List DCall := []
deriving DecidableEq, Repr

/-- The fallback loop of `playwright_auto_execute` (debug.py lines 521-580):
iterate the remaining tools with index `i` starting at 1, breaking once
`i >= max_attempts`; a missing tool appends one error attempt and continues; a
call that raises (including the ever-raising `playwright_js_locate` keyword
mismatch) appends one error attempt and continues; a tool reporting success
returns; a tool reporting failure appends one failed attempt and continues. -/
def autoFallbacks (pages : List Driver) (avail : String → ToolAttr)
    (action target value : String) (pageIndex : Int) (cap : Bool) (now : Nat)
    (maxAttempts : Nat) : List String → Nat → ASt → Except (AutoRet × ASt) ASt
  | [], _, st => .ok st
  | name :: rest, i, st =>
    if maxAttempts ≤ i then .ok st
    else
      match avail name with
      | .absent =>
        autoFallbacks pages avail action target value pageIndex cap now maxAttempts rest (i + 1)
          { st with attempts := st.attempts ++
              [{ strategy := name, target := some target, result := "error",
                 errMsg := some ("Tool " ++ name ++ " does not exist") }] }
      | .notCallable =>
        -- no callable check here: the call raises TypeError and is caught
        autoFallbacks pages avail action target value pageIndex cap now maxAttempts rest (i + 1)
          { st with attempts := st.attempts ++
              [{ strategy := name, target := some target, result := "error",
                 errMsg := some ("'" ++ name ++ "' object is not callable") }] }
      | .callable =>
        match invokeByName pages name action target value pageIndex cap now with
        | .error m =>
          autoFallbacks pages avail action target value pageIndex cap now maxAttempts rest (i + 1)
            { st with attempts := st.attempts ++
                [{ strategy := name, target := some target, result := "error",
                   errMsg := some m }] }
        | .ok (res, dcs) =>
          let st' : ASt :=
            { st with toolCalls := st.toolCalls ++ [.fallbackC i name],
                      calls := st.calls ++ dcs }
          if res.status = "success" then
            .error
              ({ status := "success",
                 message := "Action '" ++ action ++ "' completed successfully with fallback tool",
                 toolUsed := some name, fallbackAttempt := some i,
                 details := some res },
               { st' with attempts := st'.attempts ++
                   [{ strategy := name, target := some target, result := "success" }] })
          else
            autoFallbacks pages avail action target value pageIndex cap now maxAttempts rest (i + 1)
              { st' with attempts := st'.attempts ++
                  [{ strategy := name, target := some target, result := "failed",
                     errMsg := some res.message }] }

/-- The primary-tool section of `playwright_auto_execute` (debug.py lines
447-516).  A missing or non-callable primary appends its error attempt record
and then raises; the raise is caught by the section's own handler, which
mutates and appends the same record again — so the condition is recorded twice
— and dispatch continues. -/
def autoPrimary (pages : List Driver) (avail : String → ToolAttr)
    (action target value : String) (pageIndex : Int) (cap : Bool) (now : Nat)
    (name : String) : Except (AutoRet × ASt) ASt :=
  match avail name with
  | .absent =>
    let rec0 : Attempt :=
      { strategy := name, target := some target, result := "error",
        errMsg := some ("Tool " ++ name ++ " does not exist") }
    .ok ⟨[rec0, rec0], [], []⟩
  | .notCallable =>
    let rec0 : Attempt :=
      { strategy := name, target := some target, result := "error",
        errMsg := some ("Tool " ++ name ++ " is not callable") }
    .ok ⟨[rec0, rec0], [], []⟩
  | .callable =>
    match invokeByName pages name action target value pageIndex cap now with
    | .error m =>
      .ok ⟨[{ strategy := name, target := some target, result := "error",
              errMsg := some m }], [], []⟩
    | .ok (res, dcs) =>
      if res.status = "success" then
        .error
          ({ status := "success",
             message := "Action '" ++ action ++ "' completed successfully with direct tool",
             toolUsed := some name, details := some res },
           ⟨[{ strategy := name, target := some target, result := "success" }],
            [.primaryC name], dcs⟩)
      else
        .ok ⟨[{ strategy := name, target := some target, result := "failed",
                errMsg := some res.message }],
             [.primaryC name], dcs⟩

/-- The last-resort section and final failure of `playwright_auto_execute`
(debug.py lines 582-674): for `click`, evaluate the direct-click script and
return success if it clicked (a failing success screenshot mutates the appended
record to error, appends it again and falls through); then the final error
outcome with the whole attempt list, or — if the final debug screenshot raises —
the outer handler's bare error. -/
def autoFinal (drv : Driver) (action target : String) (cap : Bool) (now : Nat)
    (st : ASt) : AutoRet × ASt :=
  let afterClick : Except (AutoRet × ASt) ASt :=
    if pyLower action = "click" then
      let rec0 : Attempt := { strategy := "js_direct_click", target := some target }
      let scriptRes := jsDirectClickScript drv.dom drv.querySel target
      let st1 : ASt :=
        { st with toolCalls := st.toolCalls ++ [.lastResortC target],
                  calls := st.calls ++ [.jsDirectClickC target] }
      match scriptRes with
      | some info =>
        let succRec := { rec0 with result := "success" }
        if cap then
          let path := "js_direct_click_" ++ toString now ++ ".png"
          match drv.shot with
          | .ok _ =>
            .error
              ({ status := "success",
                 message := "Clicked element via direct JavaScript as last resort",
                 toolUsed := some "js_direct_click", elementInfo := some info,
                 screenshot := some path },
               { st1 with attempts := st1.attempts ++ [succRec],
                          calls := st1.calls ++ [.shotC path] })
          | .error m =>
            let errRec := { rec0 with result := "error", errMsg := some m }
            .ok { st1 with attempts := st1.attempts ++ [errRec, errRec],
                           calls := st1.calls ++ [.shotC path] }
        else
          .error
            ({ status := "success",
               message := "Clicked element via direct JavaScript as last resort",
               toolUsed := some "js_direct_click", elementInfo := some info,
               screenshot := none },
             { st1 with attempts := st1.attempts ++ [succRec] })
      | none =>
        .ok { st1 with attempts := st1.attempts ++
            [{ rec0 with result := "failed", errMsg := some "Element not found" }] }
    else .ok st
  match afterClick with
  | .error r => r
  | .ok st2 =>
    let path := "auto_execute_failed_" ++ toString now ++ ".png"
    let dbg : Option String × Option String × List DCall :=
      if cap then
        match drv.shot with
        | .ok _ => (some path, none, [.shotC path])
        | .error m => (some path, some m, [.shotC path])
      else (none, none, [])
    match dbg with
    | (_, some m, cs1) =>
      -- the screenshot raise escapes to the outer handler of auto_execute
      ({ status := "error", message := m }, { st2 with calls := st2.calls ++ cs1 })
    | (dpath, none, cs1) =>
      ({ status := "error",
         message := "Failed to perform " ++ action ++ " on " ++ target ++
           " after " ++ toString st2.attempts.length ++ " attempts",
         attemptsKey := some st2.attempts,
         debugScreenshot := dpath,
         suggestion := some "Try a more specific target or a different approach" },
       { st2 with calls := st2.calls ++ cs1 })

/-- `playwright_auto_execute` (debug.py lines 411-678): page validation, the
primary tool, up to `max_attempts - 1` fallback tools, the last-resort click
for the `click` verb, and the final error outcome. -/
def playwright_auto_execute (pages : List Driver) (avail : String → ToolAttr)
    (action target : String) (value : String := "") (pageIndex : Int := 0)
    (maxAttempts : Nat := 3) (captureScreenshot : Bool := true) (now : Nat := 0) :
    AutoOut :=
  match getPage pages pageIndex with
  | none => ⟨{ status := "error", message := "Invalid page index" }, [], [], []⟩
  | some drv =>
    let toolNames := actionToolMap action
    match toolNames with
    | [] =>
      -- unreachable: every chain of action_tool_map is non-empty
      ⟨{ status := "error", message := "" }, [], [], []⟩
    | primaryName :: fallbackNames =>
      let run : Except (AutoRet × ASt) ASt := do
        let st1 ← autoPrimary pages avail action target value pageIndex
          captureScreenshot now primaryName
        let st2 ← autoFallbacks pages avail action target value pageIndex
          captureScreenshot now maxAttempts fallbackNames 1 st1
        pure st2
      match run with
      | .error (r, st) => ⟨r, st.attempts, st.toolCalls, st.calls⟩
      | .ok st =>
        let (r, st') := autoFinal drv action target captureScreenshot now st
        ⟨r, st'.attempts, st'.toolCalls, st'.calls⟩

/-! ### Canonical strategy-chain specification

An order-of-strategies view of `playwright_multi_strategy_locate`, built from
the individual strategy semantics, against which the executor is compared. -/

/-- Semantic outcome of one strategy: success, failure with the error detail
that lands in the attempt record, or (for a standard selector whose wait
returns null) a silent skip. -/
inductive StepRes where
  | succ
  | fail (err : String)
  | skip
deriving DecidableEq, Repr

/-- The semantics of one standard-selector strategy: wait 1000ms, then perform
the requested action. -/
def stdStep (drv : Driver) (action input sel : String) : StepRes :=
  match drv.wait sel 1000 with
  | .raised m => .fail m
  | .nullRes => .skip
  | .found e =>
    match (actMsl drv e action input).1 with
    | .ok _ => .succ
    | .error m => .fail m

/-- The semantics of one sub-tool strategy as the executor judges it: success
iff the sub-tool reports `status == "success"` with `element_found`. -/
def subStep (subRes : Outcome) (failMsg : String) : StepRes :=
  if subRes.status = "success" && subRes.elementFound = some true then .succ
  else .fail failMsg

/-- One entry of the canonical chain: the attempt-record template (strategy
name and target), the `strategy_used` value reported when this entry wins, and
the strategy's semantic outcome. -/
structure ChainEntry where
  rec0 : Attempt
  usedName : String
  step : StepRes
deriving DecidableEq, Repr

/-- The standard-selector prefix of the canonical chain, in list order. -/
def stdEntries (drv : Driver) (action input : String) (sl : List String) :
    List ChainEntry :=
  sl.map fun sel =>
    ⟨{ strategy := "standard_selector", selector := some sel },
     "standard_selector",
     stdStep drv action input sel⟩

/-- The full canonical chain of a request: each standard selector in order,
then accessibility-tree, visible-text and script-scan.  (The visible-text
stage's attempt records say `vision_location` while its reported
`strategy_used` is `vision_locator`, exactly as in the source.) -/
def chainOf (pages : List Driver) (drv : Driver) (description : Option String)
    (action input : String) (pageIndex : Int) (sl : List String) : List ChainEntry :=
  stdEntries drv action input sl ++
  [⟨{ strategy := "accessibility_tree", descr := description },
     "accessibility_tree",
     subStep (playwright_accessibility_locator pages description action input pageIndex).1
       "No matching elements found via accessibility tree"⟩,
   ⟨{ strategy := "vision_location", textKey := description },
     "vision_locator",
     subStep (playwright_vision_locator pages description false action input pageIndex).1
       "No matching elements found via vision-based locator"⟩,
   ⟨{ strategy := "javascript", descr := description },
     "javascript",
     subStep (playwright_js_locate pages description action input pageIndex).1
       "No matching elements found via JavaScript"⟩]

/-- The attempt trail a scan of the chain produces: one failed record per
failing strategy, stopping with one success record at the first success;
skipped entries leave no record. -/
def scanAttempts : List ChainEntry → List Attempt
  | [] => []
  | e :: rest =>
    match e.step with
    | .succ => [{ e.rec0 with result := "success" }]
    | .fail m => { e.rec0 with result := "failed", errMsg := some m } :: scanAttempts rest
    | .skip => scanAttempts rest

/-- The first succeeding strategy of the chain, if any. -/
def scanWinner : List ChainEntry → Option ChainEntry
  | [] => none
  | e :: rest =>
    match e.step with
    | .succ => some e
    | _ => scanWinner rest

/-! ### Concrete drivers for witnesses and counterexamples -/

/-- A fixed element handle. -/
def e0 : Elem := ⟨0⟩

/-- A page on which every locating operation fails (waits raise, clicks raise,
empty DOM, empty accessibility tree); diagnostics (title, body text,
screenshots) succeed. -/
def failDrv : Driver where
  wait := fun _ _ => .raised "TimeoutError"
  clickSel := fun _ => .error "click raised"
  fillSel := fun _ _ => .error "fill raised"
  hoverSel := fun _ => .error "hover raised"
  selectSel := fun _ _ => .error "select raised"
  elemAct := fun _ _ => .error "act raised"
  bbox := fun _ => none
  axSnap := .ok none
  dom := []
  querySel := fun _ => none
  queryAll := fun _ => []
  tagOf := fun _ => "div"
  textOf := fun _ => ""
  attrsOf := fun _ => []
  goto := fun _ => .error "goto raised"
  titleE := .ok "T"
  bodyE := .ok "B"
  urlStr := "http://x/"
  shot := .ok ()
  closeRes := .ok ()

/-- A page on which exactly the selector `#b` matches (wait returns `e0`) and
clicking `e0` succeeds; everything else fails as on `failDrv`. -/
def s2Drv : Driver :=
  { failDrv with
    wait := fun s _ => if s = "#b" then .found e0 else .raised "TimeoutError",
    elemAct := fun _ a => if a = .clickA then .ok () else .error "act raised" }

/-- The relevance rule exactly as the claim words it (a second definition
following the spec's words, for comparison with the source's scorers): 10 if
the visible text contains any keyword (case-insensitive), plus 5 for each
attribute of the fixed set {placeholder, title, aria-label, alt, name} whose
value contains any keyword. -/
def specFixedSetScore (textS : String) (attrs : List (String × String))
    (keywords : List String) : Nat :=
  (if keywords.any (fun kw => containsCI textS kw) then 10 else 0) +
  5 * (jsFixedAttrs.filter fun a =>
        match attrs.lookup a with
        | some v => keywords.any fun kw => containsCI v kw
        | none => false).length

/-- Further element handles. -/
def e1 : Elem := ⟨1⟩

def e2 : Elem := ⟨2⟩

/-- A page for exercising `playwright_find_element`: the selector `button`
matches three elements — `e2` (text match only, score 10), `e1` (text match
plus two fixed-set attribute matches, score 20) and `e0` (no text match, one
match on the non-fixed attribute `data-test`, source score 5 but claim
score 0). -/
def findDrv : Driver :=
  { failDrv with
    queryAll := fun s => if s = "button" then [e2, e1, e0] else [],
    tagOf := fun _ => "button",
    textOf := fun e =>
      if e = e1 then "Submit order" else if e = e2 then "submit here" else "x",
    attrsOf := fun e =>
      if e = e1 then [("placeholder", "Submit"), ("title", "submit now")]
      else if e = e0 then [("data-test", "submit")] else [] }

/-- A page whose close operation raises. -/
def closeFailDrv : Driver :=
  { failDrv with closeRes := .error "close failed" }

/-- A page on which the quoted text selector `text='Go'` (one of
`playwright_smart_click`'s fuzzy selectors) matches `e0` and clicking succeeds;
selector-direct clicks and all other waits raise. -/
def smartGoDrv : Driver :=
  { failDrv with
    wait := fun s _ => if s = "text='Go'" then .found e0 else .raised "TimeoutError",
    elemAct := fun _ a => if a = .clickA then .ok () else .error "act raised" }

/-- A page on which the unquoted text template `text=Go` (generated by
`playwright_multi_strategy_locate` but not by `playwright_smart_click`) matches
`e0`, and clicking succeeds; all other waits and the direct selector clicks
raise. -/
def textGoDrv : Driver :=
  { failDrv with
    wait := fun s _ => if s = "text=Go" then .found e0 else .raised "TimeoutError",
    elemAct := fun _ a => if a = .clickA then .ok () else .error "act raised" }

/-! ### Properties of the stable descending sort -/

lemma insDesc_perm (key : α → Nat) (x : α) (l : List α) :
    List.Perm (insDesc key x l) (x :: l) := by
  induction l with
  | nil => rfl
  | cons y ys ih =>
    by_cases hc : key y ≤ key x
    · simp [insDesc, hc]
    · simp only [insDesc, hc, if_false]
      exact (ih.cons y).trans (List.Perm.swap x y ys)

lemma sortDesc_perm (key : α → Nat) (l : List α) :
    List.Perm (sortDesc key l) l := by
  induction l with
  | nil => rfl
  | cons x xs ih => exact (insDesc_perm key x (sortDesc key xs)).trans (ih.cons x)

lemma mem_insDesc (key : α → Nat) (x a : α) (l : List α) :
    a ∈ insDesc key x l ↔ a = x ∨ a ∈ l := by
  constructor
  · intro h
    have := (insDesc_perm key x l).mem_iff.mp h
    simpa using this
  · intro h
    apply (insDesc_perm key x l).mem_iff.mpr
    simpa using h

lemma insDesc_pairwise (key : α → Nat) (x : α) (l : List α)
    (h : l.Pairwise (fun a b => key b ≤ key a)) :
    (insDesc key x l).Pairwise (fun a b => key b ≤ key a) := by
  induction l with
  | nil => simp [insDesc]
  | cons y ys ih =>
    rcases List.pairwise_cons.mp h with ⟨hy, hys⟩
    by_cases hc : key y ≤ key x
    · simp only [insDesc, hc, if_true]
      refine List.Pairwise.cons ?_ h
      intro z hz
      rcases List.mem_cons.mp hz with hz | hz
      · subst hz; exact hc
      · exact le_trans (hy z hz) hc
    · simp only [insDesc, hc, if_false]
      refine List.Pairwise.cons ?_ (ih hys)
      intro z hz
      rcases (mem_insDesc key x z ys).mp hz with hz | hz
      · subst hz; exact le_of_lt (lt_of_not_le hc)
      · exact hy z hz

lemma sortDesc_pairwise (key : α → Nat) (l : List α) :
    (sortDesc key l).Pairwise (fun a b => key b ≤ key a) := by
  induction l with
  | nil => simp [sortDesc]
  | cons x xs ih => exact insDesc_pairwise key x (sortDesc key xs) ih

lemma insDesc_filter (key : α → Nat) (x : α) (l : List α) (k : Nat) :
    (insDesc key x l).filter (fun a => key a == k) =
      if key x = k then x :: l.filter (fun a => key a == k)
      else l.filter (fun a => key a == k) := by
  induction l with
  | nil =>
    by_cases hx : key x = k
    · have hxb : (key x == k) = true := beq_iff_eq.mpr hx
      rw [if_pos hx]; simp [insDesc, List.filter_cons, hxb]
    · have hxb : (key x == k) = false := by simpa using hx
      rw [if_neg hx]; simp [insDesc, List.filter_cons, hxb]
  | cons y ys ih =>
    by_cases hc : key y ≤ key x
    · simp only [insDesc, if_pos hc]
      by_cases hx : key x = k
      · have hxb : (key x == k) = true := beq_iff_eq.mpr hx
        rw [if_pos hx]
        simp [List.filter_cons, hxb]
      · have hxb : (key x == k) = false := by simpa using hx
        rw [if_neg hx]
        simp [List.filter_cons, hxb]
    · have hxy : key x < key y := lt_of_not_le hc
      simp only [insDesc, if_neg hc]
      by_cases hx : key x = k
      · have hy : ¬(key y = k) := by omega
        have hyb : (key y == k) = false := by simpa using hy
        rw [if_pos hx]
        simp [List.filter_cons, hyb, ih, if_pos hx]
      · have hxb : (key x == k) = false := by simpa using hx
        rw [if_neg hx]
        by_cases hy : key y = k
        · have hyb : (key y == k) = true := beq_iff_eq.mpr hy
          simp [List.filter_cons, hyb, ih, if_neg hx]
        · have hyb : (key y == k) = false := by simpa using hy
          simp [List.filter_cons, hyb, ih, if_neg hx]

/-- Stability of the sort: for every key value, the subsequence of elements with
that key is preserved (ties keep discovery order). -/
lemma sortDesc_filter_eq (key : α → Nat) (l : List α) (k : Nat) :
    (sortDesc key l).filter (fun a => key a == k) = l.filter (fun a => key a == k) := by
  induction l with
  | nil => rfl
  | cons x xs ih =>
    by_cases hx : key x = k
    · have hxb : (key x == k) = true := beq_iff_eq.mpr hx
      simp [sortDesc, insDesc_filter, if_pos hx, List.filter_cons, hxb, ih]
    · have hxb : (key x == k) = false := by simpa using hx
      simp [sortDesc, insDesc_filter, if_neg hx, List.filter_cons, hxb, ih]

/-- Tool availability on the repository's combined tools class: every name of
`action_tool_map` is a defined, callable method. -/
def allAvail : String → ToolAttr := fun _ => .callable

/-- Tool availability with the click verb's primary tool missing (the
dispatcher-level hypothetical of a tool that `hasattr` does not find). -/
def noSmartClickAvail : String → ToolAttr :=
  fun n => if n = "playwright_smart_click" then .absent else .callable

/-- Tool availability with the click verb's first fallback tool missing. -/
def noMslAvail : String → ToolAttr :=
  fun n => if n = "playwright_multi_strategy_locate" then .absent else .callable

/-- Number of fallback-tool invocations in a tool-call log. -/
def fbCount (l : List ToolCall) : Nat :=
  (l.filter fun c => match c with | .fallbackC _ _ => true | _ => false).length

/-! ### Helper lemmas -/

lemma scanWinner_append_none (a b : List ChainEntry) (h : scanWinner a = none) :
    scanWinner (a ++ b) = scanWinner b := by
  induction a with
  | nil => simp
  | cons e rest ih =>
    cases hs : e.step <;> simp [scanWinner, hs] at h ⊢ <;> exact ih h

lemma scanWinner_append_some (a b : List ChainEntry) (w : ChainEntry)
    (h : scanWinner a = some w) : scanWinner (a ++ b) = some w := by
  induction a with
  | nil => simp [scanWinner] at h
  | cons e rest ih =>
    cases hs : e.step <;> simp [scanWinner, hs] at h ⊢ <;> try exact ih h
    exact h

lemma scanAttempts_append_none (a b : List ChainEntry) (h : scanWinner a = none) :
    scanAttempts (a ++ b) = scanAttempts a ++ scanAttempts b := by
  induction a with
  | nil => simp [scanAttempts]
  | cons e rest ih =>
    cases hs : e.step <;> simp [scanWinner, hs] at h <;>
      simp [scanAttempts, hs, ih h]

lemma scanAttempts_append_some (a b : List ChainEntry) (w : ChainEntry)
    (h : scanWinner a = some w) : scanAttempts (a ++ b) = scanAttempts a := by
  induction a with
  | nil => simp [scanWinner] at h
  | cons e rest ih =>
    cases hs : e.step <;> simp [scanWinner, hs] at h <;>
      simp [scanAttempts, hs] <;> try exact ih h

lemma mslStd_spec (drv : Driver) (action input : String) (cap : Bool) (now : Nat)
    (hshot : drv.shot = Except.ok ()) :
    ∀ (sl : List String) (st : St),
      (scanWinner (stdEntries drv action input sl) = none ∧
        ∃ cs, mslStd drv action input cap now sl st =
          .ok ⟨st.attempts ++ scanAttempts (stdEntries drv action input sl),
               st.calls ++ cs⟩) ∨
      (∃ w cs o, scanWinner (stdEntries drv action input sl) = some w ∧
        mslStd drv action input cap now sl st =
          .error (.ret o,
            ⟨st.attempts ++ scanAttempts (stdEntries drv action input sl),
             st.calls ++ cs⟩) ∧
        o.status = "success" ∧ o.strategyUsed = some "standard_selector" ∧
        o.selectorUsed = w.rec0.selector ∧ o.elementFound = none ∧
        o.actionPerformed = some action) := by
  intro sl
  induction sl with
  | nil =>
    intro st
    left
    refine ⟨rfl, [], ?_⟩
    simp [mslStd, stdEntries, scanAttempts]
  | cons sel rest ih =>
    intro st
    cases hw : drv.wait sel 1000 with
    | raised m =>
      have hstep : stdStep drv action input sel = .fail m := by
        simp [stdStep, hw]
      rcases ih ⟨st.attempts ++
          [{ strategy := "standard_selector", selector := some sel,
             result := "failed", errMsg := some m }],
          st.calls ++ [.waitC sel 1000]⟩ with ⟨hwin, cs, heq⟩ | ⟨w, cs, o, hwin, heq, ho⟩
      · left
        refine ⟨?_, [.waitC sel 1000] ++ cs, ?_⟩
        · simp [stdEntries, scanWinner, hstep, List.map] at hwin ⊢
          exact hwin
        · simp only [mslStd, hw, heq]
          congr 1
          simp [stdEntries, scanAttempts, hstep]
      · right
        refine ⟨w, [.waitC sel 1000] ++ cs, o, ?_, ?_, ho⟩
        · simp [stdEntries, scanWinner, hstep] at hwin ⊢
          exact hwin
        · simp only [mslStd, hw, heq]
          congr 2
          simp [stdEntries, scanAttempts, hstep]
    | nullRes =>
      have hstep : stdStep drv action input sel = .skip := by
        simp [stdStep, hw]
      rcases ih ⟨st.attempts, st.calls ++ [.waitC sel 1000]⟩ with
        ⟨hwin, cs, heq⟩ | ⟨w, cs, o, hwin, heq, ho⟩
      · left
        refine ⟨?_, [.waitC sel 1000] ++ cs, ?_⟩
        · simp [stdEntries, scanWinner, hstep] at hwin ⊢
          exact hwin
        · simp only [mslStd, hw, heq]
          congr 1
          simp [stdEntries, scanAttempts, hstep]
      · right
        refine ⟨w, [.waitC sel 1000] ++ cs, o, ?_, ?_, ho⟩
        · simp [stdEntries, scanWinner, hstep] at hwin ⊢
          exact hwin
        · simp only [mslStd, hw, heq]
          congr 2
          simp [stdEntries, scanAttempts, hstep]
    | found e =>
      cases hact : actMsl drv e action input with
      | mk r acs =>
        cases r with
        | error m =>
          have hstep : stdStep drv action input sel = .fail m := by
            simp [stdStep, hw, hact]
          rcases ih ⟨st.attempts ++
              [{ strategy := "standard_selector", selector := some sel,
                 result := "failed", errMsg := some m }],
              st.calls ++ [.waitC sel 1000] ++ acs⟩ with
            ⟨hwin, cs, heq⟩ | ⟨w, cs, o, hwin, heq, ho⟩
          · left
            refine ⟨?_, [.waitC sel 1000] ++ acs ++ cs, ?_⟩
            · simp [stdEntries, scanWinner, hstep] at hwin ⊢
              exact hwin
            · simp only [mslStd, hw, hact, heq]
              congr 1
              simp [stdEntries, scanAttempts, hstep]
          · right
            refine ⟨w, [.waitC sel 1000] ++ acs ++ cs, o, ?_, ?_, ho⟩
            · simp [stdEntries, scanWinner, hstep] at hwin ⊢
              exact hwin
            · simp only [mslStd, hw, hact, heq]
              congr 2
              simp [stdEntries, scanAttempts, hstep]
        | ok u =>
          have hstep : stdStep drv action input sel = .succ := by
            simp [stdStep, hw, hact]
          right
          cases cap with
          | true =>
            refine ⟨⟨{ strategy := "standard_selector", selector := some sel },
                "standard_selector", .succ⟩,
              [.waitC sel 1000] ++ acs ++ [.shotC ("multi_strategy_" ++ toString now ++ ".png")],
              { status := "success",
                message := "Located element using standard selector: " ++ sel,
                strategyUsed := some "standard_selector", selectorUsed := some sel,
                actionPerformed := some action,
                screenshot := some ("multi_strategy_" ++ toString now ++ ".png") },
              ?_, ?_, rfl, rfl, rfl, rfl, rfl⟩
            · simp [stdEntries, scanWinner, hstep]
            · simp only [mslStd, hw, hact, hshot]
              simp [stdEntries, scanAttempts, hstep]
          | false =>
            refine ⟨⟨{ strategy := "standard_selector", selector := some sel },
                "standard_selector", .succ⟩,
              [.waitC sel 1000] ++ acs,
              { status := "success",
                message := "Located element using standard selector: " ++ sel,
                strategyUsed := some "standard_selector", selectorUsed := some sel,
                actionPerformed := some action, screenshot := none },
              ?_, ?_, rfl, rfl, rfl, rfl, rfl⟩
            · simp [stdEntries, scanWinner, hstep]
            · simp only [mslStd, hw, hact]
              simp [stdEntries, scanAttempts, hstep]

lemma mslSubStage_succ (drv : Driver) (cap : Bool) (now : Nat) (rec0 : Attempt)
    (subRes : Outcome) (subCalls : List DCall) (so : Outcome) (failMsg : String)
    (st : St) (hshot : drv.shot = Except.ok ())
    (h : (subRes.status = "success" && subRes.elementFound = some true) = true) :
    ∃ cs, mslSubStage drv cap now rec0 subRes subCalls so failMsg st =
      .error (.ret { so with screenshot :=
          (if cap then some ("multi_strategy_" ++ toString now ++ ".png") else none) },
        ⟨st.attempts ++ [{ rec0 with result := "success" }], st.calls ++ cs⟩) := by
  cases cap with
  | true =>
    refine ⟨subCalls ++ [.shotC ("multi_strategy_" ++ toString now ++ ".png")], ?_⟩
    simp [mslSubStage, h, hshot]
  | false =>
    refine ⟨subCalls, ?_⟩
    simp [mslSubStage, h]

lemma mslSubStage_fail (drv : Driver) (cap : Bool) (now : Nat) (rec0 : Attempt)
    (subRes : Outcome) (subCalls : List DCall) (so : Outcome) (failMsg : String)
    (st : St)
    (h : (subRes.status = "success" && subRes.elementFound = some true) = false) :
    mslSubStage drv cap now rec0 subRes subCalls so failMsg st =
      .ok ⟨st.attempts ++ [{ rec0 with result := "failed", errMsg := some failMsg }],
           st.calls ++ subCalls⟩ := by
  simp [mslSubStage, h]

lemma subStep_succ_iff (subRes : Outcome) (failMsg : String) :
    subStep subRes failMsg = .succ ↔
      (subRes.status = "success" && subRes.elementFound = some true) = true := by
  by_cases h : (subRes.status = "success" && subRes.elementFound = some true) = true
  · simp [subStep, h]
  · simp only [Bool.not_eq_true] at h
    simp [subStep, h]

lemma subStep_ne_skip (subRes : Outcome) (failMsg : String) :
    subStep subRes failMsg ≠ .skip := by
  by_cases h : (subRes.status = "success" && subRes.elementFound = some true) = true
  · simp [subStep, h]
  · simp only [Bool.not_eq_true] at h
    simp [subStep, h]

lemma finishExhaust_spec (drv : Driver) (description : Option String)
    (cap optional : Bool) (now : Nat) (st : St)
    (hshot : drv.shot = Except.ok ()) :
    (finishFlow optional (mslExhaust drv description cap optional now st)).attempts =
      st.attempts ∧
    (finishFlow optional (mslExhaust drv description cap optional now st)).out.status =
      (if optional then "success" else "error") ∧
    (finishFlow optional (mslExhaust drv description cap optional now st)).out.strategyUsed =
      none ∧
    (finishFlow optional (mslExhaust drv description cap optional now st)).out.elementFound =
      (if optional then some false else none) ∧
    (optional = true →
      ((finishFlow optional (mslExhaust drv description cap optional now st)).out.detailedAttempts =
        some (finishFlow optional (mslExhaust drv description cap optional now st)).attempts ∨
       (finishFlow optional (mslExhaust drv description cap optional now st)).out.errInfo ≠ none)) := by
  cases hc : cap <;> cases ho : optional <;>
    cases ht : drv.titleE <;> cases hb : drv.bodyE <;>
      simp [mslExhaust, finishFlow, excResolve, hshot, ht, hb]

lemma scanWinner_stdEntries_usedName (drv : Driver) (action input : String)
    (sl : List String) (w : ChainEntry)
    (h : scanWinner (stdEntries drv action input sl) = some w) :
    w.usedName = "standard_selector" := by
  induction sl with
  | nil => simp [stdEntries, scanWinner] at h
  | cons s ss ih =>
    simp only [stdEntries, List.map_cons, scanWinner] at h
    cases hs : stdStep drv action input s <;> rw [hs] at h
    · cases h; rfl
    · exact ih (by simpa [stdEntries] using h)
    · exact ih (by simpa [stdEntries] using h)

/-- Master characterization of one `playwright_multi_strategy_locate` run with a
valid request and a non-failing screenshot primitive: the attempt trail is the
canonical scan of the strategy chain, and the outcome is determined by the
first succeeding strategy (or its absence). -/
lemma msl_run_spec (pages : List Driver) (drv : Driver) (description : Option String)
    (selectors : Option (List String)) (action input : String) (pageIndex : Int)
    (cap optional : Bool) (now : Nat) (sl : List String)
    (hpage : getPage pages pageIndex = some drv)
    (hsel : mslStdSelectors description selectors = some sl)
    (hshot : drv.shot = Except.ok ()) :
    (playwright_multi_strategy_locate pages description selectors action input
        pageIndex cap optional now).attempts =
      scanAttempts (chainOf pages drv description action input pageIndex sl) ∧
    ((∃ w, scanWinner (chainOf pages drv description action input pageIndex sl) = some w ∧
        (playwright_multi_strategy_locate pages description selectors action input
          pageIndex cap optional now).out.status = "success" ∧
        (playwright_multi_strategy_locate pages description selectors action input
          pageIndex cap optional now).out.strategyUsed = some w.usedName ∧
        (playwright_multi_strategy_locate pages description selectors action input
          pageIndex cap optional now).out.selectorUsed = w.rec0.selector ∧
        (playwright_multi_strategy_locate pages description selectors action input
          pageIndex cap optional now).out.elementFound = none) ∨
      (scanWinner (chainOf pages drv description action input pageIndex sl) = none ∧
        (playwright_multi_strategy_locate pages description selectors action input
          pageIndex cap optional now).out.status =
          (if optional then "success" else "error") ∧
        (playwright_multi_strategy_locate pages description selectors action input
          pageIndex cap optional now).out.strategyUsed = none ∧
        (playwright_multi_strategy_locate pages description selectors action input
          pageIndex cap optional now).out.elementFound =
          (if optional then some false else none) ∧
        (optional = true →
          ((playwright_multi_strategy_locate pages description selectors action input
              pageIndex cap optional now).out.detailedAttempts =
            some (playwright_multi_strategy_locate pages description selectors action input
              pageIndex cap optional now).attempts ∨
           (playwright_multi_strategy_locate pages description selectors action input
              pageIndex cap optional now).out.errInfo ≠ none)))) := by
  rcases hA : playwright_accessibility_locator pages description action input pageIndex
    with ⟨aRes, aCalls⟩
  rcases hV : playwright_vision_locator pages description false action input pageIndex
    with ⟨vRes, vCalls⟩
  rcases hJ : playwright_js_locate pages description action input pageIndex
    with ⟨jRes, jCalls⟩
  have hch : chainOf pages drv description action input pageIndex sl =
      stdEntries drv action input sl ++
      [⟨{ strategy := "accessibility_tree", descr := description }, "accessibility_tree",
         subStep aRes "No matching elements found via accessibility tree"⟩,
       ⟨{ strategy := "vision_location", textKey := description }, "vision_locator",
         subStep vRes "No matching elements found via vision-based locator"⟩,
       ⟨{ strategy := "javascript", descr := description }, "javascript",
         subStep jRes "No matching elements found via JavaScript"⟩] := by
    simp [chainOf, hA, hV, hJ]
  rcases mslStd_spec drv action input cap now hshot sl ⟨[], []⟩ with
    ⟨hwin, cs, heq0⟩ | ⟨w, cs, o, hwin, heq0, ho1, ho2, ho3, ho4, ho5⟩
  · -- no standard selector wins
    have heq : mslStd drv action input cap now sl ⟨[], []⟩ =
        .ok ⟨scanAttempts (stdEntries drv action input sl), cs⟩ := by simpa using heq0
    by_cases hA1 : (aRes.status = "success" && aRes.elementFound = some true) = true
    · -- accessibility wins
      have hstepA : subStep aRes "No matching elements found via accessibility tree" = .succ := by
        simp [subStep, hA1]
      rcases mslSubStage_succ drv cap now
        { strategy := "accessibility_tree", descr := description } aRes aCalls
        { status := "success", message := "Located element using accessibility tree",
          strategyUsed := some "accessibility_tree",
          elementDetailsAx := aRes.elementDetailsAx, actionPerformed := some action }
        "No matching elements found via accessibility tree"
        ⟨scanAttempts (stdEntries drv action input sl), cs⟩ hshot hA1
        with ⟨cs2, heq2⟩
      constructor
      · simp only [playwright_multi_strategy_locate, hpage, hsel, hA, hV, hJ, bind,
          Except.bind, heq, heq2]
        rw [hch, scanAttempts_append_none _ _ hwin]
        simp [finishFlow, scanAttempts, hstepA]
      · left
        refine ⟨⟨{ strategy := "accessibility_tree", descr := description },
          "accessibility_tree",
          subStep aRes "No matching elements found via accessibility tree"⟩, ?_, ?_⟩
        · rw [hch, scanWinner_append_none _ _ hwin]
          simp only [scanWinner, hstepA]
        · simp only [playwright_multi_strategy_locate, hpage, hsel, hA, hV, hJ, bind,
            Except.bind, heq, heq2]
          simp [finishFlow]
    · -- accessibility fails
      have hstepA : subStep aRes "No matching elements found via accessibility tree" =
          .fail "No matching elements found via accessibility tree" := by
        simp only [Bool.not_eq_true] at hA1
        simp [subStep, hA1]
      have heq2 := mslSubStage_fail drv cap now
        { strategy := "accessibility_tree", descr := description } aRes aCalls
        { status := "success", message := "Located element using accessibility tree",
          strategyUsed := some "accessibility_tree",
          elementDetailsAx := aRes.elementDetailsAx, actionPerformed := some action }
        "No matching elements found via accessibility tree"
        ⟨scanAttempts (stdEntries drv action input sl), cs⟩
        (by simpa using hA1)
      by_cases hV1 : (vRes.status = "success" && vRes.elementFound = some true) = true
      · -- vision wins
        have hstepV : subStep vRes "No matching elements found via vision-based locator" = .succ := by
          simp [subStep, hV1]
        rcases mslSubStage_succ drv cap now
          { strategy := "vision_location", textKey := description } vRes vCalls
          { status := "success", message := "Located element using vision-based locator",
            strategyUsed := some "vision_locator", actionPerformed := some action }
          "No matching elements found via vision-based locator"
          ⟨scanAttempts (stdEntries drv action input sl) ++
            [{ strategy := "accessibility_tree", descr := description, result := "failed",
               errMsg := some "No matching elements found via accessibility tree" }],
           cs ++ aCalls⟩ hshot hV1
          with ⟨cs2, heq3⟩
        constructor
        · simp only [playwright_multi_strategy_locate, hpage, hsel, hA, hV, hJ, bind,
            Except.bind, heq, heq2, heq3]
          rw [hch, scanAttempts_append_none _ _ hwin]
          simp [finishFlow, scanAttempts, hstepA, hstepV]
        · left
          refine ⟨⟨{ strategy := "vision_location", textKey := description },
            "vision_locator",
            subStep vRes "No matching elements found via vision-based locator"⟩, ?_, ?_⟩
          · rw [hch, scanWinner_append_none _ _ hwin]
            simp only [scanWinner, hstepA, hstepV]
          · simp only [playwright_multi_strategy_locate, hpage, hsel, hA, hV, hJ, bind,
              Except.bind, heq, heq2, heq3]
            simp [finishFlow]
      · -- vision fails
        have hstepV : subStep vRes "No matching elements found via vision-based locator" =
            .fail "No matching elements found via vision-based locator" := by
          simp only [Bool.not_eq_true] at hV1
          simp [subStep, hV1]
        have heq3 := mslSubStage_fail drv cap now
          { strategy := "vision_location", textKey := description } vRes vCalls
          { status := "success", message := "Located element using vision-based locator",
            strategyUsed := some "vision_locator", actionPerformed := some action }
          "No matching elements found via vision-based locator"
          ⟨scanAttempts (stdEntries drv action input sl) ++
            [{ strategy := "accessibility_tree", descr := description, result := "failed",
               errMsg := some "No matching elements found via accessibility tree" }],
           cs ++ aCalls⟩
          (by simpa using hV1)
        by_cases hJ1 : (jRes.status = "success" && jRes.elementFound = some true) = true
        · -- javascript wins
          have hstepJ : subStep jRes "No matching elements found via JavaScript" = .succ := by
            simp [subStep, hJ1]
          rcases mslSubStage_succ drv cap now
            { strategy := "javascript", descr := description } jRes jCalls
            { status := "success", message := "Located element using JavaScript",
              strategyUsed := some "javascript", elementDetailsJs := jRes.elementDetailsJs,
              actionPerformed := some action }
            "No matching elements found via JavaScript"
            ⟨(scanAttempts (stdEntries drv action input sl) ++
              [{ strategy := "accessibility_tree", descr := description, result := "failed",
                 errMsg := some "No matching elements found via accessibility tree" }]) ++
              [{ strategy := "vision_location", textKey := description, result := "failed",
                 errMsg := some "No matching elements found via vision-based locator" }],
             (cs ++ aCalls) ++ vCalls⟩ hshot hJ1
            with ⟨cs2, heq4⟩
          constructor
          · simp only [playwright_multi_strategy_locate, hpage, hsel, hA, hV, hJ, bind,
              Except.bind, heq, heq2, heq3, heq4]
            rw [hch, scanAttempts_append_none _ _ hwin]
            simp [finishFlow, scanAttempts, hstepA, hstepV, hstepJ]
          · left
            refine ⟨⟨{ strategy := "javascript", descr := description },
              "javascript",
              subStep jRes "No matching elements found via JavaScript"⟩, ?_, ?_⟩
            · rw [hch, scanWinner_append_none _ _ hwin]
              simp only [scanWinner, hstepA, hstepV, hstepJ]
            · simp only [playwright_multi_strategy_locate, hpage, hsel, hA, hV, hJ, bind,
                Except.bind, heq, heq2, heq3, heq4]
              simp [finishFlow]
        · -- javascript fails: exhaustion
          have hstepJ : subStep jRes "No matching elements found via JavaScript" =
              .fail "No matching elements found via JavaScript" := by
            simp only [Bool.not_eq_true] at hJ1
            simp [subStep, hJ1]
          have heq4 := mslSubStage_fail drv cap now
            { strategy := "javascript", descr := description } jRes jCalls
            { status := "success", message := "Located element using JavaScript",
              strategyUsed := some "javascript", elementDetailsJs := jRes.elementDetailsJs,
              actionPerformed := some action }
            "No matching elements found via JavaScript"
            ⟨(scanAttempts (stdEntries drv action input sl) ++
              [{ strategy := "accessibility_tree", descr := description, result := "failed",
                 errMsg := some "No matching elements found via accessibility tree" }]) ++
              [{ strategy := "vision_location", textKey := description, result := "failed",
                 errMsg := some "No matching elements found via vision-based locator" }],
             (cs ++ aCalls) ++ vCalls⟩
            (by simpa using hJ1)
          rcases finishExhaust_spec drv description cap optional now
            ⟨((scanAttempts (stdEntries drv action input sl) ++
              [{ strategy := "accessibility_tree", descr := description, result := "failed",
                 errMsg := some "No matching elements found via accessibility tree" }]) ++
              [{ strategy := "vision_location", textKey := description, result := "failed",
                 errMsg := some "No matching elements found via vision-based locator" }]) ++
              [{ strategy := "javascript", descr := description, result := "failed",
                 errMsg := some "No matching elements found via JavaScript" }],
             ((cs ++ aCalls) ++ vCalls) ++ jCalls⟩ hshot with ⟨hf1, hf2, hf3, hf4, hf5⟩
          constructor
          · rw [hch, scanAttempts_append_none _ _ hwin]
            simp only [playwright_multi_strategy_locate, hpage, hsel, hA, hV, hJ, bind,
              Except.bind, heq, heq2, heq3, heq4]
            refine hf1.trans ?_
            simp [scanAttempts, hstepA, hstepV, hstepJ]
          · right
            refine ⟨?_, ?_, ?_, ?_, ?_⟩
            · rw [hch, scanWinner_append_none _ _ hwin]
              simp only [scanWinner, hstepA, hstepV, hstepJ]
            · simp only [playwright_multi_strategy_locate, hpage, hsel, hA, hV, hJ, bind,
                Except.bind, heq, heq2, heq3, heq4]
              exact hf2
            · simp only [playwright_multi_strategy_locate, hpage, hsel, hA, hV, hJ, bind,
                Except.bind, heq, heq2, heq3, heq4]
              exact hf3
            · simp only [playwright_multi_strategy_locate, hpage, hsel, hA, hV, hJ, bind,
                Except.bind, heq, heq2, heq3, heq4]
              exact hf4
            · intro hopt
              simp only [playwright_multi_strategy_locate, hpage, hsel, hA, hV, hJ, bind,
                Except.bind, heq, heq2, heq3, heq4]
              exact hf5 hopt
  · -- a standard selector wins
    have heq : mslStd drv action input cap now sl ⟨[], []⟩ =
        .error (.ret o, ⟨scanAttempts (stdEntries drv action input sl), cs⟩) := by
      simpa using heq0
    constructor
    · simp only [playwright_multi_strategy_locate, hpage, hsel, hA, hV, hJ, bind,
        Except.bind, heq]
      rw [hch, scanAttempts_append_some _ _ _ hwin]
      simp [finishFlow]
    · left
      refine ⟨w, ?_, ?_⟩
      · rw [hch]; exact scanWinner_append_some _ _ _ hwin
      · have hw' : w.usedName = "standard_selector" :=
          scanWinner_stdEntries_usedName drv action input sl w hwin
        simp only [playwright_multi_strategy_locate, hpage, hsel, hA, hV, hJ, bind,
          Except.bind, heq]
        simp [finishFlow, ho1, ho2, ho3, ho4, hw']

lemma foldl_five_count (cond : α → Bool) (l : List α) (s : Nat) :
    l.foldl (fun acc p => if cond p then acc + 5 else acc) s =
      s + 5 * (l.filter cond).length := by
  induction l generalizing s with
  | nil => simp
  | cons a as ih =>
    by_cases h : cond a
    · simp only [List.foldl_cons, h, if_true, List.filter_cons, ih]
      simp [Nat.mul_succ]
      omega
    · simp [List.foldl_cons, h, List.filter_cons, ih]

lemma findScore_closed (textS : String) (attrs : List (String × String))
    (kws : List String) :
    findScore textS attrs kws =
      (if textS ≠ "" && kws.any (fun kw => containsCI textS kw) then 10 else 0) +
      5 * (attrs.filter fun p => p.2 ≠ "" && kws.any fun kw => containsCI p.2 kw).length := by
  simp only [findScore]
  exact foldl_five_count _ _ _

lemma jsScore_spec (el : DomEl) (d : String) :
    jsScore el d = specFixedSetScore (jsTextOf el) el.attrs [d] := by
  simp only [jsScore, specFixedSetScore]
  rw [foldl_five_count]
  have hfn : (fun a => match el.attrs.lookup a with
      | some v => List.any [d] fun kw => containsCI v kw
      | none => false) = fun a => jsAttrMatch el a d := by
    funext a
    cases h : el.attrs.lookup a <;> simp [jsAttrMatch, h]
  congr 1
  · simp
  · rw [← hfn]

lemma findScored_pos (drv : Driver) (description : String) :
    ∀ c ∈ findScored drv description, 0 < c.relevance := by
  intro c hc
  simp only [findScored, List.mem_filterMap] at hc
  obtain ⟨e, -, he⟩ := hc
  split at he
  · cases he
    assumption
  · simp at he

lemma jsScored_pos (dom : List DomEl) (d : String) :
    ∀ c ∈ jsScored dom d, 0 < c.score := by
  intro c hc
  simp only [jsScored, List.mem_filterMap] at hc
  obtain ⟨e, -, he⟩ := hc
  split at he
  · cases he
    assumption
  · simp at he

lemma scanAttempts_length_noskip (ch : List ChainEntry)
    (hns : ∀ e ∈ ch, e.step ≠ .skip) (hnone : scanWinner ch = none) :
    (scanAttempts ch).length = ch.length := by
  induction ch with
  | nil => rfl
  | cons e rest ih =>
    cases hs : e.step with
    | succ => simp [scanWinner, hs] at hnone
    | fail m =>
      simp only [scanWinner, hs] at hnone
      simp only [scanAttempts, hs, List.length_cons]
      rw [ih (fun x hx => hns x (List.mem_cons_of_mem e hx)) hnone]
    | skip => exact absurd hs (hns e (List.mem_cons_self e rest))

/-! ### Claim theorems -/

/-- C9: `playwright_close` removes the page at position k (shifting later
indices down by one) iff 0 ≤ k < number of pages; an out-of-range k yields an
error outcome with the collection unchanged, and a close that raises also
leaves the collection unchanged. -/
theorem c9_close_removes_iff_in_range (pages : List Driver) (k : Int) :
    (∀ (hk0 : 0 ≤ k) (hk1 : k.toNat < pages.length),
      (pages[k.toNat].closeRes = Except.ok () →
        (playwright_close pages k).2 = pages.eraseIdx k.toNat ∧
        (playwright_close pages k).1.status = "success" ∧
        (playwright_close pages k).2.length = pages.length - 1 ∧
        (∀ i : Nat, (playwright_close pages k).2[i]? =
          if i < k.toNat then pages[i]? else pages[i + 1]?)) ∧
      (∀ m, pages[k.toNat].closeRes = Except.error m →
        (playwright_close pages k).1.status = "error" ∧
        (playwright_close pages k).2 = pages)) ∧
    ((k < 0 ∨ (pages.length : Int) ≤ k) →
      (playwright_close pages k).1.status = "error" ∧
      (playwright_close pages k).2 = pages) := by
  constructor
  · intro hk0 hk1
    have hrange : ¬(k < 0 ∨ (pages.length : Int) ≤ k) := by
      push_neg
      constructor
      · omega
      · omega
    constructor
    · intro hok
      have hcl : Option.map Driver.closeRes pages[k.toNat]? = some (Except.ok ()) := by
        simp [List.getElem?_eq_getElem hk1, hok]
      refine ⟨?_, ?_, ?_, ?_⟩
      · simp [playwright_close, hrange, List.getElem?_eq_getElem hk1, hok]
      · simp [playwright_close, hrange, List.getElem?_eq_getElem hk1, hok]
      · simp [playwright_close, hrange, List.getElem?_eq_getElem hk1, hok,
          List.length_eraseIdx, hk1]
      · intro i
        have h2 : (playwright_close pages k).2 = pages.eraseIdx k.toNat := by
          simp [playwright_close, hrange, List.getElem?_eq_getElem hk1, hok]
        rw [h2]
        exact List.getElem?_eraseIdx pages k.toNat i
    · intro m herr
      constructor
      · simp [playwright_close, hrange, List.getElem?_eq_getElem hk1, herr]
      · simp [playwright_close, hrange, List.getElem?_eq_getElem hk1, herr]
  · intro hrange
    constructor
    · simp [playwright_close, hrange]
    · simp [playwright_close, hrange]

/-- C9 witness: on a one-page session, closing index 0 succeeds and empties the
collection; closing index 1 is out of range and changes nothing; closing a page
whose close raises changes nothing. -/
theorem c9_close_witness :
    (playwright_close [failDrv] 0).2 = [] ∧
    (playwright_close [failDrv] 0).1.status = "success" ∧
    (playwright_close [failDrv] 1).1.status = "error" ∧
    (playwright_close [failDrv] 1).2 = [failDrv] ∧
    (playwright_close [closeFailDrv] 0).1.status = "error" ∧
    (playwright_close [closeFailDrv] 0).2 = [closeFailDrv] := by
  have h1 := ((c9_close_removes_iff_in_range [failDrv] 0).1 (by decide) (by decide)).1 rfl
  have h2 := (c9_close_removes_iff_in_range [failDrv] 1).2 (Or.inr (by decide))
  have h3 := ((c9_close_removes_iff_in_range [closeFailDrv] 0).1 (by decide) (by decide)).2
    "close failed" rfl
  exact ⟨h1.1.trans rfl, h1.2.1, h2.1, h2.2, h3.1, h3.2⟩

/-- C10: when `playwright_smart_click` is given a selector but no text and the
direct click on that selector raises, it does not return an error: it re-enters
the fuzzy text-matching cascade using the description as search text if one is
truthy, and the literal string "Click Target" otherwise. -/
theorem c10_smart_click_selector_fallback
    (pages : List Driver) (drv : Driver) (text selector description : Option String)
    (elementType : String) (pageIndex : Int) (cap optional : Bool) (now : Nat)
    (m : String)
    (hpage : getPage pages pageIndex = some drv)
    (hsel : optTruthy selector = true)
    (htext : optTruthy text = false)
    (hclick : drv.clickSel (selector.getD "") = .error m) :
    (playwright_smart_click pages text selector elementType pageIndex cap optional
        description now).1 =
      (match (smartClickWithText drv
          (if optTruthy description then description.getD "" else "Click Target")
          elementType cap optional now).1 with
        | .ok o => o
        | .error msg => excResolve optional msg) ∧
    (playwright_smart_click pages text selector elementType pageIndex cap optional
        description now).2 =
      .clickSelC (selector.getD "") ::
        (smartClickWithText drv
          (if optTruthy description then description.getD "" else "Click Target")
          elementType cap optional now).2 := by
  rcases hc : smartClickWithText drv
      (if optTruthy description then description.getD "" else "Click Target")
      elementType cap optional now with ⟨r, cs⟩
  cases r with
  | ok o =>
    constructor <;>
      simp [playwright_smart_click, hpage, hsel, htext, hclick, hc]
  | error msg =>
    constructor <;>
      simp [playwright_smart_click, hpage, hsel, htext, hclick, hc]

/-- C10 witness: a selector-only smart click whose selector fails succeeds by
clicking the element matched by the text selector built from the description. -/
theorem c10_smart_click_selector_fallback_witness :
    (playwright_smart_click [smartGoDrv] none (some "#missing") "any" 0 false false
        (some "Go") 0).1 =
      (match (smartClickWithText smartGoDrv "Go" "any" false false 0).1 with
        | .ok o => o
        | .error msg => excResolve false msg) ∧
    (playwright_smart_click [smartGoDrv] none (some "#missing") "any" 0 false false
        (some "Go") 0).1.status = "success" ∧
    (playwright_smart_click [smartGoDrv] none (some "#missing") "any" 0 false false
        (some "Go") 0).1.selectorUsed = some "text='Go'" ∧
    (playwright_smart_click [smartGoDrv] none (some "#missing") "any" 0 false false
        (some "Go") 0).1.elementFound = some true := by
  refine ⟨?_, by decide, by decide, by decide⟩
  have h := c10_smart_click_selector_fallback [smartGoDrv] smartGoDrv none
    (some "#missing") (some "Go") "any" 0 false false 0 "click raised"
    (by simp [getPage]) (by decide) (by decide) rfl
  simpa using h.1

/-- C4 counterexample: `playwright_find_element` returns (with relevance 5, in
last place) a candidate whose only keyword match is on the attribute
`data-test`, which is outside the claim's fixed attribute set — under the
claim's scoring rule that candidate scores 0 and is excluded.  The claim as
stated is therefore false of the source. -/
theorem c4_fixed_set_counterexample :
    (playwright_find_element [findDrv] "submit" 0 5).1.elementsFound =
      some [⟨"button", "Submit order", [("placeholder", "Submit"), ("title", "submit now")], 20⟩,
            ⟨"button", "submit here", [], 10⟩,
            ⟨"button", "x", [("data-test", "submit")], 5⟩] ∧
    findScore "x" [("data-test", "submit")] ["submit"] = 5 ∧
    specFixedSetScore "x" [("data-test", "submit")] ["submit"] = 0 := by
  refine ⟨?_, by decide, by decide⟩
  have h : (playwright_find_element [findDrv] "submit" 0 5).1.elementsFound =
      some ((sortDesc FoundEl.relevance (findScored findDrv "submit")).take 5) := by
    simp [playwright_find_element, getPage]
  rw [h]
  decide

/-- C4 amended: the fixed attribute set {placeholder, title, aria-label, alt,
name} governs only the script-based scanner (`playwright_js_locate`, whose
keyword set is the single whole description); `playwright_find_element` adds 5
for each attribute of ANY name whose truthy value contains a keyword.  With
that change the rest of the claim holds: zero-score candidates are excluded,
results are sorted descending by score with ties preserving discovery order,
at most `max_results` (default 5; always 5 for the script scanner) are
returned, and a 20-scoring candidate ranks strictly above a 10-scoring one. -/
theorem c4_relevance_scoring_amended :
    (∀ (textS : String) (attrs : List (String × String)) (kws : List String),
      findScore textS attrs kws =
        (if textS ≠ "" && kws.any (fun kw => containsCI textS kw) then 10 else 0) +
        5 * (attrs.filter fun p => p.2 ≠ "" && kws.any fun kw => containsCI p.2 kw).length) ∧
    (∀ (el : DomEl) (d : String),
      jsScore el d = specFixedSetScore (jsTextOf el) el.attrs [d]) ∧
    (∀ (pages : List Driver) (drv : Driver) (descr : String) (pageIndex : Int)
        (maxResults : Nat),
      getPage pages pageIndex = some drv →
      (playwright_find_element pages descr pageIndex maxResults).1.elementsFound =
        some ((sortDesc FoundEl.relevance (findScored drv descr)).take maxResults)) ∧
    (∀ (drv : Driver) (descr : String), ∀ c ∈ findScored drv descr, 0 < c.relevance) ∧
    (∀ (dom : List DomEl) (d : String), ∀ c ∈ jsScored dom d, 0 < c.score) ∧
    (∀ (dom : List DomEl) (d : String),
      jsMatches dom d = (sortDesc JsCand.score (jsScored dom d)).take 5 ∧
      (jsMatches dom d).length ≤ 5 ∧
      (jsMatches dom d).Pairwise (fun a b => b.score ≤ a.score) ∧
      (∀ k, (sortDesc JsCand.score (jsScored dom d)).filter (fun c => c.score == k) =
        (jsScored dom d).filter fun c => c.score == k)) ∧
    (∀ (drv : Driver) (descr : String) (maxResults : Nat),
      ((sortDesc FoundEl.relevance (findScored drv descr)).take maxResults).length ≤
        maxResults ∧
      ((sortDesc FoundEl.relevance (findScored drv descr)).take maxResults).Pairwise
        (fun a b => b.relevance ≤ a.relevance) ∧
      (∀ k, (sortDesc FoundEl.relevance (findScored drv descr)).filter
          (fun c => c.relevance == k) =
        (findScored drv descr).filter fun c => c.relevance == k)) ∧
    (∀ (drv : Driver) (descr : String) (maxResults : Nat) (i j : Nat)
        (hi : i < ((sortDesc FoundEl.relevance (findScored drv descr)).take maxResults).length)
        (hj : j < ((sortDesc FoundEl.relevance (findScored drv descr)).take maxResults).length),
      ((sortDesc FoundEl.relevance (findScored drv descr)).take maxResults)[i].relevance = 20 →
      ((sortDesc FoundEl.relevance (findScored drv descr)).take maxResults)[j].relevance = 10 →
      i < j) := by
  refine ⟨findScore_closed, jsScore_spec, ?_, findScored_pos, jsScored_pos, ?_, ?_, ?_⟩
  · intro pages drv descr pageIndex maxResults hpage
    simp [playwright_find_element, hpage]
  · intro dom d
    refine ⟨rfl, List.length_take_le _ _, ?_, fun k => sortDesc_filter_eq _ _ _⟩
    exact List.Pairwise.sublist (List.take_sublist _ _) (sortDesc_pairwise _ _)
  · intro drv descr maxResults
    refine ⟨List.length_take_le _ _, ?_, fun k => sortDesc_filter_eq _ _ _⟩
    exact List.Pairwise.sublist (List.take_sublist _ _) (sortDesc_pairwise _ _)
  · intro drv descr maxResults i j hi hj h20 h10
    have hp : ((sortDesc FoundEl.relevance (findScored drv descr)).take maxResults).Pairwise
        (fun a b => b.relevance ≤ a.relevance) :=
      List.Pairwise.sublist (List.take_sublist _ _) (sortDesc_pairwise _ _)
    by_contra hij
    have hji : j ≤ i := Nat.le_of_not_lt hij
    rcases Nat.lt_or_ge j i with hlt | hge
    · have := List.pairwise_iff_getElem.mp hp j i hj hi hlt
      omega
    · have : i = j := by omega
      subst this
      omega

/-- C4 witness: the amended result-shape statement applied to the concrete
page `findDrv`. -/
theorem c4_relevance_scoring_amended_witness :
    (playwright_find_element [findDrv] "submit" 0 5).1.elementsFound =
      some ((sortDesc FoundEl.relevance (findScored findDrv "submit")).take 5) :=
  c4_relevance_scoring_amended.2.2.1 [findDrv] findDrv "submit" 0 5 (by simp [getPage])

/-- C1: with a description or a non-empty explicit selector list,
`playwright_multi_strategy_locate` tries strategies in the fixed order (each
explicit/template selector in list order, then accessibility-tree, then
visible-text, then script scan), appending one attempt record per tried
strategy (given the Playwright wait semantics of raising rather than returning
null), stopping at the first strategy that finds the element and performs the
action and returning success naming that strategy; in particular, for
explicit selectors [s1, s2] with s1 failing and s2 matching, it succeeds via
s2 and the trail is exactly s1 (failed), s2 (success). -/
theorem c1_strategy_chain_order (pages : List Driver) (drv : Driver)
    (description : Option String) (selectors : Option (List String))
    (action input : String) (pageIndex : Int) (cap optional : Bool) (now : Nat)
    (sl : List String)
    (hpage : getPage pages pageIndex = some drv)
    (hsel : mslStdSelectors description selectors = some sl)
    (hshot : drv.shot = Except.ok ())
    (hstrict : ∀ s ∈ sl, drv.wait s 1000 ≠ .nullRes) :
    (playwright_multi_strategy_locate pages description selectors action input
        pageIndex cap optional now).attempts =
      scanAttempts (chainOf pages drv description action input pageIndex sl) ∧
    (∀ w, scanWinner (chainOf pages drv description action input pageIndex sl) = some w →
      (playwright_multi_strategy_locate pages description selectors action input
        pageIndex cap optional now).out.status = "success" ∧
      (playwright_multi_strategy_locate pages description selectors action input
        pageIndex cap optional now).out.strategyUsed = some w.usedName ∧
      (playwright_multi_strategy_locate pages description selectors action input
        pageIndex cap optional now).out.selectorUsed = w.rec0.selector) ∧
    (scanWinner (chainOf pages drv description action input pageIndex sl) = none →
      (playwright_multi_strategy_locate pages description selectors action input
        pageIndex cap optional now).attempts.length = sl.length + 3) ∧
    (∀ s1 s2 m e, selectors = some [s1, s2] →
      drv.wait s1 1000 = .raised m → drv.wait s2 1000 = .found e →
      (actMsl drv e action input).1 = .ok () →
      (playwright_multi_strategy_locate pages description selectors action input
        pageIndex cap optional now).out.status = "success" ∧
      (playwright_multi_strategy_locate pages description selectors action input
        pageIndex cap optional now).out.strategyUsed = some "standard_selector" ∧
      (playwright_multi_strategy_locate pages description selectors action input
        pageIndex cap optional now).out.selectorUsed = some s2 ∧
      (playwright_multi_strategy_locate pages description selectors action input
        pageIndex cap optional now).attempts =
        [{ strategy := "standard_selector", selector := some s1,
           result := "failed", errMsg := some m },
         { strategy := "standard_selector", selector := some s2,
           result := "success" }]) := by
  obtain ⟨hatt, hdisj⟩ := msl_run_spec pages drv description selectors action input
    pageIndex cap optional now sl hpage hsel hshot
  refine ⟨hatt, ?_, ?_, ?_⟩
  · intro w hw
    rcases hdisj with ⟨w', hw', h1, h2, h3, h4⟩ | ⟨hnone, -⟩
    · rw [hw] at hw'
      cases hw'
      exact ⟨h1, h2, h3⟩
    · rw [hw] at hnone
      cases hnone
  · intro hnone
    rw [hatt]
    rw [scanAttempts_length_noskip _ ?_ hnone]
    · simp [chainOf, stdEntries]
    · intro x hx
      simp only [chainOf, List.mem_append] at hx
      rcases hx with hx | hx
      · simp only [stdEntries, List.mem_map] at hx
        obtain ⟨sel, hsl, rfl⟩ := hx
        simp only [ne_eq]
        intro hk
        cases hwse : drv.wait sel 1000 with
        | found e => simp [stdStep, hwse] at hk; rcases h : (actMsl drv e action input).1 <;> simp [h] at hk
        | nullRes => exact hstrict sel hsl hwse
        | raised m => simp [stdStep, hwse] at hk
      · simp only [List.mem_cons, List.mem_singleton] at hx
        rcases hx with rfl | rfl | rfl | hx
        · exact subStep_ne_skip _ _
        · exact subStep_ne_skip _ _
        · exact subStep_ne_skip _ _
        · cases hx
  · intro s1 s2 m e hsels hw1 hw2 hact
    have hsl : sl = [s1, s2] := by
      rw [hsels] at hsel
      simp [mslStdSelectors] at hsel
      exact hsel.symm
    subst hsl
    have hstep1 : stdStep drv action input s1 = .fail m := by simp [stdStep, hw1]
    have hstep2 : stdStep drv action input s2 = .succ := by
      simp only [stdStep, hw2]
      rw [hact]
    have hwin : scanWinner (chainOf pages drv description action input pageIndex [s1, s2]) =
        some ⟨{ strategy := "standard_selector", selector := some s2 },
          "standard_selector", .succ⟩ := by
      simp [chainOf, stdEntries, scanWinner, hstep1, hstep2]
    rcases hdisj with ⟨w', hw', h1, h2, h3, h4⟩ | ⟨hnone, -⟩
    · rw [hwin] at hw'
      cases hw'
      refine ⟨h1, h2, h3, ?_⟩
      rw [hatt]
      simp [chainOf, stdEntries, scanAttempts, hstep1, hstep2]
    · rw [hwin] at hnone
      cases hnone

/-- C1 witness: on a page where `#a` raises and `#b` matches and is clicked,
the run succeeds via the standard selector `#b` with the trail
[#a failed, #b success]. -/
theorem c1_strategy_chain_order_witness :
    (playwright_multi_strategy_locate [s2Drv] none (some ["#a", "#b"]) "click" "" 0
        false false 0).out.status = "success" ∧
    (playwright_multi_strategy_locate [s2Drv] none (some ["#a", "#b"]) "click" "" 0
        false false 0).out.strategyUsed = some "standard_selector" ∧
    (playwright_multi_strategy_locate [s2Drv] none (some ["#a", "#b"]) "click" "" 0
        false false 0).out.selectorUsed = some "#b" ∧
    (playwright_multi_strategy_locate [s2Drv] none (some ["#a", "#b"]) "click" "" 0
        false false 0).attempts =
      [{ strategy := "standard_selector", selector := some "#a",
         result := "failed", errMsg := some "TimeoutError" },
       { strategy := "standard_selector", selector := some "#b",
         result := "success" }] :=
  (c1_strategy_chain_order [s2Drv] s2Drv none (some ["#a", "#b"]) "click" "" 0
      false false 0 ["#a", "#b"]
      (by simp [getPage]) (by decide) rfl (by decide)).2.2.2
    "#a" "#b" "TimeoutError" e0 rfl (by decide) (by decide) rfl

/-- C8: locate is deterministic — two runs of `playwright_multi_strategy_locate`
with an identical request against the same page state (same driver answers)
yield the same `strategy_used` and the same `element_found` value; the
event-loop timestamp (the only input that may differ between the two calls,
used in screenshot file names) does not influence them. -/
theorem c8_locate_idempotent (pages : List Driver) (description : Option String)
    (selectors : Option (List String)) (action input : String) (pageIndex : Int)
    (cap optional : Bool) (t1 t2 : Nat)
    (hshot : ∀ drv, getPage pages pageIndex = some drv → drv.shot = Except.ok ()) :
    (playwright_multi_strategy_locate pages description selectors action input
        pageIndex cap optional t1).out.strategyUsed =
      (playwright_multi_strategy_locate pages description selectors action input
        pageIndex cap optional t2).out.strategyUsed ∧
    (playwright_multi_strategy_locate pages description selectors action input
        pageIndex cap optional t1).out.elementFound =
      (playwright_multi_strategy_locate pages description selectors action input
        pageIndex cap optional t2).out.elementFound := by
  cases hpage : getPage pages pageIndex with
  | none => simp [playwright_multi_strategy_locate, hpage]
  | some drv =>
    cases hsel : mslStdSelectors description selectors with
    | none => simp [playwright_multi_strategy_locate, hpage, hsel]
    | some sl =>
      have hs := hshot drv hpage
      obtain ⟨-, hdisj1⟩ := msl_run_spec pages drv description selectors action input
        pageIndex cap optional t1 sl hpage hsel hs
      obtain ⟨-, hdisj2⟩ := msl_run_spec pages drv description selectors action input
        pageIndex cap optional t2 sl hpage hsel hs
      rcases hdisj1 with ⟨w, hw, -, su1, -, ef1⟩ | ⟨hn, -, su1, ef1, -⟩
      · rcases hdisj2 with ⟨w2, hw2, -, su2, -, ef2⟩ | ⟨hn2, -⟩
        · rw [hw] at hw2
          cases hw2
          exact ⟨su1.trans su2.symm, ef1.trans ef2.symm⟩
        · rw [hw] at hn2
          cases hn2
      · rcases hdisj2 with ⟨w2, hw2, -⟩ | ⟨hn2, -, su2, ef2, -⟩
        · rw [hw2] at hn
          cases hn
        · exact ⟨su1.trans su2.symm, ef1.trans ef2.symm⟩

/-- C8 witness: two runs at different timestamps, with screenshot capture on,
against the all-failing page agree on `strategy_used` and `element_found`. -/
theorem c8_locate_idempotent_witness :
    (playwright_multi_strategy_locate [failDrv] (some "Submit") none "click" "" 0
        true false 1).out.strategyUsed =
      (playwright_multi_strategy_locate [failDrv] (some "Submit") none "click" "" 0
        true false 2).out.strategyUsed ∧
    (playwright_multi_strategy_locate [failDrv] (some "Submit") none "click" "" 0
        true false 1).out.elementFound =
      (playwright_multi_strategy_locate [failDrv] (some "Submit") none "click" "" 0
        true false 2).out.elementFound :=
  c8_locate_idempotent [failDrv] (some "Submit") none "click" "" 0 true false 1 2
    (fun drv h => by
      simp [getPage] at h
      rw [← h]
      rfl)

lemma smartLoop_inv (drv : Driver) (text : String) (cap : Bool) (now : Nat) :
    ∀ sl : List String,
      (smartLoop drv text cap now sl).1 = none ∨
      ∃ o, (smartLoop drv text cap now sl).1 = some o ∧
        o.status = "success" ∧ o.elementFound = some true := by
  intro sl
  induction sl with
  | nil => left; rfl
  | cons sel rest ih =>
    rcases hrec : smartLoop drv text cap now rest with ⟨o2, cs2⟩
    rw [hrec] at ih
    simp only at ih
    cases hw : drv.wait sel 500 with
    | found e =>
      cases hact : drv.elemAct e .clickA with
      | ok u =>
        cases hcap2 : cap with
        | true =>
          rw [hcap2] at hrec
          cases hsh : drv.shot with
          | ok v =>
            right
            refine ⟨{ status := "success",
                      message := "Smart click successful: " ++ text,
                      selectorUsed := some sel, elementFound := some true,
                      screenshot := some ("smart_click_success_" ++ toString now ++ ".png") },
                    ?_, rfl, rfl⟩
            simp [smartLoop, hw, hact, hsh]
          | error m =>
            have hred : (smartLoop drv text true now (sel :: rest)).1 = o2 := by
              simp [smartLoop, hw, hact, hsh, hrec]
            rw [hred]
            exact ih
        | false =>
          right
          refine ⟨{ status := "success",
                    message := "Smart click successful: " ++ text,
                    selectorUsed := some sel, elementFound := some true,
                    screenshot := none },
                  ?_, rfl, rfl⟩
          simp [smartLoop, hw, hact]
      | error m =>
        have hred : (smartLoop drv text cap now (sel :: rest)).1 = o2 := by
          simp [smartLoop, hw, hact, hrec]
        rw [hred]
        exact ih
    | nullRes =>
      have hred : (smartLoop drv text cap now (sel :: rest)).1 = o2 := by
        simp [smartLoop, hw, hrec]
      rw [hred]
      exact ih
    | raised m =>
      have hred : (smartLoop drv text cap now (sel :: rest)).1 = o2 := by
        simp [smartLoop, hw, hrec]
      rw [hred]
      exact ih

lemma smartClickWithText_opt (drv : Driver) (t et : String) (cap : Bool) (now : Nat) :
    (∃ o, (smartClickWithText drv t et cap true now).1 = .ok o ∧
      o.status = "success" ∧
      (o.elementFound = some false → o.triedSelectors ≠ none)) ∨
    (∃ m, (smartClickWithText drv t et cap true now).1 = .error m) := by
  rcases hl : smartLoop drv t cap now (smartSelList t et) with ⟨oo, cls⟩
  cases oo with
  | some o =>
    rcases smartLoop_inv drv t cap now (smartSelList t et) with h0 | ⟨o', ho', hs, he⟩
    · rw [hl] at h0
      simp at h0
    · rw [hl] at ho'
      simp only at ho'
      cases ho'
      left
      refine ⟨o, by simp [smartClickWithText, hl], hs, ?_⟩
      rw [he]
      intro hc
      cases hc
  | none =>
    cases hcs : drv.clickSel ("[role=button][name='" ++ t ++ "']") with
    | ok u =>
      left
      refine ⟨{ status := "success",
                message := "Smart click successful via accessibility API: " ++ t,
                elementFound := some true },
              by simp [smartClickWithText, hl, hcs], rfl, ?_⟩
      intro hc
      cases hc
    | error m2 =>
      cases hcap2 : cap with
      | true =>
        cases hsh : drv.shot with
        | ok v =>
          left
          refine ⟨{ status := "success",
                    message := "Optional click: Element matching '" ++ t ++
                      "' not found but continuing",
                    triedSelectors := some ((smartSelList t et).take 5),
                    fallbacksTried := some ["accessibility_locator", "vision_locator", "js_locate"],
                    elementFound := some false,
                    debugScreenshot := some ("smart_click_failed_" ++ toString now ++ ".png") },
                  ?_, rfl, ?_⟩
          · rw [hcap2] at hl
            simp [smartClickWithText, hl, hcs, hsh]
          · intro hc
            simp
        | error m3 =>
          right
          refine ⟨m3, ?_⟩
          rw [hcap2] at hl
          simp [smartClickWithText, hl, hcs, hsh]
      | false =>
        left
        refine ⟨{ status := "success",
                  message := "Optional click: Element matching '" ++ t ++
                    "' not found but continuing",
                  triedSelectors := some ((smartSelList t et).take 5),
                  fallbacksTried := some ["accessibility_locator", "vision_locator", "js_locate"],
                  elementFound := some false,
                  debugScreenshot := none },
                ?_, rfl, ?_⟩
        · rw [hcap2] at hl
          simp [smartClickWithText, hl, hcs]
        · intro hc
          simp

/-- When no standard selector's step succeeds, the standard-selector stage
falls through to the next stage — for every screenshot behaviour (the
success-path screenshot is never reached). -/
lemma mslStd_nowin (drv : Driver) (action input : String) (cap : Bool) (now : Nat) :
    ∀ (sl : List String) (st : St),
    scanWinner (stdEntries drv action input sl) = none →
    ∃ st', mslStd drv action input cap now sl st = .ok st' := by
  intro sl
  induction sl with
  | nil =>
    intro st h
    exact ⟨st, by simp [mslStd]⟩
  | cons sel rest ih =>
    intro st h
    cases hw : drv.wait sel 1000 with
    | raised m =>
      have hstep : stdStep drv action input sel = .fail m := by simp [stdStep, hw]
      have h' : scanWinner (stdEntries drv action input rest) = none := by
        simpa [stdEntries, scanWinner, hstep] using h
      obtain ⟨st', hst'⟩ := ih
        ⟨st.attempts ++
           [{ strategy := "standard_selector", selector := some sel,
              result := "failed", errMsg := some m }],
         st.calls ++ [.waitC sel 1000]⟩ h'
      refine ⟨st', ?_⟩
      simp only [mslStd, hw]
      exact hst'
    | nullRes =>
      have hstep : stdStep drv action input sel = .skip := by simp [stdStep, hw]
      have h' : scanWinner (stdEntries drv action input rest) = none := by
        simpa [stdEntries, scanWinner, hstep] using h
      obtain ⟨st', hst'⟩ := ih ⟨st.attempts, st.calls ++ [.waitC sel 1000]⟩ h'
      refine ⟨st', ?_⟩
      simp only [mslStd, hw]
      exact hst'
    | found e =>
      rcases hact : actMsl drv e action input with ⟨r, acs⟩
      cases r with
      | error m =>
        have hstep : stdStep drv action input sel = .fail m := by
          simp [stdStep, hw, hact]
        have h' : scanWinner (stdEntries drv action input rest) = none := by
          simpa [stdEntries, scanWinner, hstep] using h
        obtain ⟨st', hst'⟩ := ih
          ⟨st.attempts ++
             [{ strategy := "standard_selector", selector := some sel,
                result := "failed", errMsg := some m }],
           st.calls ++ [.waitC sel 1000] ++ acs⟩ h'
        refine ⟨st', ?_⟩
        simp only [mslStd, hw, hact]
        exact hst'
      | ok u =>
        have hstep : stdStep drv action input sel = .succ := by
          simp [stdStep, hw, hact]
        simp [stdEntries, scanWinner, hstep] at h

/-- With `optional = true`, the exhaustion block — through the outer exception
handler when its own debug screenshot or page-info collection raises — always
yields a success outcome with `element_found = false`, retaining either the
detailed attempt trail or the error detail. -/
lemma msl_exhaust_opt (drv : Driver) (description : Option String) (cap : Bool)
    (now : Nat) (st : St) :
    (finishFlow true (mslExhaust drv description cap true now st)).out.status =
      "success" ∧
    (finishFlow true (mslExhaust drv description cap true now st)).out.elementFound =
      some false ∧
    ((finishFlow true (mslExhaust drv description cap true now st)).out.detailedAttempts =
       some (finishFlow true (mslExhaust drv description cap true now st)).attempts ∨
     (finishFlow true (mslExhaust drv description cap true now st)).out.errInfo ≠
       none) := by
  by_cases hcap : cap
  · cases hshot : drv.shot with
    | error m => simp [mslExhaust, finishFlow, excResolve, hcap, hshot]
    | ok u =>
      cases httl : drv.titleE with
      | error m => simp [mslExhaust, finishFlow, excResolve, hcap, hshot, httl]
      | ok ttl =>
        cases hbody : drv.bodyE with
        | error m =>
          simp [mslExhaust, finishFlow, excResolve, hcap, hshot, httl, hbody]
        | ok body => simp [mslExhaust, finishFlow, hcap, hshot, httl, hbody]
  · cases httl : drv.titleE with
    | error m => simp [mslExhaust, finishFlow, excResolve, hcap, httl]
    | ok ttl =>
      cases hbody : drv.bodyE with
      | error m => simp [mslExhaust, finishFlow, excResolve, hcap, httl, hbody]
      | ok body => simp [mslExhaust, finishFlow, hcap, httl, hbody]

/-- With `optional = true`, a text cascade in which no selector iteration
succeeds and the accessibility-API click raises either returns the optional
outcome directly (`element_found = false` with the tried selectors retained)
or raises out of its debug screenshot. -/
lemma smartClickWithText_nosucc (drv : Driver) (t et : String) (cap : Bool)
    (now : Nat) (m : String)
    (hloop : (smartLoop drv t cap now (smartSelList t et)).1 = none)
    (ha11y : drv.clickSel ("[role=button][name='" ++ t ++ "']") = .error m) :
    (∃ o, (smartClickWithText drv t et cap true now).1 = .ok o ∧
      o.status = "success" ∧ o.elementFound = some false ∧
      o.triedSelectors ≠ none) ∨
    (∃ m2, (smartClickWithText drv t et cap true now).1 = .error m2) := by
  rcases hl : smartLoop drv t cap now (smartSelList t et) with ⟨oo, cls⟩
  rw [hl] at hloop
  simp only at hloop
  subst hloop
  cases hcap2 : cap with
  | true =>
    cases hsh : drv.shot with
    | ok v =>
      left
      refine ⟨{ status := "success",
                message := "Optional click: Element matching '" ++ t ++
                  "' not found but continuing",
                triedSelectors := some ((smartSelList t et).take 5),
                fallbacksTried := some ["accessibility_locator", "vision_locator", "js_locate"],
                elementFound := some false,
                debugScreenshot := some ("smart_click_failed_" ++ toString now ++ ".png") },
              ?_, rfl, rfl, by simp⟩
      rw [hcap2] at hl
      simp [smartClickWithText, hl, ha11y, hsh]
    | error m3 =>
      right
      refine ⟨m3, ?_⟩
      rw [hcap2] at hl
      simp [smartClickWithText, hl, ha11y, hsh]
  | false =>
    left
    refine ⟨{ status := "success",
              message := "Optional click: Element matching '" ++ t ++
                "' not found but continuing",
              triedSelectors := some ((smartSelList t et).take 5),
              fallbacksTried := some ["accessibility_locator", "vision_locator", "js_locate"],
              elementFound := some false,
              debugScreenshot := none },
            ?_, rfl, rfl, by simp⟩
    rw [hcap2] at hl
    simp [smartClickWithText, hl, ha11y]

/-- C3: with `optional = true`, a validated request on which no strategy
succeeds — including runs where a strategy or the executor itself raises an
exception — yields `status = "success"` with `element_found = false` from both
`playwright_multi_strategy_locate` and `playwright_smart_click` (on either of
its entry paths), never an error status; the failure information (the detailed
attempt trail or tried selectors, or the error detail) is retained in the
returned outcome. -/
theorem c3_optional_never_error :
    (∀ (pages : List Driver) (drv : Driver) (description : Option String)
        (selectors : Option (List String)) (action input : String) (pageIndex : Int)
        (cap : Bool) (now : Nat) (sl : List String),
      getPage pages pageIndex = some drv →
      mslStdSelectors description selectors = some sl →
      scanWinner (chainOf pages drv description action input pageIndex sl) = none →
      (playwright_multi_strategy_locate pages description selectors action input
        pageIndex cap true now).out.status = "success" ∧
      (playwright_multi_strategy_locate pages description selectors action input
        pageIndex cap true now).out.elementFound = some false ∧
      ((playwright_multi_strategy_locate pages description selectors action input
          pageIndex cap true now).out.detailedAttempts =
        some (playwright_multi_strategy_locate pages description selectors action input
          pageIndex cap true now).attempts ∨
       (playwright_multi_strategy_locate pages description selectors action input
          pageIndex cap true now).out.errInfo ≠ none)) ∧
    (∀ (pages : List Driver) (drv : Driver) (text selector description : Option String)
        (elementType : String) (pageIndex : Int) (cap : Bool) (now : Nat) (m : String),
      getPage pages pageIndex = some drv →
      optTruthy text = true →
      (smartLoop drv (text.getD "") cap now
        (smartSelList (text.getD "") elementType)).1 = none →
      drv.clickSel ("[role=button][name='" ++ text.getD "" ++ "']") = .error m →
      (playwright_smart_click pages text selector elementType pageIndex cap true
        description now).1.status = "success" ∧
      (playwright_smart_click pages text selector elementType pageIndex cap true
        description now).1.elementFound = some false ∧
      ((playwright_smart_click pages text selector elementType pageIndex cap true
          description now).1.triedSelectors ≠ none ∨
       (playwright_smart_click pages text selector elementType pageIndex cap true
          description now).1.errInfo ≠ none)) ∧
    (∀ (pages : List Driver) (drv : Driver) (text selector description : Option String)
        (elementType t : String) (pageIndex : Int) (cap : Bool) (now : Nat)
        (m m2 : String),
      getPage pages pageIndex = some drv →
      optTruthy selector = true →
      optTruthy text = false →
      t = (if optTruthy description then description.getD "" else "Click Target") →
      drv.clickSel (selector.getD "") = .error m2 →
      (smartLoop drv t cap now (smartSelList t elementType)).1 = none →
      drv.clickSel ("[role=button][name='" ++ t ++ "']") = .error m →
      (playwright_smart_click pages text selector elementType pageIndex cap true
        description now).1.status = "success" ∧
      (playwright_smart_click pages text selector elementType pageIndex cap true
        description now).1.elementFound = some false ∧
      ((playwright_smart_click pages text selector elementType pageIndex cap true
          description now).1.triedSelectors ≠ none ∨
       (playwright_smart_click pages text selector elementType pageIndex cap true
          description now).1.errInfo ≠ none)) := by
  refine ⟨?_, ?_, ?_⟩
  · intro pages drv description selectors action input pageIndex cap now sl
      hpage hsel hnowin
    rcases hA : playwright_accessibility_locator pages description action input
      pageIndex with ⟨aRes, aCalls⟩
    rcases hV : playwright_vision_locator pages description false action input
      pageIndex with ⟨vRes, vCalls⟩
    rcases hJ : playwright_js_locate pages description action input pageIndex
      with ⟨jRes, jCalls⟩
    have hch : chainOf pages drv description action input pageIndex sl =
        stdEntries drv action input sl ++
        [⟨{ strategy := "accessibility_tree", descr := description },
           "accessibility_tree",
           subStep aRes "No matching elements found via accessibility tree"⟩,
         ⟨{ strategy := "vision_location", textKey := description }, "vision_locator",
           subStep vRes "No matching elements found via vision-based locator"⟩,
         ⟨{ strategy := "javascript", descr := description }, "javascript",
           subStep jRes "No matching elements found via JavaScript"⟩] := by
      simp [chainOf, hA, hV, hJ]
    rw [hch] at hnowin
    have hstdnone : scanWinner (stdEntries drv action input sl) = none := by
      cases hsw : scanWinner (stdEntries drv action input sl) with
      | none => rfl
      | some w =>
        rw [scanWinner_append_some _ _ w hsw] at hnowin
        cases hnowin
    rw [scanWinner_append_none _ _ hstdnone] at hnowin
    have hA1 : (aRes.status = "success" && aRes.elementFound = some true) = false := by
      by_cases h : (aRes.status = "success" && aRes.elementFound = some true) = true
      · exfalso
        have hstep : subStep aRes "No matching elements found via accessibility tree" =
            .succ := by simp [subStep, h]
        simp [scanWinner, hstep] at hnowin
      · simpa using h
    have hstepA : subStep aRes "No matching elements found via accessibility tree" =
        .fail "No matching elements found via accessibility tree" := by
      simp only [Bool.not_eq_true] at hA1
      simp [subStep, hA1]
    rw [show (scanWinner
        [⟨{ strategy := "accessibility_tree", descr := description },
           "accessibility_tree",
           subStep aRes "No matching elements found via accessibility tree"⟩,
         ⟨{ strategy := "vision_location", textKey := description }, "vision_locator",
           subStep vRes "No matching elements found via vision-based locator"⟩,
         ⟨{ strategy := "javascript", descr := description }, "javascript",
           subStep jRes "No matching elements found via JavaScript"⟩]) =
        scanWinner
        [⟨{ strategy := "vision_location", textKey := description }, "vision_locator",
           subStep vRes "No matching elements found via vision-based locator"⟩,
         ⟨{ strategy := "javascript", descr := description }, "javascript",
           subStep jRes "No matching elements found via JavaScript"⟩]
        from by simp [scanWinner, hstepA]] at hnowin
    have hV1 : (vRes.status = "success" && vRes.elementFound = some true) = false := by
      by_cases h : (vRes.status = "success" && vRes.elementFound = some true) = true
      · exfalso
        have hstep : subStep vRes
            "No matching elements found via vision-based locator" = .succ := by
          simp [subStep, h]
        simp [scanWinner, hstep] at hnowin
      · simpa using h
    have hstepV : subStep vRes "No matching elements found via vision-based locator" =
        .fail "No matching elements found via vision-based locator" := by
      simp only [Bool.not_eq_true] at hV1
      simp [subStep, hV1]
    rw [show (scanWinner
        [⟨{ strategy := "vision_location", textKey := description }, "vision_locator",
           subStep vRes "No matching elements found via vision-based locator"⟩,
         ⟨{ strategy := "javascript", descr := description }, "javascript",
           subStep jRes "No matching elements found via JavaScript"⟩]) =
        scanWinner
        [⟨{ strategy := "javascript", descr := description }, "javascript",
           subStep jRes "No matching elements found via JavaScript"⟩]
        from by simp [scanWinner, hstepV]] at hnowin
    have hJ1 : (jRes.status = "success" && jRes.elementFound = some true) = false := by
      by_cases h : (jRes.status = "success" && jRes.elementFound = some true) = true
      · exfalso
        have hstep : subStep jRes "No matching elements found via JavaScript" =
            .succ := by simp [subStep, h]
        simp [scanWinner, hstep] at hnowin
      · simpa using h
    obtain ⟨st1, h1⟩ := mslStd_nowin drv action input cap now sl ⟨[], []⟩ hstdnone
    have h2 := mslSubStage_fail drv cap now
      { strategy := "accessibility_tree", descr := description } aRes aCalls
      { status := "success", message := "Located element using accessibility tree",
        strategyUsed := some "accessibility_tree",
        elementDetailsAx := aRes.elementDetailsAx, actionPerformed := some action }
      "No matching elements found via accessibility tree" st1 hA1
    have h3 := mslSubStage_fail drv cap now
      { strategy := "vision_location", textKey := description } vRes vCalls
      { status := "success", message := "Located element using vision-based locator",
        strategyUsed := some "vision_locator", actionPerformed := some action }
      "No matching elements found via vision-based locator"
      ⟨st1.attempts ++
        [{ strategy := "accessibility_tree", descr := description,
           result := "failed",
           errMsg := some "No matching elements found via accessibility tree" }],
       st1.calls ++ aCalls⟩ hV1
    have h4 := mslSubStage_fail drv cap now
      { strategy := "javascript", descr := description } jRes jCalls
      { status := "success", message := "Located element using JavaScript",
        strategyUsed := some "javascript", elementDetailsJs := jRes.elementDetailsJs,
        actionPerformed := some action }
      "No matching elements found via JavaScript"
      ⟨(st1.attempts ++
          [{ strategy := "accessibility_tree", descr := description,
             result := "failed",
             errMsg := some "No matching elements found via accessibility tree" }]) ++
        [{ strategy := "vision_location", textKey := description, result := "failed",
           errMsg := some "No matching elements found via vision-based locator" }],
       (st1.calls ++ aCalls) ++ vCalls⟩ hJ1
    simp only [playwright_multi_strategy_locate, hpage, hsel, hA, hV, hJ, bind,
      Except.bind, pure, Except.pure, h1, h2, h3, h4]
    exact msl_exhaust_opt drv description cap now _
  · intro pages drv text selector description elementType pageIndex cap now m
      hpage ht hloop ha11y
    rcases hp : smartClickWithText drv (text.getD "") elementType cap true now
      with ⟨r, cs⟩
    rcases smartClickWithText_nosucc drv (text.getD "") elementType cap now m hloop
      ha11y with ⟨o, ho, hs, hef, htr⟩ | ⟨m2, hm⟩
    · rw [hp] at ho
      simp only at ho
      rw [ho] at hp
      refine ⟨?_, ?_, Or.inl ?_⟩
      · simp [playwright_smart_click, hpage, ht, hp]
        exact hs
      · simp [playwright_smart_click, hpage, ht, hp]
        exact hef
      · simp [playwright_smart_click, hpage, ht, hp]
        exact htr
    · rw [hp] at hm
      simp only at hm
      rw [hm] at hp
      refine ⟨?_, ?_, Or.inr ?_⟩
      · simp [playwright_smart_click, hpage, ht, hp, excResolve]
      · simp [playwright_smart_click, hpage, ht, hp, excResolve]
      · simp [playwright_smart_click, hpage, ht, hp, excResolve]
  · intro pages drv text selector description elementType t pageIndex cap now m m2
      hpage hseltr ht htdef hclick hloop ha11y
    subst htdef
    rcases hp : smartClickWithText drv
      (if optTruthy description then description.getD "" else "Click Target")
      elementType cap true now with ⟨r, cs⟩
    rcases smartClickWithText_nosucc drv
      (if optTruthy description then description.getD "" else "Click Target")
      elementType cap now m hloop ha11y with ⟨o, ho, hs, hef, htr⟩ | ⟨m3, hm⟩
    · rw [hp] at ho
      simp only at ho
      rw [ho] at hp
      refine ⟨?_, ?_, Or.inl ?_⟩
      · simp [playwright_smart_click, hpage, ht, hseltr, hclick, hp]
        exact hs
      · simp [playwright_smart_click, hpage, ht, hseltr, hclick, hp]
        exact hef
      · simp [playwright_smart_click, hpage, ht, hseltr, hclick, hp]
        exact htr
    · rw [hp] at hm
      simp only at hm
      rw [hm] at hp
      refine ⟨?_, ?_, Or.inr ?_⟩
      · simp [playwright_smart_click, hpage, ht, hseltr, hclick, hp, excResolve]
      · simp [playwright_smart_click, hpage, ht, hseltr, hclick, hp, excResolve]
      · simp [playwright_smart_click, hpage, ht, hseltr, hclick, hp, excResolve]

/-- C3 witness: on the all-failing page with `optional = true`, both tools —
`playwright_smart_click` on both of its entry paths — report success with
`element_found = false`. -/
theorem c3_optional_never_error_witness :
    (playwright_multi_strategy_locate [failDrv] (some "Go") none "click" "" 0 false
        true 0).out.status = "success" ∧
    (playwright_multi_strategy_locate [failDrv] (some "Go") none "click" "" 0 false
        true 0).out.elementFound = some false ∧
    (playwright_smart_click [failDrv] (some "Go") none "any" 0 false true
        none 0).1.status = "success" ∧
    (playwright_smart_click [failDrv] (some "Go") none "any" 0 false true
        none 0).1.elementFound = some false ∧
    (playwright_smart_click [failDrv] none (some "#a") "any" 0 false true
        none 0).1.status = "success" ∧
    (playwright_smart_click [failDrv] none (some "#a") "any" 0 false true
        none 0).1.elementFound = some false := by
  have h1 := c3_optional_never_error.1 [failDrv] failDrv (some "Go") none "click" ""
    0 false 0 (mslTemplates "Go") (by simp [getPage]) (by decide) (by decide)
  have h2 := c3_optional_never_error.2.1 [failDrv] failDrv (some "Go") none none
    "any" 0 false 0 "click raised" (by simp [getPage]) (by decide) (by decide) rfl
  have h3 := c3_optional_never_error.2.2 [failDrv] failDrv none (some "#a") none
    "any" "Click Target" 0 false 0 "click raised" "click raised" (by simp [getPage])
    (by decide) (by decide) (by decide) rfl (by decide) rfl
  exact ⟨h1.1, h1.2.1, h2.1, h2.2.1, h3.1, h3.2.1⟩

/-! ### Flow and counting lemmas for `playwright_auto_execute` -/

lemma fbCount_append (l1 l2 : List ToolCall) :
    fbCount (l1 ++ l2) = fbCount l1 + fbCount l2 := by
  simp [fbCount, List.filter_append]

lemma fbCount_fb (i : Nat) (n : String) : fbCount [ToolCall.fallbackC i n] = 1 := rfl

lemma fbCount_primary (n : String) : fbCount [ToolCall.primaryC n] = 0 := rfl

lemma fbCount_lastResort (t : String) : fbCount [ToolCall.lastResortC t] = 0 := rfl

/-- An early return of the primary-tool section always reports success. -/
lemma autoPrimary_flow (pages : List Driver) (avail : String → ToolAttr)
    (action target value : String) (pageIndex : Int) (cap : Bool) (now : Nat)
    (name : String) :
    match autoPrimary pages avail action target value pageIndex cap now name with
    | .error (r, _) => r.status = "success"
    | .ok _ => True := by
  cases ha : avail name with
  | absent => simp [autoPrimary, ha]
  | notCallable => simp [autoPrimary, ha]
  | callable =>
    cases hi : invokeByName pages name action target value pageIndex cap now with
    | error m => simp [autoPrimary, ha, hi]
    | ok p =>
      obtain ⟨res, dcs⟩ := p
      by_cases hs : res.status = "success" <;> simp [autoPrimary, ha, hi, hs]

/-- An early return of the fallback loop always reports success. -/
lemma autoFallbacks_flow (pages : List Driver) (avail : String → ToolAttr)
    (action target value : String) (pageIndex : Int) (cap : Bool) (now : Nat)
    (maxAttempts : Nat) : ∀ (l : List String) (i : Nat) (st : ASt),
    match autoFallbacks pages avail action target value pageIndex cap now maxAttempts
        l i st with
    | .error (r, _) => r.status = "success"
    | .ok _ => True := by
  intro l
  induction l with
  | nil => intro i st; simp [autoFallbacks]
  | cons name rest ih =>
    intro i st
    by_cases hm : maxAttempts ≤ i
    · simp [autoFallbacks, hm]
    · cases ha : avail name with
      | absent => simpa [autoFallbacks, hm, ha] using ih (i + 1) _
      | notCallable => simpa [autoFallbacks, hm, ha] using ih (i + 1) _
      | callable =>
        cases hi : invokeByName pages name action target value pageIndex cap now with
        | error m => simpa [autoFallbacks, hm, ha, hi] using ih (i + 1) _
        | ok p =>
          obtain ⟨res, dcs⟩ := p
          by_cases hs : res.status = "success"
          · simp [autoFallbacks, hm, ha, hi, hs]
          · simpa [autoFallbacks, hm, ha, hi, hs] using ih (i + 1) _

/-- The last-resort-and-final section always returns a success or error status. -/
lemma autoFinal_statusOk (drv : Driver) (action target : String) (cap : Bool)
    (now : Nat) (st : ASt) :
    (autoFinal drv action target cap now st).1.status = "success" ∨
    (autoFinal drv action target cap now st).1.status = "error" := by
  by_cases hc : pyLower action = "click"
  · cases hscript : jsDirectClickScript drv.dom drv.querySel target with
    | some info =>
      by_cases hcap : cap
      · cases hshot : drv.shot with
        | ok u => left; simp [autoFinal, hc, hcap, hscript, hshot]
        | error m => right; simp [autoFinal, hc, hcap, hscript, hshot]
      · left; simp [autoFinal, hc, hcap, hscript]
    | none =>
      right
      by_cases hcap : cap
      · cases hshot : drv.shot with
        | ok u => simp [autoFinal, hc, hcap, hscript, hshot]
        | error m => simp [autoFinal, hc, hcap, hscript, hshot]
      · simp [autoFinal, hc, hcap, hscript]
  · right
    by_cases hcap : cap
    · cases hshot : drv.shot with
      | ok u => simp [autoFinal, hc, hcap, hshot]
      | error m => simp [autoFinal, hc, hcap, hshot]
    · simp [autoFinal, hc, hcap]

/-! ### Flow lemmas for `playwright_multi_strategy_locate` without the
screenshot hypothesis, for the totality statement of C7. -/

/-- An early return of the standard-selector stage is always a success flow,
never an escaping exception. -/
lemma mslStd_flow (drv : Driver) (action input : String) (cap : Bool) (now : Nat) :
    ∀ (sl : List String) (st : St),
    match mslStd drv action input cap now sl st with
    | .error (.ret o, _) => o.status = "success"
    | .error (.exc _, _) => False
    | .ok _ => True := by
  intro sl
  induction sl with
  | nil => intro st; simp [mslStd]
  | cons sel rest ih =>
    intro st
    cases hw : drv.wait sel 1000 with
    | raised m => simpa [mslStd, hw] using ih _
    | nullRes => simpa [mslStd, hw] using ih _
    | found e =>
      rcases hact : actMsl drv e action input with ⟨r, acs⟩
      cases r with
      | error m => simpa [mslStd, hw, hact] using ih _
      | ok u =>
        by_cases hcap : cap
        · cases hshot : drv.shot with
          | ok v => simp [mslStd, hw, hact, hcap, hshot]
          | error m => simpa [mslStd, hw, hact, hcap, hshot] using ih _
        · simp [mslStd, hw, hact, hcap]

/-- An early return of a sub-tool stage is always a success flow when the
stage's success outcome carries status `success` (as all three in the chain
do). -/
lemma mslSubStage_flow (drv : Driver) (cap : Bool) (now : Nat) (rec0 : Attempt)
    (subRes : Outcome) (subCalls : List DCall) (successOutcome : Outcome)
    (failMsg : String) (st : St) (hso : successOutcome.status = "success") :
    match mslSubStage drv cap now rec0 subRes subCalls successOutcome failMsg st with
    | .error (.ret o, _) => o.status = "success"
    | .error (.exc _, _) => False
    | .ok _ => True := by
  by_cases hcond : (subRes.status = "success" && subRes.elementFound = some true) = true
  · by_cases hcap : cap
    · cases hshot : drv.shot with
      | ok u => simp [mslSubStage, hcond, hcap, hshot, hso]
      | error m => simp [mslSubStage, hcond, hcap, hshot]
    · simp [mslSubStage, hcond, hcap, hso]
  · simp [mslSubStage, hcond]

/-- The exhaustion block resolves to a success or error status, also through
the outer exception handler. -/
lemma msl_exhaust_statusOk (drv : Driver) (description : Option String)
    (cap optional : Bool) (now : Nat) (st : St) :
    (finishFlow optional (mslExhaust drv description cap optional now st)).out.status =
      "success" ∨
    (finishFlow optional (mslExhaust drv description cap optional now st)).out.status =
      "error" := by
  by_cases hcap : cap
  case pos =>
    cases hshot : drv.shot with
    | error m =>
      by_cases hopt : optional <;>
        simp [mslExhaust, finishFlow, excResolve, hcap, hshot, hopt]
    | ok u =>
      cases httl : drv.titleE with
      | error m =>
        by_cases hopt : optional <;>
          simp [mslExhaust, finishFlow, excResolve, hcap, hshot, httl, hopt]
      | ok ttl =>
        cases hbody : drv.bodyE with
        | error m =>
          by_cases hopt : optional <;>
            simp [mslExhaust, finishFlow, excResolve, hcap, hshot, httl, hbody, hopt]
        | ok body =>
          by_cases hopt : optional <;>
            simp [mslExhaust, finishFlow, hcap, hshot, httl, hbody, hopt]
  case neg =>
    cases httl : drv.titleE with
    | error m =>
      by_cases hopt : optional <;>
        simp [mslExhaust, finishFlow, excResolve, hcap, httl, hopt]
    | ok ttl =>
      cases hbody : drv.bodyE with
      | error m =>
        by_cases hopt : optional <;>
          simp [mslExhaust, finishFlow, excResolve, hcap, httl, hbody, hopt]
      | ok body =>
        by_cases hopt : optional <;>
          simp [mslExhaust, finishFlow, hcap, httl, hbody, hopt]

/-- The primary-tool section records at most its own invocation in the
tool-call log, never a fallback invocation. -/
lemma autoPrimary_calls (pages : List Driver) (avail : String → ToolAttr)
    (action target value : String) (pageIndex : Int) (cap : Bool) (now : Nat)
    (name : String) :
    match autoPrimary pages avail action target value pageIndex cap now name with
    | .ok st1 => st1.toolCalls = [] ∨ st1.toolCalls = [ToolCall.primaryC name]
    | .error (_, stE) => stE.toolCalls = [] ∨ stE.toolCalls = [ToolCall.primaryC name] := by
  cases ha : avail name with
  | absent => simp [autoPrimary, ha]
  | notCallable => simp [autoPrimary, ha]
  | callable =>
    cases hi : invokeByName pages name action target value pageIndex cap now with
    | error m => simp [autoPrimary, ha, hi]
    | ok p =>
      obtain ⟨res, dcs⟩ := p
      by_cases hs : res.status = "success" <;> simp [autoPrimary, ha, hi, hs]

/-- Starting at index `i`, the fallback loop adds at most `maxAttempts - i`
fallback invocations to the tool-call log. -/
lemma autoFallbacks_fbCount (pages : List Driver) (avail : String → ToolAttr)
    (action target value : String) (pageIndex : Int) (cap : Bool) (now : Nat)
    (maxAttempts : Nat) : ∀ (l : List String) (i : Nat) (st : ASt),
    (match autoFallbacks pages avail action target value pageIndex cap now maxAttempts
        l i st with
     | .ok st2 => fbCount st2.toolCalls
     | .error (_, st2) => fbCount st2.toolCalls) ≤
      fbCount st.toolCalls + (maxAttempts - i) := by
  intro l
  induction l with
  | nil => intro i st; simp [autoFallbacks]
  | cons name rest ih =>
    intro i st
    by_cases hm : maxAttempts ≤ i
    · simp [autoFallbacks, hm]
    · cases ha : avail name with
      | absent =>
        have hred : autoFallbacks pages avail action target value pageIndex cap now
            maxAttempts (name :: rest) i st =
            autoFallbacks pages avail action target value pageIndex cap now maxAttempts
              rest (i + 1)
              { st with attempts := st.attempts ++
                  [{ strategy := name, target := some target, result := "error",
                     errMsg := some ("Tool " ++ name ++ " does not exist") }] } := by
          simp [autoFallbacks, hm, ha]
        rw [hred]
        refine le_trans (ih (i + 1) _) ?_
        simp only []
        omega
      | notCallable =>
        have hred : autoFallbacks pages avail action target value pageIndex cap now
            maxAttempts (name :: rest) i st =
            autoFallbacks pages avail action target value pageIndex cap now maxAttempts
              rest (i + 1)
              { st with attempts := st.attempts ++
                  [{ strategy := name, target := some target, result := "error",
                     errMsg := some ("'" ++ name ++ "' object is not callable") }] } := by
          simp [autoFallbacks, hm, ha]
        rw [hred]
        refine le_trans (ih (i + 1) _) ?_
        simp only []
        omega
      | callable =>
        cases hi : invokeByName pages name action target value pageIndex cap now with
        | error m =>
          have hred : autoFallbacks pages avail action target value pageIndex cap now
              maxAttempts (name :: rest) i st =
              autoFallbacks pages avail action target value pageIndex cap now maxAttempts
                rest (i + 1)
                { st with attempts := st.attempts ++
                    [{ strategy := name, target := some target, result := "error",
                       errMsg := some m }] } := by
            simp [autoFallbacks, hm, ha, hi]
          rw [hred]
          refine le_trans (ih (i + 1) _) ?_
          simp only []
          omega
        | ok p =>
          obtain ⟨res, dcs⟩ := p
          by_cases hs : res.status = "success"
          · have hred : autoFallbacks pages avail action target value pageIndex cap now
                maxAttempts (name :: rest) i st =
                .error
                  ({ status := "success",
                     message := "Action '" ++ action ++
                       "' completed successfully with fallback tool",
                     toolUsed := some name, fallbackAttempt := some i,
                     details := some res },
                   { attempts := st.attempts ++
                       [{ strategy := name, target := some target, result := "success" }],
                     toolCalls := st.toolCalls ++ [.fallbackC i name],
                     calls := st.calls ++ dcs }) := by
              simp [autoFallbacks, hm, ha, hi, hs]
            rw [hred]
            simp only []
            rw [fbCount_append, fbCount_fb]
            omega
          · have hred : autoFallbacks pages avail action target value pageIndex cap now
                maxAttempts (name :: rest) i st =
                autoFallbacks pages avail action target value pageIndex cap now maxAttempts
                  rest (i + 1)
                  { attempts := st.attempts ++
                      [{ strategy := name, target := some target, result := "failed",
                         errMsg := some res.message }],
                    toolCalls := st.toolCalls ++ [.fallbackC i name],
                    calls := st.calls ++ dcs } := by
              simp [autoFallbacks, hm, ha, hi, hs]
            rw [hred]
            refine le_trans (ih (i + 1) _) ?_
            simp only []
            rw [fbCount_append, fbCount_fb]
            omega

/-- The fallback loop only ever appends to the attempt list. -/
lemma autoFallbacks_attempts_mono (pages : List Driver) (avail : String → ToolAttr)
    (action target value : String) (pageIndex : Int) (cap : Bool) (now : Nat)
    (maxAttempts : Nat) : ∀ (l : List String) (i : Nat) (st : ASt),
    ∃ l2, (match autoFallbacks pages avail action target value pageIndex cap now
        maxAttempts l i st with
      | .ok st2 => st2.attempts
      | .error (_, st2) => st2.attempts) = st.attempts ++ l2 := by
  intro l
  induction l with
  | nil => intro i st; exact ⟨[], by simp [autoFallbacks]⟩
  | cons name rest ih =>
    intro i st
    by_cases hm : maxAttempts ≤ i
    · exact ⟨[], by simp [autoFallbacks, hm]⟩
    · cases ha : avail name with
      | absent =>
        have hred : autoFallbacks pages avail action target value pageIndex cap now
            maxAttempts (name :: rest) i st =
            autoFallbacks pages avail action target value pageIndex cap now maxAttempts
              rest (i + 1)
              { st with attempts := st.attempts ++
                  [{ strategy := name, target := some target, result := "error",
                     errMsg := some ("Tool " ++ name ++ " does not exist") }] } := by
          simp [autoFallbacks, hm, ha]
        obtain ⟨l2, hl2⟩ := ih (i + 1)
          { st with attempts := st.attempts ++
              [{ strategy := name, target := some target, result := "error",
                 errMsg := some ("Tool " ++ name ++ " does not exist") }] }
        rw [hred, hl2]
        exact ⟨_, List.append_assoc _ _ _⟩
      | notCallable =>
        have hred : autoFallbacks pages avail action target value pageIndex cap now
            maxAttempts (name :: rest) i st =
            autoFallbacks pages avail action target value pageIndex cap now maxAttempts
              rest (i + 1)
              { st with attempts := st.attempts ++
                  [{ strategy := name, target := some target, result := "error",
                     errMsg := some ("'" ++ name ++ "' object is not callable") }] } := by
          simp [autoFallbacks, hm, ha]
        obtain ⟨l2, hl2⟩ := ih (i + 1)
          { st with attempts := st.attempts ++
              [{ strategy := name, target := some target, result := "error",
                 errMsg := some ("'" ++ name ++ "' object is not callable") }] }
        rw [hred, hl2]
        exact ⟨_, List.append_assoc _ _ _⟩
      | callable =>
        cases hi : invokeByName pages name action target value pageIndex cap now with
        | error m =>
          have hred : autoFallbacks pages avail action target value pageIndex cap now
              maxAttempts (name :: rest) i st =
              autoFallbacks pages avail action target value pageIndex cap now maxAttempts
                rest (i + 1)
                { st with attempts := st.attempts ++
                    [{ strategy := name, target := some target, result := "error",
                       errMsg := some m }] } := by
            simp [autoFallbacks, hm, ha, hi]
          obtain ⟨l2, hl2⟩ := ih (i + 1)
            { st with attempts := st.attempts ++
                [{ strategy := name, target := some target, result := "error",
                   errMsg := some m }] }
          rw [hred, hl2]
          exact ⟨_, List.append_assoc _ _ _⟩
        | ok p =>
          obtain ⟨res, dcs⟩ := p
          by_cases hs : res.status = "success"
          · have hred : autoFallbacks pages avail action target value pageIndex cap now
                maxAttempts (name :: rest) i st =
                .error
                  ({ status := "success",
                     message := "Action '" ++ action ++
                       "' completed successfully with fallback tool",
                     toolUsed := some name, fallbackAttempt := some i,
                     details := some res },
                   { attempts := st.attempts ++
                       [{ strategy := name, target := some target, result := "success" }],
                     toolCalls := st.toolCalls ++ [.fallbackC i name],
                     calls := st.calls ++ dcs }) := by
              simp [autoFallbacks, hm, ha, hi, hs]
            rw [hred]
            exact ⟨_, rfl⟩
          · have hred : autoFallbacks pages avail action target value pageIndex cap now
                maxAttempts (name :: rest) i st =
                autoFallbacks pages avail action target value pageIndex cap now maxAttempts
                  rest (i + 1)
                  { attempts := st.attempts ++
                      [{ strategy := name, target := some target, result := "failed",
                         errMsg := some res.message }],
                    toolCalls := st.toolCalls ++ [.fallbackC i name],
                    calls := st.calls ++ dcs } := by
              simp [autoFallbacks, hm, ha, hi, hs]
            obtain ⟨l2, hl2⟩ := ih (i + 1)
              { attempts := st.attempts ++
                  [{ strategy := name, target := some target, result := "failed",
                     errMsg := some res.message }],
                toolCalls := st.toolCalls ++ [.fallbackC i name],
                calls := st.calls ++ dcs }
            rw [hred, hl2]
            exact ⟨_, List.append_assoc _ _ _⟩

/-- Every fallback invocation the loop logs leaves an attempt record naming
that tool. -/
lemma autoFallbacks_call_attempt (pages : List Driver) (avail : String → ToolAttr)
    (action target value : String) (pageIndex : Int) (cap : Bool) (now : Nat)
    (maxAttempts : Nat) : ∀ (l : List String) (i : Nat) (st : ASt) (j : Nat)
    (nm : String),
    ToolCall.fallbackC j nm ∈
      (match autoFallbacks pages avail action target value pageIndex cap now
          maxAttempts l i st with
       | .ok st2 => st2.toolCalls
       | .error (_, st2) => st2.toolCalls) →
    ToolCall.fallbackC j nm ∈ st.toolCalls ∨
    ∃ rec ∈ (match autoFallbacks pages avail action target value pageIndex cap now
        maxAttempts l i st with
      | .ok st2 => st2.attempts
      | .error (_, st2) => st2.attempts), rec.strategy = nm := by
  intro l
  induction l with
  | nil =>
    intro i st j nm h
    left
    simpa [autoFallbacks] using h
  | cons name rest ih =>
    intro i st j nm h
    by_cases hm : maxAttempts ≤ i
    · left
      simpa [autoFallbacks, hm] using h
    · cases ha : avail name with
      | absent =>
        have hred : autoFallbacks pages avail action target value pageIndex cap now
            maxAttempts (name :: rest) i st =
            autoFallbacks pages avail action target value pageIndex cap now maxAttempts
              rest (i + 1)
              { st with attempts := st.attempts ++
                  [{ strategy := name, target := some target, result := "error",
                     errMsg := some ("Tool " ++ name ++ " does not exist") }] } := by
          simp [autoFallbacks, hm, ha]
        rw [hred] at h ⊢
        exact ih (i + 1) _ j nm h
      | notCallable =>
        have hred : autoFallbacks pages avail action target value pageIndex cap now
            maxAttempts (name :: rest) i st =
            autoFallbacks pages avail action target value pageIndex cap now maxAttempts
              rest (i + 1)
              { st with attempts := st.attempts ++
                  [{ strategy := name, target := some target, result := "error",
                     errMsg := some ("'" ++ name ++ "' object is not callable") }] } := by
          simp [autoFallbacks, hm, ha]
        rw [hred] at h ⊢
        exact ih (i + 1) _ j nm h
      | callable =>
        cases hi : invokeByName pages name action target value pageIndex cap now with
        | error m =>
          have hred : autoFallbacks pages avail action target value pageIndex cap now
              maxAttempts (name :: rest) i st =
              autoFallbacks pages avail action target value pageIndex cap now maxAttempts
                rest (i + 1)
                { st with attempts := st.attempts ++
                    [{ strategy := name, target := some target, result := "error",
                       errMsg := some m }] } := by
            simp [autoFallbacks, hm, ha, hi]
          rw [hred] at h ⊢
          exact ih (i + 1) _ j nm h
        | ok p =>
          obtain ⟨res, dcs⟩ := p
          by_cases hs : res.status = "success"
          · have hred : autoFallbacks pages avail action target value pageIndex cap now
                maxAttempts (name :: rest) i st =
                .error
                  ({ status := "success",
                     message := "Action '" ++ action ++
                       "' completed successfully with fallback tool",
                     toolUsed := some name, fallbackAttempt := some i,
                     details := some res },
                   { attempts := st.attempts ++
                       [{ strategy := name, target := some target, result := "success" }],
                     toolCalls := st.toolCalls ++ [.fallbackC i name],
                     calls := st.calls ++ dcs }) := by
              simp [autoFallbacks, hm, ha, hi, hs]
            rw [hred] at h ⊢
            simp only [List.mem_append, List.mem_singleton] at h
            rcases h with h | h
            · exact Or.inl h
            · refine Or.inr
                ⟨{ strategy := name, target := some target, result := "success" },
                  ?_, ?_⟩
              · simp
              · simp only [ToolCall.fallbackC.injEq] at h
                exact h.2.symm
          · have hred : autoFallbacks pages avail action target value pageIndex cap now
                maxAttempts (name :: rest) i st =
                autoFallbacks pages avail action target value pageIndex cap now maxAttempts
                  rest (i + 1)
                  { attempts := st.attempts ++
                      [{ strategy := name, target := some target, result := "failed",
                         errMsg := some res.message }],
                    toolCalls := st.toolCalls ++ [.fallbackC i name],
                    calls := st.calls ++ dcs } := by
              simp [autoFallbacks, hm, ha, hi, hs]
            rw [hred] at h ⊢
            rcases ih (i + 1) _ j nm h with hmem | hex
            · simp only [List.mem_append, List.mem_singleton] at hmem
              rcases hmem with hmem | hmem
              · exact Or.inl hmem
              · obtain ⟨l2, hl2⟩ := autoFallbacks_attempts_mono pages avail action target
                  value pageIndex cap now maxAttempts rest (i + 1)
                  { attempts := st.attempts ++
                      [{ strategy := name, target := some target, result := "failed",
                         errMsg := some res.message }],
                    toolCalls := st.toolCalls ++ [.fallbackC i name],
                    calls := st.calls ++ dcs }
                refine Or.inr
                  ⟨{ strategy := name, target := some target, result := "failed",
                      errMsg := some res.message },
                    ?_, ?_⟩
                · rw [hl2]
                  simp
                · simp only [ToolCall.fallbackC.injEq] at hmem
                  exact hmem.2.symm
            · exact Or.inr hex

/-- The last-resort-and-final section only appends to the attempt list. -/
lemma autoFinal_attempts_prefix (drv : Driver) (action target : String) (cap : Bool)
    (now : Nat) (st : ASt) :
    st.attempts <+: (autoFinal drv action target cap now st).2.attempts := by
  by_cases hc : pyLower action = "click"
  · cases hscript : jsDirectClickScript drv.dom drv.querySel target with
    | some info =>
      by_cases hcap : cap
      · cases hshot : drv.shot with
        | ok u =>
          simp only [autoFinal, hc, hcap, hscript, hshot]
          exact List.prefix_append _ _
        | error m =>
          simp only [autoFinal, hc, hcap, hscript, hshot]
          exact List.prefix_append _ _
      · simp only [autoFinal, hc, hcap, hscript]
        simp only [if_false, Bool.false_eq_true]
        exact List.prefix_append _ _
    | none =>
      by_cases hcap : cap
      · cases hshot : drv.shot with
        | ok u =>
          simp only [autoFinal, hc, hcap, hscript, hshot]
          exact List.prefix_append _ _
        | error m =>
          simp only [autoFinal, hc, hcap, hscript, hshot]
          exact List.prefix_append _ _
      · simp only [autoFinal, hc, hcap, hscript]
        simp only [if_false, Bool.false_eq_true]
        exact List.prefix_append _ _
  · by_cases hcap : cap
    · cases hshot : drv.shot with
      | ok u =>
        simp only [autoFinal, hc, hcap, hshot]
        simp
      | error m =>
        simp only [autoFinal, hc, hcap, hshot]
        simp
    · simp only [autoFinal, hc, hcap]
      simp

/-- The last-resort-and-final section leaves the fallback-invocation count of
the tool-call log unchanged. -/
lemma autoFinal_fbCount (drv : Driver) (action target : String) (cap : Bool)
    (now : Nat) (st : ASt) :
    fbCount (autoFinal drv action target cap now st).2.toolCalls =
      fbCount st.toolCalls := by
  by_cases hc : pyLower action = "click"
  · cases hscript : jsDirectClickScript drv.dom drv.querySel target with
    | some info =>
      by_cases hcap : cap
      · cases hshot : drv.shot with
        | ok u => simp [autoFinal, hc, hcap, hscript, hshot, fbCount_append, fbCount_lastResort]
        | error m => simp [autoFinal, hc, hcap, hscript, hshot, fbCount_append, fbCount_lastResort]
      · simp [autoFinal, hc, hcap, hscript, fbCount_append, fbCount_lastResort]
    | none =>
      by_cases hcap : cap
      · cases hshot : drv.shot with
        | ok u => simp [autoFinal, hc, hcap, hscript, hshot, fbCount_append, fbCount_lastResort]
        | error m => simp [autoFinal, hc, hcap, hscript, hshot, fbCount_append, fbCount_lastResort]
      · simp [autoFinal, hc, hcap, hscript, fbCount_append, fbCount_lastResort]
  · by_cases hcap : cap
    · cases hshot : drv.shot with
      | ok u => simp [autoFinal, hc, hcap, hshot]
      | error m => simp [autoFinal, hc, hcap, hshot]
    · simp [autoFinal, hc, hcap]

/-- Any fallback invocation in the final section's tool-call log was already
there when the section started (it only adds the last-resort entry). -/
lemma autoFinal_fb_mem (drv : Driver) (action target : String) (cap : Bool)
    (now : Nat) (st : ASt) (j : Nat) (nm : String)
    (h : ToolCall.fallbackC j nm ∈ (autoFinal drv action target cap now st).2.toolCalls) :
    ToolCall.fallbackC j nm ∈ st.toolCalls := by
  by_cases hc : pyLower action = "click"
  · cases hscript : jsDirectClickScript drv.dom drv.querySel target with
    | some info =>
      by_cases hcap : cap
      · cases hshot : drv.shot with
        | ok u => simpa [autoFinal, hc, hcap, hscript, hshot] using h
        | error m => simpa [autoFinal, hc, hcap, hscript, hshot] using h
      · simpa [autoFinal, hc, hcap, hscript] using h
    | none =>
      by_cases hcap : cap
      · cases hshot : drv.shot with
        | ok u => simpa [autoFinal, hc, hcap, hscript, hshot] using h
        | error m => simpa [autoFinal, hc, hcap, hscript, hshot] using h
      · simpa [autoFinal, hc, hcap, hscript] using h
  · by_cases hcap : cap
    · cases hshot : drv.shot with
      | ok u => simpa [autoFinal, hc, hcap, hshot] using h
      | error m => simpa [autoFinal, hc, hcap, hshot] using h
    · simpa [autoFinal, hc, hcap] using h

/-- For the click verb, the final section always performs the last-resort
script click and records a `js_direct_click` attempt. -/
lemma autoFinal_click_mem (drv : Driver) (action target : String) (cap : Bool)
    (now : Nat) (st : ASt) (hc : pyLower action = "click") :
    ToolCall.lastResortC target ∈ (autoFinal drv action target cap now st).2.toolCalls ∧
    ∃ rec ∈ (autoFinal drv action target cap now st).2.attempts,
      rec.strategy = "js_direct_click" := by
  cases hscript : jsDirectClickScript drv.dom drv.querySel target with
  | some info =>
    by_cases hcap : cap
    · cases hshot : drv.shot with
      | ok u =>
        refine ⟨?_,
          ⟨{ strategy := "js_direct_click", target := some target, result := "success" },
            ?_, rfl⟩⟩
        · simp [autoFinal, hc, hcap, hscript, hshot]
        · simp [autoFinal, hc, hcap, hscript, hshot]
      | error m =>
        refine ⟨?_,
          ⟨{ strategy := "js_direct_click", target := some target, result := "error",
              errMsg := some m },
            ?_, rfl⟩⟩
        · simp [autoFinal, hc, hcap, hscript, hshot]
        · simp [autoFinal, hc, hcap, hscript, hshot]
    · refine ⟨?_,
        ⟨{ strategy := "js_direct_click", target := some target, result := "success" },
          ?_, rfl⟩⟩
      · simp [autoFinal, hc, hcap, hscript]
      · simp [autoFinal, hc, hcap, hscript]
  | none =>
    by_cases hcap : cap
    · cases hshot : drv.shot with
      | ok u =>
        refine ⟨?_,
          ⟨{ strategy := "js_direct_click", target := some target, result := "failed",
              errMsg := some "Element not found" },
            ?_, rfl⟩⟩
        · simp [autoFinal, hc, hcap, hscript, hshot]
        · simp [autoFinal, hc, hcap, hscript, hshot]
      | error m =>
        refine ⟨?_,
          ⟨{ strategy := "js_direct_click", target := some target, result := "failed",
              errMsg := some "Element not found" },
            ?_, rfl⟩⟩
        · simp [autoFinal, hc, hcap, hscript, hshot]
        · simp [autoFinal, hc, hcap, hscript, hshot]
    · refine ⟨?_,
        ⟨{ strategy := "js_direct_click", target := some target, result := "failed",
            errMsg := some "Element not found" },
          ?_, rfl⟩⟩
      · simp [autoFinal, hc, hcap, hscript]
      · simp [autoFinal, hc, hcap, hscript]

/-- `playwright_multi_strategy_locate` always returns a success or error
status: expected failures become outcome values, never escaping exceptions. -/
lemma msl_status_total (pages : List Driver) (description : Option String)
    (selectors : Option (List String)) (action input : String) (pageIndex : Int)
    (cap optional : Bool) (now : Nat) :
    (playwright_multi_strategy_locate pages description selectors action input
        pageIndex cap optional now).out.status = "success" ∨
    (playwright_multi_strategy_locate pages description selectors action input
        pageIndex cap optional now).out.status = "error" := by
  cases hpage : getPage pages pageIndex with
  | none => right; simp [playwright_multi_strategy_locate, hpage]
  | some drv =>
    cases hsel : mslStdSelectors description selectors with
    | none => right; simp [playwright_multi_strategy_locate, hpage, hsel]
    | some sl =>
      rcases hA : playwright_accessibility_locator pages description action input pageIndex
        with ⟨aRes, aCalls⟩
      rcases hV : playwright_vision_locator pages description false action input pageIndex
        with ⟨vRes, vCalls⟩
      rcases hJ : playwright_js_locate pages description action input pageIndex
        with ⟨jRes, jCalls⟩
      have h1 := mslStd_flow drv action input cap now sl ⟨[], []⟩
      cases hc1 : mslStd drv action input cap now sl ⟨[], []⟩ with
      | error fs =>
        obtain ⟨f, stE⟩ := fs
        rw [hc1] at h1
        cases f with
        | exc m => simp at h1
        | ret o =>
          simp only [] at h1
          left
          simp only [playwright_multi_strategy_locate, hpage, hsel, hA, hV, hJ, bind,
            Except.bind, hc1, finishFlow]
          exact h1
      | ok st1 =>
        have h2 := mslSubStage_flow drv cap now
          { strategy := "accessibility_tree", descr := description } aRes aCalls
          { status := "success", message := "Located element using accessibility tree",
            strategyUsed := some "accessibility_tree",
            elementDetailsAx := aRes.elementDetailsAx, actionPerformed := some action }
          "No matching elements found via accessibility tree" st1 rfl
        cases hc2 : mslSubStage drv cap now
            { strategy := "accessibility_tree", descr := description } aRes aCalls
            { status := "success", message := "Located element using accessibility tree",
              strategyUsed := some "accessibility_tree",
              elementDetailsAx := aRes.elementDetailsAx, actionPerformed := some action }
            "No matching elements found via accessibility tree" st1 with
        | error fs =>
          obtain ⟨f, stE⟩ := fs
          rw [hc2] at h2
          cases f with
          | exc m => simp at h2
          | ret o =>
            simp only [] at h2
            left
            simp only [playwright_multi_strategy_locate, hpage, hsel, hA, hV, hJ, bind,
              Except.bind, hc1, hc2, finishFlow]
            exact h2
        | ok st2 =>
          have h3 := mslSubStage_flow drv cap now
            { strategy := "vision_location", textKey := description } vRes vCalls
            { status := "success", message := "Located element using vision-based locator",
              strategyUsed := some "vision_locator", actionPerformed := some action }
            "No matching elements found via vision-based locator" st2 rfl
          cases hc3 : mslSubStage drv cap now
              { strategy := "vision_location", textKey := description } vRes vCalls
              { status := "success",
                message := "Located element using vision-based locator",
                strategyUsed := some "vision_locator", actionPerformed := some action }
              "No matching elements found via vision-based locator" st2 with
          | error fs =>
            obtain ⟨f, stE⟩ := fs
            rw [hc3] at h3
            cases f with
            | exc m => simp at h3
            | ret o =>
              simp only [] at h3
              left
              simp only [playwright_multi_strategy_locate, hpage, hsel, hA, hV, hJ, bind,
                Except.bind, hc1, hc2, hc3, finishFlow]
              exact h3
          | ok st3 =>
            have h4 := mslSubStage_flow drv cap now
              { strategy := "javascript", descr := description } jRes jCalls
              { status := "success", message := "Located element using JavaScript",
                strategyUsed := some "javascript",
                elementDetailsJs := jRes.elementDetailsJs,
                actionPerformed := some action }
              "No matching elements found via JavaScript" st3 rfl
            cases hc4 : mslSubStage drv cap now
                { strategy := "javascript", descr := description } jRes jCalls
                { status := "success", message := "Located element using JavaScript",
                  strategyUsed := some "javascript",
                  elementDetailsJs := jRes.elementDetailsJs,
                  actionPerformed := some action }
                "No matching elements found via JavaScript" st3 with
            | error fs =>
              obtain ⟨f, stE⟩ := fs
              rw [hc4] at h4
              cases f with
              | exc m => simp at h4
              | ret o =>
                simp only [] at h4
                left
                simp only [playwright_multi_strategy_locate, hpage, hsel, hA, hV, hJ,
                  bind, Except.bind, hc1, hc2, hc3, hc4, finishFlow]
                exact h4
            | ok st4 =>
              have h5 := msl_exhaust_statusOk drv description cap optional now st4
              simp only [playwright_multi_strategy_locate, hpage, hsel, hA, hV, hJ,
                bind, Except.bind, hc1, hc2, hc3, hc4]
              exact h5

/-- `playwright_auto_execute` always returns a success or error status:
expected failures become outcome values, never escaping exceptions. -/
lemma auto_status_total (pages : List Driver) (avail : String → ToolAttr)
    (action target value : String) (pageIndex : Int) (maxAttempts : Nat)
    (cap : Bool) (now : Nat) :
    (playwright_auto_execute pages avail action target value pageIndex maxAttempts
        cap now).ret.status = "success" ∨
    (playwright_auto_execute pages avail action target value pageIndex maxAttempts
        cap now).ret.status = "error" := by
  cases hpage : getPage pages pageIndex with
  | none => right; simp [playwright_auto_execute, hpage]
  | some drv =>
    cases hmap : actionToolMap action with
    | nil => right; simp [playwright_auto_execute, hpage, hmap]
    | cons primaryName fallbackNames =>
      have hp := autoPrimary_flow pages avail action target value pageIndex cap now
        primaryName
      cases hc1 : autoPrimary pages avail action target value pageIndex cap now
          primaryName with
      | error r =>
        obtain ⟨ret1, stE⟩ := r
        rw [hc1] at hp
        simp only [] at hp
        left
        simp only [playwright_auto_execute, hpage, hmap, bind, Except.bind, hc1]
        exact hp
      | ok st1 =>
        have hf := autoFallbacks_flow pages avail action target value pageIndex cap now
          maxAttempts fallbackNames 1 st1
        cases hc2 : autoFallbacks pages avail action target value pageIndex cap now
            maxAttempts fallbackNames 1 st1 with
        | error r =>
          obtain ⟨ret2, stE⟩ := r
          rw [hc2] at hf
          simp only [] at hf
          left
          simp only [playwright_auto_execute, hpage, hmap, bind, Except.bind, hc1, hc2]
          exact hf
        | ok st2 =>
          rcases hAF : autoFinal drv action target cap now st2 with ⟨r3, st3⟩
          have h5 := autoFinal_statusOk drv action target cap now st2
          rw [hAF] at h5
          simp only [playwright_auto_execute, hpage, hmap, bind, Except.bind, pure,
            Except.pure, hc1, hc2, hAF]
          simpa using h5

/-- C7: the core surface operations `playwright_multi_strategy_locate` and
`playwright_auto_execute` never raise to the caller: every run resolves to a
success or error outcome value; a request-validation violation — an invalid
page index, or neither description nor selectors supplied — is reported
immediately as an error outcome, with no strategy attempt recorded and no
tool or driver call made. -/
theorem c7_never_raise_validation_first :
    (∀ (pages : List Driver) (description : Option String)
        (selectors : Option (List String)) (action input : String) (pageIndex : Int)
        (cap optional : Bool) (now : Nat),
      getPage pages pageIndex = none →
      playwright_multi_strategy_locate pages description selectors action input
          pageIndex cap optional now =
        ⟨{ status := "error", message := "Invalid page index" }, [], []⟩) ∧
    (∀ (pages : List Driver) (drv : Driver) (description : Option String)
        (selectors : Option (List String)) (action input : String) (pageIndex : Int)
        (cap optional : Bool) (now : Nat),
      getPage pages pageIndex = some drv →
      mslStdSelectors description selectors = none →
      playwright_multi_strategy_locate pages description selectors action input
          pageIndex cap optional now =
        ⟨{ status := "error",
           message := "Either description or selectors must be provided" }, [], []⟩) ∧
    (∀ (pages : List Driver) (description : Option String)
        (selectors : Option (List String)) (action input : String) (pageIndex : Int)
        (cap optional : Bool) (now : Nat),
      (playwright_multi_strategy_locate pages description selectors action input
          pageIndex cap optional now).out.status = "success" ∨
      (playwright_multi_strategy_locate pages description selectors action input
          pageIndex cap optional now).out.status = "error") ∧
    (∀ (pages : List Driver) (avail : String → ToolAttr) (action target value : String)
        (pageIndex : Int) (maxAttempts : Nat) (cap : Bool) (now : Nat),
      getPage pages pageIndex = none →
      playwright_auto_execute pages avail action target value pageIndex maxAttempts
          cap now =
        ⟨{ status := "error", message := "Invalid page index" }, [], [], []⟩) ∧
    (∀ (pages : List Driver) (avail : String → ToolAttr) (action target value : String)
        (pageIndex : Int) (maxAttempts : Nat) (cap : Bool) (now : Nat),
      (playwright_auto_execute pages avail action target value pageIndex maxAttempts
          cap now).ret.status = "success" ∨
      (playwright_auto_execute pages avail action target value pageIndex maxAttempts
          cap now).ret.status = "error") := by
  refine ⟨?_, ?_, ?_, ?_, ?_⟩
  · intro pages description selectors action input pageIndex cap optional now hpage
    simp [playwright_multi_strategy_locate, hpage]
  · intro pages drv description selectors action input pageIndex cap optional now
      hpage hsel
    simp [playwright_multi_strategy_locate, hpage, hsel]
  · intro pages description selectors action input pageIndex cap optional now
    exact msl_status_total pages description selectors action input pageIndex cap
      optional now
  · intro pages avail action target value pageIndex maxAttempts cap now hpage
    simp [playwright_auto_execute, hpage]
  · intro pages avail action target value pageIndex maxAttempts cap now
    exact auto_status_total pages avail action target value pageIndex maxAttempts
      cap now

theorem c7_never_raise_validation_first_witness :
    playwright_multi_strategy_locate [] none none "click" "" 0 false false 0 =
      ⟨{ status := "error", message := "Invalid page index" }, [], []⟩ ∧
    playwright_multi_strategy_locate [failDrv] none none "click" "" 0 false false 0 =
      ⟨{ status := "error",
         message := "Either description or selectors must be provided" }, [], []⟩ ∧
    playwright_auto_execute [] allAvail "click" "T" "" 0 3 false 0 =
      ⟨{ status := "error", message := "Invalid page index" }, [], [], []⟩ :=
  ⟨c7_never_raise_validation_first.1 [] none none "click" "" 0 false false 0 rfl,
   c7_never_raise_validation_first.2.1 [failDrv] failDrv none none "click" "" 0 false
     false 0 rfl rfl,
   c7_never_raise_validation_first.2.2.2.1 [] allAvail "click" "T" "" 0 3 false 0 rfl⟩

/-- C5: with the click verb and `max_attempts = 3`, a failing primary
`playwright_smart_click` followed by a succeeding first fallback
`playwright_multi_strategy_locate` yields exactly two attempt records, a
success return naming the fallback tool with `fallback_attempt = 1`, and no
further fallback or last-resort invocation; in general at most
`max_attempts - 1` fallback tools are invoked after the primary attempt, and
every fallback invocation leaves an attempt record naming its tool. -/
theorem c5_dispatch_two_attempts :
    (∀ (pages : List Driver) (drv : Driver) (target value : String) (pageIndex : Int)
        (cap : Bool) (now : Nat) (res1 : Outcome) (dcs1 : List DCall) (r2 : RunOut),
      getPage pages pageIndex = some drv →
      playwright_smart_click pages (some target) none "any" pageIndex cap false none
          now = (res1, dcs1) →
      res1.status ≠ "success" →
      playwright_multi_strategy_locate pages (some target) none "click" value
          pageIndex cap false now = r2 →
      r2.out.status = "success" →
      playwright_auto_execute pages allAvail "click" target value pageIndex 3 cap now =
        ⟨{ status := "success",
           message := "Action 'click' completed successfully with fallback tool",
           toolUsed := some "playwright_multi_strategy_locate",
           details := some r2.out, fallbackAttempt := some 1 },
         [{ strategy := "playwright_smart_click", target := some target,
            result := "failed", errMsg := some res1.message },
          { strategy := "playwright_multi_strategy_locate", target := some target,
            result := "success" }],
         [.primaryC "playwright_smart_click",
          .fallbackC 1 "playwright_multi_strategy_locate"],
         dcs1 ++ r2.calls⟩) ∧
    (∀ (pages : List Driver) (avail : String → ToolAttr) (action target value : String)
        (pageIndex : Int) (maxAttempts : Nat) (cap : Bool) (now : Nat),
      fbCount (playwright_auto_execute pages avail action target value pageIndex
        maxAttempts cap now).toolCalls ≤ maxAttempts - 1 ∧
      (∀ (j : Nat) (nm : String),
        ToolCall.fallbackC j nm ∈ (playwright_auto_execute pages avail action target
          value pageIndex maxAttempts cap now).toolCalls →
        ∃ rec ∈ (playwright_auto_execute pages avail action target value pageIndex
          maxAttempts cap now).attempts, rec.strategy = nm)) := by
  constructor
  · intro pages drv target value pageIndex cap now res1 dcs1 r2 hpage hsc h1 hmsl h2
    have hmap : actionToolMap "click" =
        ["playwright_smart_click", "playwright_multi_strategy_locate",
         "playwright_js_locate"] := by decide
    have hi1 : invokeByName pages "playwright_smart_click" "click" target value
        pageIndex cap now = .ok (res1, dcs1) := by
      simp [invokeByName, hsc]
    have hi2 : invokeByName pages "playwright_multi_strategy_locate" "click" target
        value pageIndex cap now = .ok (r2.out, r2.calls) := by
      simp [invokeByName, hmsl]
    have hp : autoPrimary pages allAvail "click" target value pageIndex cap now
        "playwright_smart_click" =
        .ok ⟨[{ strategy := "playwright_smart_click", target := some target,
                result := "failed", errMsg := some res1.message }],
             [.primaryC "playwright_smart_click"], dcs1⟩ := by
      simp [autoPrimary, allAvail, hi1, h1]
    have hf : autoFallbacks pages allAvail "click" target value pageIndex cap now 3
        ["playwright_multi_strategy_locate", "playwright_js_locate"] 1
        ⟨[{ strategy := "playwright_smart_click", target := some target,
            result := "failed", errMsg := some res1.message }],
         [.primaryC "playwright_smart_click"], dcs1⟩ =
        .error
          ({ status := "success",
             message := "Action 'click' completed successfully with fallback tool",
             toolUsed := some "playwright_multi_strategy_locate",
             details := some r2.out, fallbackAttempt := some 1 },
           ⟨[{ strategy := "playwright_smart_click", target := some target,
               result := "failed", errMsg := some res1.message },
             { strategy := "playwright_multi_strategy_locate", target := some target,
               result := "success" }],
            [.primaryC "playwright_smart_click",
             .fallbackC 1 "playwright_multi_strategy_locate"],
            dcs1 ++ r2.calls⟩) := by
      simp [autoFallbacks, allAvail, hi2, h2]
    simp [playwright_auto_execute, hpage, hmap, bind, Except.bind, hp, hf]
  · intro pages avail action target value pageIndex maxAttempts cap now
    cases hpage : getPage pages pageIndex with
    | none =>
      constructor
      · simp [playwright_auto_execute, hpage, fbCount]
      · intro j nm h
        simp [playwright_auto_execute, hpage] at h
    | some drv =>
      cases hmap : actionToolMap action with
      | nil =>
        constructor
        · simp [playwright_auto_execute, hpage, hmap, fbCount]
        · intro j nm h
          simp [playwright_auto_execute, hpage, hmap] at h
      | cons primaryName fallbackNames =>
        have hpc := autoPrimary_calls pages avail action target value pageIndex cap
          now primaryName
        cases hc1 : autoPrimary pages avail action target value pageIndex cap now
            primaryName with
        | error r =>
          obtain ⟨ret1, stE⟩ := r
          rw [hc1] at hpc
          simp only [] at hpc
          constructor
          · simp only [playwright_auto_execute, hpage, hmap, bind, Except.bind, hc1]
            rcases hpc with h | h <;> simp [h, fbCount]
          · intro j nm h
            simp only [playwright_auto_execute, hpage, hmap, bind, Except.bind,
              hc1] at h
            rcases hpc with h2 | h2 <;> rw [h2] at h <;> simp at h
        | ok st1 =>
          rw [hc1] at hpc
          simp only [] at hpc
          have hst1 : fbCount st1.toolCalls = 0 := by
            rcases hpc with h | h <;> simp [h, fbCount]
          have hfb := autoFallbacks_fbCount pages avail action target value pageIndex
            cap now maxAttempts fallbackNames 1 st1
          have hca := autoFallbacks_call_attempt pages avail action target value
            pageIndex cap now maxAttempts fallbackNames 1 st1
          cases hc2 : autoFallbacks pages avail action target value pageIndex cap now
              maxAttempts fallbackNames 1 st1 with
          | error r =>
            obtain ⟨ret2, st2⟩ := r
            rw [hc2] at hfb hca
            simp only [] at hfb hca
            constructor
            · simp only [playwright_auto_execute, hpage, hmap, bind, Except.bind,
                hc1, hc2]
              omega
            · intro j nm h
              simp only [playwright_auto_execute, hpage, hmap, bind, Except.bind,
                hc1, hc2] at h
              rcases hca j nm h with hmem | hex
              · rcases hpc with h2 | h2 <;> rw [h2] at hmem <;> simp at hmem
              · simp only [playwright_auto_execute, hpage, hmap, bind, Except.bind,
                  hc1, hc2]
                exact hex
          | ok st2 =>
            rw [hc2] at hfb hca
            simp only [] at hfb hca
            rcases hAF : autoFinal drv action target cap now st2 with ⟨r3, st3⟩
            have hfc := autoFinal_fbCount drv action target cap now st2
            have hpre := autoFinal_attempts_prefix drv action target cap now st2
            rw [hAF] at hfc hpre
            simp only [] at hfc hpre
            constructor
            · simp only [playwright_auto_execute, hpage, hmap, bind, Except.bind,
                pure, Except.pure, hc1, hc2, hAF]
              omega
            · intro j nm h
              simp only [playwright_auto_execute, hpage, hmap, bind, Except.bind,
                pure, Except.pure, hc1, hc2, hAF] at h
              have h' := autoFinal_fb_mem drv action target cap now st2 j nm
                (by rw [hAF]; exact h)
              rcases hca j nm h' with hmem | hex
              · rcases hpc with h2 | h2 <;> rw [h2] at hmem <;> simp at hmem
              · obtain ⟨rec, hrec1, hrec2⟩ := hex
                refine ⟨rec, ?_, hrec2⟩
                simp only [playwright_auto_execute, hpage, hmap, bind, Except.bind,
                  pure, Except.pure, hc1, hc2, hAF]
                exact hpre.sublist.subset hrec1

theorem c5_dispatch_two_attempts_witness :
    (playwright_auto_execute [textGoDrv] allAvail "click" "Go" "" 0 3 false
        0).ret.status = "success" ∧
    (playwright_auto_execute [textGoDrv] allAvail "click" "Go" "" 0 3 false
        0).ret.toolUsed = some "playwright_multi_strategy_locate" ∧
    (playwright_auto_execute [textGoDrv] allAvail "click" "Go" "" 0 3 false
        0).ret.fallbackAttempt = some 1 ∧
    (playwright_auto_execute [textGoDrv] allAvail "click" "Go" "" 0 3 false
        0).attempts.length = 2 ∧
    (playwright_auto_execute [textGoDrv] allAvail "click" "Go" "" 0 3 false
        0).toolCalls =
      [.primaryC "playwright_smart_click",
       .fallbackC 1 "playwright_multi_strategy_locate"] := by
  have h := c5_dispatch_two_attempts.1 [textGoDrv] textGoDrv "Go" "" 0 false 0
    (playwright_smart_click [textGoDrv] (some "Go") none "any" 0 false false none 0).1
    (playwright_smart_click [textGoDrv] (some "Go") none "any" 0 false false none 0).2
    (playwright_multi_strategy_locate [textGoDrv] (some "Go") none "click" "" 0 false
      false 0)
    rfl rfl (by decide) rfl (by decide)
  rw [h]
  refine ⟨rfl, rfl, rfl, rfl, rfl⟩

/-- C6 counterexample: with the click verb's primary tool missing from the
tools object, the dispatcher records the missing-tool condition TWICE as an
error attempt (the primary section appends the record, then its own exception
handler mutates and re-appends the same dict), not exactly once — dispatch does
continue to the next tool. -/
theorem c6_missing_tool_counterexample :
    ((playwright_auto_execute [failDrv] noSmartClickAvail "click" "T" "" 0 3 false
        0).attempts.filter (fun r => r.strategy = "playwright_smart_click")).length
      = 2 ∧
    (playwright_auto_execute [failDrv] noSmartClickAvail "click" "T" "" 0 3 false
        0).attempts.take 2 =
      [{ strategy := "playwright_smart_click", target := some "T", result := "error",
         errMsg := some "Tool playwright_smart_click does not exist" },
       { strategy := "playwright_smart_click", target := some "T", result := "error",
         errMsg := some "Tool playwright_smart_click does not exist" }] ∧
    ToolCall.fallbackC 1 "playwright_multi_strategy_locate" ∈
      (playwright_auto_execute [failDrv] noSmartClickAvail "click" "T" "" 0 3 false
        0).toolCalls := by decide

/-- C6 amended: a missing primary tool is recorded twice as an error attempt
(the attempt-dict aliasing double append), after which dispatch continues to
the fallback loop without raising; a missing fallback tool is recorded exactly
once and the loop continues with the next tool at the next index. -/
theorem c6_missing_tool_amended :
    (∀ (pages : List Driver) (drv : Driver) (avail : String → ToolAttr)
        (action target value : String) (pageIndex : Int) (maxAttempts : Nat)
        (cap : Bool) (now : Nat) (primaryName : String) (fallbackNames : List String),
      getPage pages pageIndex = some drv →
      actionToolMap action = primaryName :: fallbackNames →
      avail primaryName = ToolAttr.absent →
      ∃ rest, (playwright_auto_execute pages avail action target value pageIndex
          maxAttempts cap now).attempts =
        { strategy := primaryName, target := some target, result := "error",
          errMsg := some ("Tool " ++ primaryName ++ " does not exist") } ::
        { strategy := primaryName, target := some target, result := "error",
          errMsg := some ("Tool " ++ primaryName ++ " does not exist") } :: rest) ∧
    (∀ (pages : List Driver) (avail : String → ToolAttr) (action target value : String)
        (pageIndex : Int) (cap : Bool) (now : Nat) (maxAttempts : Nat)
        (name : String) (rest : List String) (i : Nat) (st : ASt),
      avail name = ToolAttr.absent →
      ¬ maxAttempts ≤ i →
      autoFallbacks pages avail action target value pageIndex cap now maxAttempts
          (name :: rest) i st =
        autoFallbacks pages avail action target value pageIndex cap now maxAttempts
          rest (i + 1)
          { st with attempts := st.attempts ++
              [{ strategy := name, target := some target, result := "error",
                 errMsg := some ("Tool " ++ name ++ " does not exist") }] }) := by
  constructor
  · intro pages drv avail action target value pageIndex maxAttempts cap now
      primaryName fallbackNames hpage hmap ha
    have hp : autoPrimary pages avail action target value pageIndex cap now
        primaryName =
        .ok ⟨[{ strategy := primaryName, target := some target, result := "error",
                errMsg := some ("Tool " ++ primaryName ++ " does not exist") },
              { strategy := primaryName, target := some target, result := "error",
                errMsg := some ("Tool " ++ primaryName ++ " does not exist") }],
             [], []⟩ := by
      simp [autoPrimary, ha]
    have hmono := autoFallbacks_attempts_mono pages avail action target value
      pageIndex cap now maxAttempts fallbackNames 1
      ⟨[{ strategy := primaryName, target := some target, result := "error",
          errMsg := some ("Tool " ++ primaryName ++ " does not exist") },
        { strategy := primaryName, target := some target, result := "error",
          errMsg := some ("Tool " ++ primaryName ++ " does not exist") }],
       [], []⟩
    cases hc2 : autoFallbacks pages avail action target value pageIndex cap now
        maxAttempts fallbackNames 1
        ⟨[{ strategy := primaryName, target := some target, result := "error",
            errMsg := some ("Tool " ++ primaryName ++ " does not exist") },
          { strategy := primaryName, target := some target, result := "error",
            errMsg := some ("Tool " ++ primaryName ++ " does not exist") }],
         [], []⟩ with
    | error r =>
      obtain ⟨ret2, st2⟩ := r
      rw [hc2] at hmono
      obtain ⟨l2, hl2⟩ := hmono
      refine ⟨l2, ?_⟩
      simp only [playwright_auto_execute, hpage, hmap, bind, Except.bind, hp, hc2]
      simpa using hl2
    | ok st2 =>
      rw [hc2] at hmono
      obtain ⟨l2, hl2⟩ := hmono
      simp only [] at hl2
      rcases hAF : autoFinal drv action target cap now st2 with ⟨r3, st3⟩
      have hpre := autoFinal_attempts_prefix drv action target cap now st2
      rw [hAF] at hpre
      simp only [] at hpre
      obtain ⟨l3, hl3⟩ := hpre
      refine ⟨l2 ++ l3, ?_⟩
      simp only [playwright_auto_execute, hpage, hmap, bind, Except.bind, pure,
        Except.pure, hp, hc2, hAF]
      rw [← hl3, hl2]
      simp
  · intro pages avail action target value pageIndex cap now maxAttempts name rest i
      st ha hm
    simp [autoFallbacks, hm, ha]

theorem c6_missing_tool_amended_witness :
    (∃ rest, (playwright_auto_execute [failDrv] noSmartClickAvail "click" "T" "" 0 3
        false 0).attempts =
      { strategy := "playwright_smart_click", target := some "T", result := "error",
        errMsg := some "Tool playwright_smart_click does not exist" } ::
      { strategy := "playwright_smart_click", target := some "T", result := "error",
        errMsg := some "Tool playwright_smart_click does not exist" } :: rest) ∧
    autoFallbacks [failDrv] noMslAvail "click" "T" "" 0 false 0 3
        ["playwright_multi_strategy_locate", "playwright_js_locate"] 1 ⟨[], [], []⟩ =
      autoFallbacks [failDrv] noMslAvail "click" "T" "" 0 false 0 3
        ["playwright_js_locate"] 2
        ⟨[{ strategy := "playwright_multi_strategy_locate", target := some "T",
            result := "error",
            errMsg := some "Tool playwright_multi_strategy_locate does not exist" }],
         [], []⟩ := by
  constructor
  · have h := c6_missing_tool_amended.1 [failDrv] failDrv noSmartClickAvail "click"
      "T" "" 0 3 false 0 "playwright_smart_click"
      ["playwright_multi_strategy_locate", "playwright_js_locate"] rfl (by decide) rfl
    simpa using h
  · have h := c6_missing_tool_amended.2 [failDrv] noMslAvail "click" "T" "" 0 false 0
      3 "playwright_multi_strategy_locate" ["playwright_js_locate"] 1 ⟨[], [], []⟩
      rfl (by omega)
    simpa using h

/-- C2 counterexample: on a page where the direct/template-selector,
accessibility-tree, visible-text and script-scan strategies all fail,
`playwright_multi_strategy_locate` with action `click` declares final failure
WITHOUT running any last-resort script click: no `js_direct_click` attempt is
recorded and no direct-click script evaluation appears in the driver call
log.  (The last-resort script click lives in `playwright_auto_execute`,
src/Tools/Debug/debug.py lines 586-657, not in the strategy chain executor.) -/
theorem c2_last_resort_counterexample :
    (playwright_multi_strategy_locate [failDrv] (some "Submit") none "click" "" 0
        false false 0).out.status = "error" ∧
    ((playwright_multi_strategy_locate [failDrv] (some "Submit") none "click" "" 0
        false false 0).attempts.filter
        (fun r => r.strategy = "js_direct_click")).length = 0 ∧
    ((playwright_multi_strategy_locate [failDrv] (some "Submit") none "click" "" 0
        false false 0).calls.filter
        (fun c => match c with | DCall.jsDirectClickC _ => true | _ => false)).length
      = 0 := by decide

/-- C2 amended: it is the dispatcher `playwright_auto_execute`, not the
strategy chain executor, that runs the last-resort script click for the click
verb: whenever the primary `playwright_smart_click` and the fallback
`playwright_multi_strategy_locate` both fail (and `playwright_js_locate`
always raises on the dispatcher's keyword arguments), the dispatcher evaluates
the direct-click script and records a `js_direct_click` attempt before
returning. -/
theorem c2_last_resort_amended :
    ∀ (pages : List Driver) (drv : Driver) (target value : String) (pageIndex : Int)
      (maxAttempts : Nat) (cap : Bool) (now : Nat) (res1 : Outcome)
      (dcs1 : List DCall) (r2 : RunOut),
    getPage pages pageIndex = some drv →
    playwright_smart_click pages (some target) none "any" pageIndex cap false none
      now = (res1, dcs1) →
    res1.status ≠ "success" →
    playwright_multi_strategy_locate pages (some target) none "click" value pageIndex
      cap false now = r2 →
    r2.out.status ≠ "success" →
    ToolCall.lastResortC target ∈ (playwright_auto_execute pages allAvail "click"
      target value pageIndex maxAttempts cap now).toolCalls ∧
    ∃ rec ∈ (playwright_auto_execute pages allAvail "click" target value pageIndex
      maxAttempts cap now).attempts, rec.strategy = "js_direct_click" := by
  intro pages drv target value pageIndex maxAttempts cap now res1 dcs1 r2 hpage hsc
    h1 hmsl h2
  have hmap : actionToolMap "click" =
      ["playwright_smart_click", "playwright_multi_strategy_locate",
       "playwright_js_locate"] := by decide
  have hi1 : invokeByName pages "playwright_smart_click" "click" target value
      pageIndex cap now = .ok (res1, dcs1) := by
    simp [invokeByName, hsc]
  have hi2 : invokeByName pages "playwright_multi_strategy_locate" "click" target
      value pageIndex cap now = .ok (r2.out, r2.calls) := by
    simp [invokeByName, hmsl]
  have hi3 : invokeByName pages "playwright_js_locate" "click" target value pageIndex
      cap now =
      .error "playwright_js_locate() got an unexpected keyword argument 'capture_screenshot'" := by
    simp [invokeByName]
  have hp : autoPrimary pages allAvail "click" target value pageIndex cap now
      "playwright_smart_click" =
      .ok ⟨[{ strategy := "playwright_smart_click", target := some target,
              result := "failed", errMsg := some res1.message }],
           [.primaryC "playwright_smart_click"], dcs1⟩ := by
    simp [autoPrimary, allAvail, hi1, h1]
  have hclick : pyLower "click" = "click" := by decide
  by_cases hm1 : maxAttempts ≤ 1
  · have hc2 : autoFallbacks pages allAvail "click" target value pageIndex cap now
        maxAttempts ["playwright_multi_strategy_locate", "playwright_js_locate"] 1
        ⟨[{ strategy := "playwright_smart_click", target := some target,
            result := "failed", errMsg := some res1.message }],
         [.primaryC "playwright_smart_click"], dcs1⟩ =
        .ok ⟨[{ strategy := "playwright_smart_click", target := some target,
                result := "failed", errMsg := some res1.message }],
             [.primaryC "playwright_smart_click"], dcs1⟩ := by
      simp [autoFallbacks, hm1]
    rcases hAF : autoFinal drv "click" target cap now
        ⟨[{ strategy := "playwright_smart_click", target := some target,
            result := "failed", errMsg := some res1.message }],
         [.primaryC "playwright_smart_click"], dcs1⟩ with ⟨r3, st3⟩
    have hmem := autoFinal_click_mem drv "click" target cap now
      ⟨[{ strategy := "playwright_smart_click", target := some target,
          result := "failed", errMsg := some res1.message }],
       [.primaryC "playwright_smart_click"], dcs1⟩ hclick
    rw [hAF] at hmem
    constructor
    · simp only [playwright_auto_execute, hpage, hmap, bind, Except.bind, pure,
        Except.pure, hp, hc2, hAF]
      exact hmem.1
    · simp only [playwright_auto_execute, hpage, hmap, bind, Except.bind, pure,
        Except.pure, hp, hc2, hAF]
      exact hmem.2
  · have hstep1 : autoFallbacks pages allAvail "click" target value pageIndex cap now
        maxAttempts ["playwright_multi_strategy_locate", "playwright_js_locate"] 1
        ⟨[{ strategy := "playwright_smart_click", target := some target,
            result := "failed", errMsg := some res1.message }],
         [.primaryC "playwright_smart_click"], dcs1⟩ =
        autoFallbacks pages allAvail "click" target value pageIndex cap now
          maxAttempts ["playwright_js_locate"] 2
          ⟨[{ strategy := "playwright_smart_click", target := some target,
              result := "failed", errMsg := some res1.message },
            { strategy := "playwright_multi_strategy_locate", target := some target,
              result := "failed", errMsg := some r2.out.message }],
           [.primaryC "playwright_smart_click",
            .fallbackC 1 "playwright_multi_strategy_locate"], dcs1 ++ r2.calls⟩ := by
      simp [autoFallbacks, hm1, allAvail, hi2, h2]
    by_cases hm2 : maxAttempts ≤ 2
    · have hc2 : autoFallbacks pages allAvail "click" target value pageIndex cap now
          maxAttempts ["playwright_js_locate"] 2
          ⟨[{ strategy := "playwright_smart_click", target := some target,
              result := "failed", errMsg := some res1.message },
            { strategy := "playwright_multi_strategy_locate", target := some target,
              result := "failed", errMsg := some r2.out.message }],
           [.primaryC "playwright_smart_click",
            .fallbackC 1 "playwright_multi_strategy_locate"], dcs1 ++ r2.calls⟩ =
          .ok ⟨[{ strategy := "playwright_smart_click", target := some target,
                  result := "failed", errMsg := some res1.message },
                { strategy := "playwright_multi_strategy_locate",
                  target := some target, result := "failed",
                  errMsg := some r2.out.message }],
               [.primaryC "playwright_smart_click",
                .fallbackC 1 "playwright_multi_strategy_locate"],
               dcs1 ++ r2.calls⟩ := by
        simp [autoFallbacks, hm2]
      rcases hAF : autoFinal drv "click" target cap now
          ⟨[{ strategy := "playwright_smart_click", target := some target,
              result := "failed", errMsg := some res1.message },
            { strategy := "playwright_multi_strategy_locate", target := some target,
              result := "failed", errMsg := some r2.out.message }],
           [.primaryC "playwright_smart_click",
            .fallbackC 1 "playwright_multi_strategy_locate"], dcs1 ++ r2.calls⟩
        with ⟨r3, st3⟩
      have hmem := autoFinal_click_mem drv "click" target cap now
        ⟨[{ strategy := "playwright_smart_click", target := some target,
            result := "failed", errMsg := some res1.message },
          { strategy := "playwright_multi_strategy_locate", target := some target,
            result := "failed", errMsg := some r2.out.message }],
         [.primaryC "playwright_smart_click",
          .fallbackC 1 "playwright_multi_strategy_locate"], dcs1 ++ r2.calls⟩ hclick
      rw [hAF] at hmem
      constructor
      · simp only [playwright_auto_execute, hpage, hmap, bind, Except.bind, pure,
          Except.pure, hp, hstep1, hc2, hAF]
        exact hmem.1
      · simp only [playwright_auto_execute, hpage, hmap, bind, Except.bind, pure,
          Except.pure, hp, hstep1, hc2, hAF]
        exact hmem.2
    · have hc2 : autoFallbacks pages allAvail "click" target value pageIndex cap now
          maxAttempts ["playwright_js_locate"] 2
          ⟨[{ strategy := "playwright_smart_click", target := some target,
              result := "failed", errMsg := some res1.message },
            { strategy := "playwright_multi_strategy_locate", target := some target,
              result := "failed", errMsg := some r2.out.message }],
           [.primaryC "playwright_smart_click",
            .fallbackC 1 "playwright_multi_strategy_locate"], dcs1 ++ r2.calls⟩ =
          .ok ⟨[{ strategy := "playwright_smart_click", target := some target,
                  result := "failed", errMsg := some res1.message },
                { strategy := "playwright_multi_strategy_locate",
                  target := some target, result := "failed",
                  errMsg := some r2.out.message },
                { strategy := "playwright_js_locate", target := some target,
                  result := "error",
                  errMsg := some "playwright_js_locate() got an unexpected keyword argument 'capture_screenshot'" }],
               [.primaryC "playwright_smart_click",
                .fallbackC 1 "playwright_multi_strategy_locate"],
               dcs1 ++ r2.calls⟩ := by
        simp [autoFallbacks, hm2, allAvail, hi3]
      rcases hAF : autoFinal drv "click" target cap now
          ⟨[{ strategy := "playwright_smart_click", target := some target,
              result := "failed", errMsg := some res1.message },
            { strategy := "playwright_multi_strategy_locate", target := some target,
              result := "failed", errMsg := some r2.out.message },
            { strategy := "playwright_js_locate", target := some target,
              result := "error",
              errMsg := some "playwright_js_locate() got an unexpected keyword argument 'capture_screenshot'" }],
           [.primaryC "playwright_smart_click",
            .fallbackC 1 "playwright_multi_strategy_locate"], dcs1 ++ r2.calls⟩
        with ⟨r3, st3⟩
      have hmem := autoFinal_click_mem drv "click" target cap now
        ⟨[{ strategy := "playwright_smart_click", target := some target,
            result := "failed", errMsg := some res1.message },
          { strategy := "playwright_multi_strategy_locate", target := some target,
            result := "failed", errMsg := some r2.out.message },
          { strategy := "playwright_js_locate", target := some target,
            result := "error",
            errMsg := some "playwright_js_locate() got an unexpected keyword argument 'capture_screenshot'" }],
         [.primaryC "playwright_smart_click",
          .fallbackC 1 "playwright_multi_strategy_locate"], dcs1 ++ r2.calls⟩ hclick
      rw [hAF] at hmem
      constructor
      · simp only [playwright_auto_execute, hpage, hmap, bind, Except.bind, pure,
          Except.pure, hp, hstep1, hc2, hAF]
        exact hmem.1
      · simp only [playwright_auto_execute, hpage, hmap, bind, Except.bind, pure,
          Except.pure, hp, hstep1, hc2, hAF]
        exact hmem.2

theorem c2_last_resort_amended_witness :
    ToolCall.lastResortC "Submit" ∈ (playwright_auto_execute [failDrv] allAvail
      "click" "Submit" "" 0 3 false 0).toolCalls ∧
    ∃ rec ∈ (playwright_auto_execute [failDrv] allAvail "click" "Submit" "" 0 3 false
      0).attempts, rec.strategy = "js_direct_click" :=
  c2_last_resort_amended [failDrv] failDrv "Submit" "" 0 3 false 0
    (playwright_smart_click [failDrv] (some "Submit") none "any" 0 false false none
      0).1
    (playwright_smart_click [failDrv] (some "Submit") none "any" 0 false false none
      0).2
    (playwright_multi_strategy_locate [failDrv] (some "Submit") none "click" "" 0
      false false 0)
    rfl rfl (by decide) rfl (by decide)

end MCP
